import Mathlib

/- Shallow embedding of the PMS simulator physics engine
   (src/simulator/PMSEngine.js).

   Modelling conventions:
   * JavaScript numbers are modelled as exact rationals.  `Math.PI` is the
     exact rational value of the IEEE-754 double stored in `Math.PI`.
   * The transcendental library functions `Math.exp` and `Math.sin`, and
     the random source `Math.random`, are supplied by an explicit
     environment `Env`; the engine consumes `Math.random()` results from
     the stream `Env.random`, indexed by the counter `State.rngIdx`
     (a modelling artifact: JavaScript hides this counter in the PRNG).
   * Alert message strings carry structured tags (`AlertMsg`) instead of
     formatted text: the numeric formatting (`toFixed`) in messages is pure
     presentation and no message text is ever read back by the engine.
   * JavaScript division by zero yields Infinity/NaN; in the rational model
     it yields 0.  No claim below exercises a division-by-zero state.
   * Falsy tests on numbers (`x || y`, `!map[id]`) are modelled explicitly:
     `0` and missing (`none`) are falsy.
   * The write-only fields `_batteryTimer`, `_batteryTimerActive` and
     `_syncMode` (set by `setBatteryTimer`/`setSyncMode`, never read) are
     omitted, as are the public methods that none of the claims touch
     (`autoSync`, `getState`, `init`, `forceGeneratorState`, bus-tie /
     transformer / consumer / shore controls and the other scenario-setup
     methods). -/

namespace PMS

/-- The exact rational value of the IEEE-754 double `Math.PI`. -/
def MathPI : ℚ := 884279719003555 / 281474976710656

/-- `TWO_PI` from the source. -/
def TwoPi : ℚ := 2 * MathPI

/-- `RAD_TO_DEG = 180 / Math.PI`. -/
def RadToDeg : ℚ := 180 / MathPI

/-- JavaScript `%` (remainder truncated toward zero) on rationals. -/
def jsMod (a m : ℚ) : ℚ :=
  a - m * (if 0 ≤ a / m then (⌊a / m⌋ : ℚ) else (⌈a / m⌉ : ℚ))

/-- `wrapAngle`: wrap an angle into `[0, 2π)`. -/
def wrapAngle (a : ℚ) : ℚ :=
  let r := jsMod a TwoPi
  if r < 0 then r + TwoPi else r

/-- `angleDiff`: signed angular difference in `[-π, π]`. -/
def angleDiff (a b : ℚ) : ℚ :=
  let d := jsMod (a - b) TwoPi
  if d > MathPI then d - TwoPi
  else if d < -MathPI then d + TwoPi
  else d

/-- Environment supplying the JavaScript library functions that are not
rational arithmetic: `Math.exp`, `Math.sin` and the `Math.random` stream. -/
structure Env where
  exp : ℚ → ℚ
  sin : ℚ → ℚ
  random : ℕ → ℚ

/-- `chase`: first-order exponential chase (low pass). -/
def chase (env : Env) (current target tau dt : ℚ) : ℚ :=
  if tau ≤ 0 then target
  else
    let alpha := 1 - env.exp (-(dt / tau))
    current + (target - current) * alpha

/-- `clamp`. -/
def clamp (v lo hi : ℚ) : ℚ :=
  if v < lo then lo else if v > hi then hi else v

/-- `DEFAULT_SETTINGS` (the engine's configuration record; `baseLoad` is
mutated by `setLoadDemand`, so settings live inside the engine state). -/
structure Settings where
  nominalVoltage : ℚ
  nominalFrequency : ℚ
  generatorPoles : ℚ
  dg1Capacity : ℚ
  dg2Capacity : ℚ
  dg3Capacity : ℚ
  dg4Capacity : ℚ
  emgCapacity : ℚ
  defaultDroop : ℚ
  governorTimeConstant : ℚ
  avrTimeConstant : ℚ
  preLubeTime : ℚ
  crankingTime : ℚ
  coolDownTime : ℚ
  syncVoltageTolerance : ℚ
  syncFreqTolerance : ℚ
  syncPhaseTolerance : ℚ
  underFreqTrip : ℚ
  overFreqTrip : ℚ
  underVoltTrip : ℚ
  overVoltTrip : ℚ
  reversePowerTrip : ℚ
  overcurrentPercent : ℚ
  overcurrentTime : ℚ
  underFreqTime : ℚ
  overFreqTime : ℚ
  blackoutDetectDelay : ℚ
  emgAutoStart : Bool
  baseLoad : ℚ
  loadFluctuationPercent : ℚ
  emergencyBaseLoad : ℚ

/-- The default settings object. -/
def defaultSettings : Settings where
  nominalVoltage := 690
  nominalFrequency := 60
  generatorPoles := 10
  dg1Capacity := 1000
  dg2Capacity := 1000
  dg3Capacity := 1000
  dg4Capacity := 1500
  emgCapacity := 500
  defaultDroop := 4
  governorTimeConstant := 8/10
  avrTimeConstant := 3/10
  preLubeTime := 3
  crankingTime := 2
  coolDownTime := 30
  syncVoltageTolerance := 15
  syncFreqTolerance := 2/10
  syncPhaseTolerance := 10
  underFreqTrip := 55
  overFreqTrip := 65
  underVoltTrip := 590
  overVoltTrip := 760
  reversePowerTrip := -5
  overcurrentPercent := 120
  overcurrentTime := 10
  underFreqTime := 5
  overFreqTime := 3
  blackoutDetectDelay := 2
  emgAutoStart := true
  baseLoad := 1200
  loadFluctuationPercent := 2
  emergencyBaseLoad := 150

/-- Generator identities (`GenState`-machine units). -/
inductive GenId
  | DG1 | DG2 | DG3 | DG4 | EMG
deriving DecidableEq, Repr

/-- External (string) identifiers accepted by the operator command API:
the five generator names, the backward-compatibility alias `SG`
(resolved to `DG4`) and any unknown string. -/
inductive ExtId
  | DG1 | DG2 | DG3 | DG4 | EMG | SG | unknownId
deriving DecidableEq, Repr

/-- `const resolvedId = id === 'SG' ? 'DG4' : id` followed by the map
lookup `this.generators[resolvedId]` (unknown ids find no generator). -/
def resolveId : ExtId → Option GenId
  | .DG1 => some .DG1
  | .DG2 => some .DG2
  | .DG3 => some .DG3
  | .DG4 => some .DG4
  | .EMG => some .EMG
  | .SG => some .DG4
  | .unknownId => none

/-- `GenState` enum. -/
inductive GenState
  | OFF | PRE_LUBE | CRANKING | IDLE | RUNNING | COOL_DOWN
deriving DecidableEq, Repr

/-- `BreakerState` enum. -/
inductive BreakerState
  | OPEN | CLOSED | TRIPPED
deriving DecidableEq, Repr

/-- Governor speed mode (`'droop' | 'isochronous'`). -/
inductive SpeedMode
  | droop | isochronous
deriving DecidableEq, Repr

/-- Breaker trip reasons produced by the engine. -/
inductive TripReason
  | under_frequency | over_frequency | under_voltage | over_voltage
  | reverse_power | overcurrent | sync_blackout | sync_damage | sync_surge
deriving DecidableEq, Repr

/-- Bus names used for generator assignment, transformer wiring and
consumer wiring. -/
inductive BusName
  | portBus | stbBus | emergencyBus | mainBus
  | port450Bus | stb450Bus | emg230Bus | dc110Bus
deriving DecidableEq, Repr

/-- Heavy-consumer load profile. -/
inductive Profile
  | sinusoidal | step | constant
deriving DecidableEq, Repr

/-- Alert severities. -/
inductive Severity
  | info | warning | critical
deriving DecidableEq, Repr

/-- Structured alert messages, one constructor per `_addAlert` site that
the embedded operations can reach.  Command-level messages carry the raw
(unresolved) id exactly as the source interpolates `${id}`. -/
inductive AlertMsg
  | genIgnition (g : GenId)
  | genRunning (g : GenId)
  | genShutdownComplete (g : GenId)
  | busTieOpenedBlackout
  | blackoutEmgAutoStart
  | emgBreakerAutoClosed
  | busTieReclosed
  | mainBusBlackout
  | damagedCannotStart (x : ExtId)
  | startSequence (x : ExtId)
  | stopping (x : ExtId)
  | trippedResetBeforeClosing (x : ExtId)
  | notRunningCannotClose (x : ExtId)
  | syncBlocked (x : ExtId)
  | forcedSync (x : ExtId)
  | syncMarginal (x : ExtId)
  | breakerClosedMsg (x : ExtId)
  | trippedUseReset (x : ExtId)
  | breakerOpenedMsg (x : ExtId)
  | breakerNotTripped (x : ExtId)
  | breakerResetMsg (x : ExtId)
  | speedModeSet (x : ExtId) (m : SpeedMode)
  | isoCommsSet (x : ExtId) (b : Bool)
  | breakerTrippedMsg (g : GenId) (r : TripReason)
  | damagedBySync (g : GenId)
  | blackoutBySync (g : GenId)
  | gameOver
deriving DecidableEq, Repr

/-- An alert log record `{ time, severity, message }`. -/
structure Alert where
  time : ℚ
  severity : Severity
  message : AlertMsg

/-- One generator record (`createGenerator`). -/
structure Gen where
  id : GenId
  capacity : ℚ
  isEmergency : Bool
  assignedBus : Option BusName
  state : GenState
  stateTimer : ℚ
  rpm : ℚ
  voltage : ℚ
  frequency : ℚ
  phaseAngle : ℚ
  activePower : ℚ
  reactivePower : ℚ
  breakerState : BreakerState
  breakerTripped : Bool
  tripReason : Option TripReason
  governorSetpoint : ℚ
  avrSetpoint : ℚ
  droopPercent : ℚ
  speedMode : SpeedMode
  isoCommsEnabled : Bool
  autoStart : Bool
  governorTau : ℚ
  avrTau : ℚ
  excitationLevel : ℚ
  excitationTau : ℚ
  underFreqTimer : ℚ
  overFreqTimer : ℚ
  overcurrentTimer : ℚ
  isoIntegral : ℚ
  fuelCommand : ℚ
  damaged : Bool

/-- The five generator records, keyed by `GenId`. -/
structure Gens where
  dg1 : Gen
  dg2 : Gen
  dg3 : Gen
  dg4 : Gen
  emg : Gen

/-- Map lookup `this.generators[id]`. -/
def Gens.get (gs : Gens) : GenId → Gen
  | .DG1 => gs.dg1
  | .DG2 => gs.dg2
  | .DG3 => gs.dg3
  | .DG4 => gs.dg4
  | .EMG => gs.emg

/-- In-place mutation of `this.generators[id]`. -/
def Gens.set (gs : Gens) : GenId → Gen → Gens
  | .DG1, g => { gs with dg1 := g }
  | .DG2, g => { gs with dg2 := g }
  | .DG3, g => { gs with dg3 := g }
  | .DG4, g => { gs with dg4 := g }
  | .EMG, g => { gs with emg := g }

/-- `Object.values(this.generators)` in insertion order. -/
def Gens.list (gs : Gens) : List Gen :=
  [gs.dg1, gs.dg2, gs.dg3, gs.dg4, gs.emg]

/-- A main-board busbar record (`mainBus`, `portBus`, `stbBus`). -/
structure PowerBus where
  voltage : ℚ
  frequency : ℚ
  phaseAngle : ℚ
  totalLoad : ℚ
  totalGeneration : ℚ
  live : Bool

/-- The emergency switchboard record. -/
structure EmergencyBus where
  voltage : ℚ
  frequency : ℚ
  live : Bool
  totalLoad : ℚ
  busTieClosed : Bool

/-- A transformer record.  `turns` models the `ratio` field (primary
voltage over secondary voltage); the display `name` string is omitted. -/
structure Transformer where
  primaryBus : BusName
  secondaryBus : BusName
  turns : ℚ
  capacity : ℚ
  breakerState : BreakerState

/-- The four transformers, in `Object.entries` insertion order. -/
structure Transformers where
  t1 : Transformer
  t2 : Transformer
  t3 : Transformer
  t4 : Transformer

/-- `Object.values(this.transformers)` in insertion order. -/
def Transformers.list (ts : Transformers) : List Transformer :=
  [ts.t1, ts.t2, ts.t3, ts.t4]

/-- A transformer-fed sub-bus record. -/
structure SubBus where
  voltage : ℚ
  frequency : ℚ
  live : Bool
  nominalVoltage : ℚ

/-- The four sub-buses. -/
structure SubBuses where
  port450 : SubBus
  stb450 : SubBus
  emg230 : SubBus
  dc110 : SubBus

/-- `this.subBuses[name]` lookup. -/
def SubBuses.get (sb : SubBuses) : BusName → Option SubBus
  | .port450Bus => some sb.port450
  | .stb450Bus => some sb.stb450
  | .emg230Bus => some sb.emg230
  | .dc110Bus => some sb.dc110
  | _ => none

/-- Store back into `this.subBuses[name]` (no-op for non-sub-bus names). -/
def SubBuses.put (sb : SubBuses) : BusName → SubBus → SubBuses
  | .port450Bus, b => { sb with port450 := b }
  | .stb450Bus, b => { sb with stb450 := b }
  | .emg230Bus, b => { sb with emg230 := b }
  | .dc110Bus, b => { sb with dc110 := b }
  | _, _ => sb

/-- One heavy-consumer record.  The per-id entries of the side maps
`_consumerPhase`, `_consumerStepTimer` and `_consumerStepTarget` are kept
inline as `Option` fields (`none` = key absent from the map). -/
structure Consumer where
  bus : BusName
  maxKw : ℚ
  profile : Profile
  enabled : Bool
  breakerState : BreakerState
  currentLoad : ℚ
  hasVSD : Bool
  phaseSt : Option ℚ
  stepTimerSt : Option ℚ
  stepTargetSt : Option ℚ

/-- The eight heavy consumers, in `Object.entries` insertion order. -/
structure Consumers where
  thrusterST : Consumer
  thrusterMT : Consumer
  thrusterBT : Consumer
  thrusterAZ : Consumer
  crane1 : Consumer
  crane2 : Consumer
  rov1 : Consumer
  rov2 : Consumer

/-- `Object.values(this.heavyConsumers)` in insertion order. -/
def Consumers.list (cs : Consumers) : List Consumer :=
  [cs.thrusterST, cs.thrusterMT, cs.thrusterBT, cs.thrusterAZ,
   cs.crane1, cs.crane2, cs.rov1, cs.rov2]

/-- The shore connection record (never read by the tick pipeline). -/
structure Shore where
  available : Bool
  breakerState : BreakerState
  voltage : ℚ
  frequency : ℚ
  maxPower : ℚ

/-- The complete engine state (the mutable fields of the `PMSEngine`
object).  `rngIdx` is the position in the `Math.random` stream. -/
structure State where
  settings : Settings
  nominalRpm : ℚ
  gens : Gens
  mainBus : PowerBus
  emergencyBus : EmergencyBus
  portBus : PowerBus
  stbBus : PowerBus
  busTieClosed : Bool
  transformers : Transformers
  subBuses : SubBuses
  consumers : Consumers
  shore : Shore
  alerts : List Alert
  simTime : ℚ
  blackout : Bool
  blackoutTimer : ℚ
  emgAutoStartPending : Bool
  emgAutoStartTimer : ℚ
  gameOverReason : Option String
  damageCount : ℕ
  loadNoise : ℚ
  loadNoiseTarget : ℚ
  loadNoiseTimer : ℚ
  rngIdx : ℕ

/-- JavaScript truthiness of the nullable string `gameOverReason`:
`null` and the empty string are falsy. -/
def gameOverTruthy : Option String → Bool
  | none => false
  | some r => decide (r ≠ "")

/-- Draw the next `Math.random()` value from the stream. -/
def nextRand (env : Env) (s : State) : ℚ × State :=
  (env.random s.rngIdx, { s with rngIdx := s.rngIdx + 1 })

/-- `_addAlert`: append a timestamped record; keep only the last 200. -/
def addAlert (s : State) (sev : Severity) (m : AlertMsg) : State :=
  let alerts := s.alerts ++ [⟨s.simTime, sev, m⟩]
  let alerts := if alerts.length > 200 then
      alerts.drop (alerts.length - 200) else alerts
  { s with alerts := alerts }

/-- Read a generator from the state. -/
def State.gen (s : State) (gid : GenId) : Gen := s.gens.get gid

/-- Write a generator back into the state. -/
def State.setGen (s : State) (gid : GenId) (g : Gen) : State :=
  { s with gens := s.gens.set gid g }

/-- `createGenerator(id, capacity, isEmergency, settings, assignedBus)`;
`phase` is the `Math.random() * TWO_PI` initial phase draw. -/
def createGenerator (gid : GenId) (capacity : ℚ) (isEmergency : Bool)
    (st : Settings) (assignedBus : BusName) (phase : ℚ) : Gen :=
  let nominalRpm := st.nominalFrequency * 120 / st.generatorPoles
  let tauOffset : ℚ :=
    match gid with
    | .DG1 => -(15/100)
    | .DG2 => 0
    | .DG3 => 1/10
    | .DG4 => 2/10
    | .EMG => -(5/100)
  { id := gid
    capacity := capacity
    isEmergency := isEmergency
    assignedBus := some assignedBus
    state := GenState.OFF
    stateTimer := 0
    rpm := 0
    voltage := 0
    frequency := 0
    phaseAngle := phase * TwoPi
    activePower := 0
    reactivePower := 0
    breakerState := BreakerState.OPEN
    breakerTripped := false
    tripReason := none
    governorSetpoint := nominalRpm
    avrSetpoint := st.nominalVoltage
    droopPercent := st.defaultDroop
    speedMode := SpeedMode.droop
    isoCommsEnabled := true
    autoStart := if isEmergency then st.emgAutoStart else false
    governorTau := st.governorTimeConstant + tauOffset
    avrTau := st.avrTimeConstant
    excitationLevel := 1
    excitationTau := 1/2
    underFreqTimer := 0
    overFreqTimer := 0
    overcurrentTimer := 0
    isoIntegral := 0
    fuelCommand := 0
    damaged := false }

/-- The `PMSEngine` constructor applied to a (merged) settings record;
the five generator phase draws consume `env.random 0 .. env.random 4`. -/
def mkEngine (st : Settings) (env : Env) : State :=
  let nominalRpm := st.nominalFrequency * 120 / st.generatorPoles
  { settings := st
    nominalRpm := nominalRpm
    gens :=
      { dg1 := createGenerator .DG1 st.dg1Capacity false st .portBus (env.random 0)
        dg2 := createGenerator .DG2 st.dg2Capacity false st .portBus (env.random 1)
        dg3 := createGenerator .DG3 st.dg3Capacity false st .stbBus (env.random 2)
        dg4 := createGenerator .DG4 st.dg4Capacity false st .stbBus (env.random 3)
        emg := createGenerator .EMG st.emgCapacity true st .emergencyBus (env.random 4) }
    mainBus :=
      { voltage := 0, frequency := 0, phaseAngle := 0
        totalLoad := st.baseLoad, totalGeneration := 0, live := false }
    emergencyBus :=
      { voltage := 0, frequency := 0, live := false
        totalLoad := st.emergencyBaseLoad, busTieClosed := true }
    portBus :=
      { voltage := 0, frequency := 0, phaseAngle := 0
        totalLoad := 0, totalGeneration := 0, live := false }
    stbBus :=
      { voltage := 0, frequency := 0, phaseAngle := 0
        totalLoad := 0, totalGeneration := 0, live := false }
    busTieClosed := true
    transformers :=
      { t1 := { primaryBus := .portBus, secondaryBus := .port450Bus
                turns := 690/450, capacity := 500, breakerState := .OPEN }
        t2 := { primaryBus := .stbBus, secondaryBus := .stb450Bus
                turns := 690/450, capacity := 500, breakerState := .OPEN }
        t3 := { primaryBus := .emergencyBus, secondaryBus := .emg230Bus
                turns := 690/230, capacity := 200, breakerState := .OPEN }
        t4 := { primaryBus := .emg230Bus, secondaryBus := .dc110Bus
                turns := 230/110, capacity := 50, breakerState := .OPEN } }
    subBuses :=
      { port450 := { voltage := 0, frequency := 0, live := false, nominalVoltage := 450 }
        stb450 := { voltage := 0, frequency := 0, live := false, nominalVoltage := 450 }
        emg230 := { voltage := 0, frequency := 0, live := false, nominalVoltage := 230 }
        dc110 := { voltage := 0, frequency := 0, live := false, nominalVoltage := 110 } }
    consumers :=
      { thrusterST := { bus := .portBus, maxKw := 600, profile := .sinusoidal
                        enabled := false, breakerState := .OPEN, currentLoad := 0
                        hasVSD := true, phaseSt := none, stepTimerSt := none, stepTargetSt := none }
        thrusterMT := { bus := .portBus, maxKw := 500, profile := .sinusoidal
                        enabled := false, breakerState := .OPEN, currentLoad := 0
                        hasVSD := true, phaseSt := none, stepTimerSt := none, stepTargetSt := none }
        thrusterBT := { bus := .stbBus, maxKw := 600, profile := .sinusoidal
                        enabled := false, breakerState := .OPEN, currentLoad := 0
                        hasVSD := true, phaseSt := none, stepTimerSt := none, stepTargetSt := none }
        thrusterAZ := { bus := .stbBus, maxKw := 800, profile := .sinusoidal
                        enabled := false, breakerState := .OPEN, currentLoad := 0
                        hasVSD := true, phaseSt := none, stepTimerSt := none, stepTargetSt := none }
        crane1 := { bus := .port450Bus, maxKw := 200, profile := .step
                    enabled := false, breakerState := .OPEN, currentLoad := 0
                    hasVSD := false, phaseSt := none, stepTimerSt := none, stepTargetSt := none }
        crane2 := { bus := .stb450Bus, maxKw := 200, profile := .step
                    enabled := false, breakerState := .OPEN, currentLoad := 0
                    hasVSD := false, phaseSt := none, stepTimerSt := none, stepTargetSt := none }
        rov1 := { bus := .port450Bus, maxKw := 150, profile := .constant
                  enabled := false, breakerState := .OPEN, currentLoad := 0
                  hasVSD := false, phaseSt := none, stepTimerSt := none, stepTargetSt := none }
        rov2 := { bus := .stb450Bus, maxKw := 150, profile := .constant
                  enabled := false, breakerState := .OPEN, currentLoad := 0
                  hasVSD := false, phaseSt := none, stepTimerSt := none, stepTargetSt := none } }
    shore :=
      { available := true, breakerState := .OPEN
        voltage := 690, frequency := 60, maxPower := 2000 }
    alerts := []
    simTime := 0
    blackout := false
    blackoutTimer := 0
    emgAutoStartPending := false
    emgAutoStartTimer := 0
    gameOverReason := none
    damageCount := 0
    loadNoise := 0
    loadNoiseTarget := 0
    loadNoiseTimer := 0
    rngIdx := 5 }

/-- `_setGenState`: switch state and reset the state timer. -/
def setGenStateTo (g : Gen) (st : GenState) : Gen :=
  { g with state := st, stateTimer := 0 }

/-- `_tripBreaker`: force a breaker to TRIPPED, zero power output and
integral/fault-timer state, and log a critical alert; a no-op on an
already-TRIPPED breaker. -/
def tripBreaker (s : State) (gid : GenId) (reason : TripReason) : State :=
  let g := s.gen gid
  if g.breakerState = BreakerState.TRIPPED then s
  else
    let g2 := { g with breakerState := BreakerState.TRIPPED
                       breakerTripped := true
                       tripReason := some reason
                       activePower := 0
                       reactivePower := 0
                       isoIntegral := 0
                       underFreqTimer := 0
                       overFreqTimer := 0
                       overcurrentTimer := 0 }
    addAlert (s.setGen gid g2) Severity.critical (AlertMsg.breakerTrippedMsg g.id reason)

/-- Severity of a synchronisation-check result. -/
inductive SyncSeverity
  | ok | warning | damage | block
deriving DecidableEq, Repr

/-- `_checkSync`'s transient result (the formatted `reason` text is
presentation and is omitted). -/
structure SyncResult where
  severity : SyncSeverity
  dV : ℚ
  dF : ℚ
  dThetaDeg : ℚ
  blackout : Bool

/-- `_checkSync`: classify a close-breaker attempt against the main bus. -/
def checkSync (s : State) (g : Gen) : SyncResult :=
  let st := s.settings
  let bus := s.mainBus
  let dV := |g.voltage - bus.voltage|
  let dF := |g.frequency - bus.frequency|
  let dThetaDeg := |angleDiff g.phaseAngle bus.phaseAngle| * RadToDeg
  if dThetaDeg > 90 then
    { severity := SyncSeverity.damage, dV := dV, dF := dF, dThetaDeg := dThetaDeg, blackout := true }
  else if dThetaDeg > 30 then
    { severity := SyncSeverity.damage, dV := dV, dF := dF, dThetaDeg := dThetaDeg, blackout := false }
  else if dF > 1/2 then
    { severity := SyncSeverity.damage, dV := dV, dF := dF, dThetaDeg := dThetaDeg, blackout := false }
  else if dV > st.syncVoltageTolerance * 3 then
    { severity := SyncSeverity.damage, dV := dV, dF := dF, dThetaDeg := dThetaDeg, blackout := false }
  else if dThetaDeg > st.syncPhaseTolerance ∨ dF > st.syncFreqTolerance ∨ dV > st.syncVoltageTolerance then
    { severity := SyncSeverity.warning, dV := dV, dF := dF, dThetaDeg := dThetaDeg, blackout := false }
  else
    { severity := SyncSeverity.ok, dV := dV, dF := dF, dThetaDeg := dThetaDeg, blackout := false }

/-- The terminal reason string
`Excessive equipment damage (N incidents)`. -/
def gameOverString (n : ℕ) : String :=
  "Excessive equipment damage (" ++ toString n ++ " incidents)"

/-- The blackout-cascade loop inside `_applySyncDamage`: trip every
closed non-emergency breaker. -/
def tripAllClosedNonEmergency (s : State) : State :=
  [GenId.DG1, GenId.DG2, GenId.DG3, GenId.DG4, GenId.EMG].foldl
    (fun s gid =>
      let g := s.gen gid
      if g.breakerState = BreakerState.CLOSED ∧ g.isEmergency = false then
        tripBreaker s gid TripReason.sync_blackout
      else s) s

/-- `_applySyncDamage`: count the incident, then either cascade
(blackout), trip-and-mark-damaged (phase delta above 30 degrees, with the
game-over check), or trip as a surge. -/
def applySyncDamage (s : State) (gid : GenId) (r : SyncResult) : State :=
  let s := { s with damageCount := s.damageCount + 1 }
  if r.blackout then
    let s := addAlert s Severity.critical (AlertMsg.blackoutBySync (s.gen gid).id)
    tripAllClosedNonEmergency s
  else if r.dThetaDeg > 30 then
    let s := tripBreaker s gid TripReason.sync_damage
    let s := s.setGen gid { s.gen gid with damaged := true }
    let s := addAlert s Severity.critical (AlertMsg.damagedBySync (s.gen gid).id)
    if s.damageCount ≥ 3 then
      let s := { s with gameOverReason := some (gameOverString s.damageCount) }
      addAlert s Severity.critical AlertMsg.gameOver
    else s
  else
    tripBreaker s gid TripReason.sync_surge

/-- `startGenerator(id)`. -/
def startGenerator (s : State) (x : ExtId) : State :=
  match resolveId x with
  | none => s
  | some gid =>
    let g := s.gen gid
    if g.state ≠ GenState.OFF then s
    else if g.damaged then addAlert s Severity.warning (AlertMsg.damagedCannotStart x)
    else
      let s := s.setGen gid (setGenStateTo g GenState.PRE_LUBE)
      addAlert s Severity.info (AlertMsg.startSequence x)

/-- `openBreaker(id)`. -/
def openBreaker (s : State) (x : ExtId) : State :=
  match resolveId x with
  | none => s
  | some gid =>
    let g := s.gen gid
    if g.breakerState = BreakerState.TRIPPED then
      addAlert s Severity.warning (AlertMsg.trippedUseReset x)
    else if g.breakerState = BreakerState.OPEN then s
    else
      let s := s.setGen gid { g with breakerState := BreakerState.OPEN
                                     activePower := 0
                                     reactivePower := 0
                                     isoIntegral := 0 }
      addAlert s Severity.info (AlertMsg.breakerOpenedMsg x)

/-- `stopGenerator(id)`: force the breaker open first if closed, then
enter COOL_DOWN. -/
def stopGenerator (s : State) (x : ExtId) : State :=
  match resolveId x with
  | none => s
  | some gid =>
    let g := s.gen gid
    if g.state = GenState.OFF ∨ g.state = GenState.COOL_DOWN then s
    else
      let s := if g.breakerState = BreakerState.CLOSED then openBreaker s x else s
      let s := s.setGen gid (setGenStateTo (s.gen gid) GenState.COOL_DOWN)
      addAlert s Severity.info (AlertMsg.stopping x)

/-- The unconditional tail of `closeBreaker`: close the breaker, clear
the trip flags and log the info alert (the source falls through to these
statements on every non-returning path, including after
`_applySyncDamage`). -/
def finishClose (s : State) (x : ExtId) (gid : GenId) : State :=
  let g := s.gen gid
  let s := s.setGen gid { g with breakerState := BreakerState.CLOSED
                                 breakerTripped := false
                                 tripReason := none }
  addAlert s Severity.info (AlertMsg.breakerClosedMsg x)

/-- `closeBreaker(id)`: validation, synchronisation check against a live
bus for non-emergency units, then the unconditional close. -/
def closeBreaker (s : State) (x : ExtId) : State :=
  match resolveId x with
  | none => s
  | some gid =>
    let g := s.gen gid
    if g.breakerState = BreakerState.TRIPPED then
      addAlert s Severity.warning (AlertMsg.trippedResetBeforeClosing x)
    else if g.breakerState = BreakerState.CLOSED then s
    else if g.state ≠ GenState.RUNNING then
      addAlert s Severity.warning (AlertMsg.notRunningCannotClose x)
    else
      let busLive := if g.isEmergency then s.emergencyBus.live else s.mainBus.live
      if busLive = true ∧ g.isEmergency = false then
        let r := checkSync s g
        if r.severity = SyncSeverity.block then
          addAlert s Severity.warning (AlertMsg.syncBlocked x)
        else
          let s :=
            if r.severity = SyncSeverity.damage then
              applySyncDamage (addAlert s Severity.critical (AlertMsg.forcedSync x)) gid r
            else if r.severity = SyncSeverity.warning then
              addAlert s Severity.warning (AlertMsg.syncMarginal x)
            else s
          finishClose s x gid
      else
        finishClose s x gid

/-- `resetBreaker(id)`: TRIPPED to OPEN. -/
def resetBreaker (s : State) (x : ExtId) : State :=
  match resolveId x with
  | none => s
  | some gid =>
    let g := s.gen gid
    if g.breakerState ≠ BreakerState.TRIPPED then
      addAlert s Severity.info (AlertMsg.breakerNotTripped x)
    else
      let s := s.setGen gid { g with breakerState := BreakerState.OPEN
                                     breakerTripped := false
                                     tripReason := none }
      addAlert s Severity.info (AlertMsg.breakerResetMsg x)

/-- `setGovernorSetpoint(id, rpm)`. -/
def setGovernorSetpoint (s : State) (x : ExtId) (rpm : ℚ) : State :=
  match resolveId x with
  | none => s
  | some gid =>
    s.setGen gid { s.gen gid with governorSetpoint := clamp rpm 0 (s.nominalRpm * (115/100)) }

/-- `setAvrSetpoint(id, voltage)`. -/
def setAvrSetpoint (s : State) (x : ExtId) (voltage : ℚ) : State :=
  match resolveId x with
  | none => s
  | some gid =>
    s.setGen gid
      { s.gen gid with avrSetpoint := clamp voltage 0 (s.settings.nominalVoltage * (12/10)) }

/-- `setSpeedMode(id, mode)` (the mode argument is already one of the two
valid modes, so the source's string validation always passes). -/
def setSpeedMode (s : State) (x : ExtId) (mode : SpeedMode) : State :=
  match resolveId x with
  | none => s
  | some gid =>
    let s := s.setGen gid { s.gen gid with speedMode := mode, isoIntegral := 0 }
    addAlert s Severity.info (AlertMsg.speedModeSet x mode)

/-- `setDroopPercent(id, percent)`. -/
def setDroopPercent (s : State) (x : ExtId) (percent : ℚ) : State :=
  match resolveId x with
  | none => s
  | some gid =>
    s.setGen gid { s.gen gid with droopPercent := clamp percent 0 8 }

/-- `setIsoComms(id, enabled)`. -/
def setIsoComms (s : State) (x : ExtId) (enabled : Bool) : State :=
  match resolveId x with
  | none => s
  | some gid =>
    let s := s.setGen gid { s.gen gid with isoCommsEnabled := enabled, isoIntegral := 0 }
    addAlert s Severity.info (AlertMsg.isoCommsSet x enabled)

/-- `_getOnlineMainGens`: non-emergency, RUNNING, breaker CLOSED. -/
def getOnlineMainGens (s : State) : List Gen :=
  s.gens.list.filter (fun g =>
    decide (g.isEmergency = false ∧ g.state = GenState.RUNNING ∧
            g.breakerState = BreakerState.CLOSED))

/-- `_getOnlineGensForBus`. -/
def getOnlineGensForBus (s : State) (b : BusName) : List Gen :=
  s.gens.list.filter (fun g =>
    decide (g.assignedBus = some b ∧ g.state = GenState.RUNNING ∧
            g.breakerState = BreakerState.CLOSED))

/-- `this.simTime += dt` at the head of `tick`. -/
def advanceSimTime (dt : ℚ) (s : State) : State :=
  { s with simTime := s.simTime + dt }

/-- `_updateLoadNoise`: smooth random walk of the base-load fluctuation. -/
def updateLoadNoise (env : Env) (dt : ℚ) (s : State) : State :=
  let s := { s with loadNoiseTimer := s.loadNoiseTimer - dt }
  let s :=
    if s.loadNoiseTimer ≤ 0 then
      let (r1, s) := nextRand env s
      let target := (r1 * 2 - 1) * s.settings.baseLoad * (s.settings.loadFluctuationPercent / 100)
      let s := { s with loadNoiseTarget := target }
      let (r2, s) := nextRand env s
      { s with loadNoiseTimer := 1/2 + r2 * (3/2) }
    else s
  { s with loadNoise := chase env s.loadNoise s.loadNoiseTarget (3/10) dt }

/-- Read-only view of a bus produced by `_resolveBus`. -/
structure BusView where
  voltage : ℚ
  frequency : ℚ
  live : Bool

/-- `_resolveBus(busName)`. -/
def resolveBus (s : State) : BusName → Option BusView
  | BusName.portBus => some { voltage := s.portBus.voltage, frequency := s.portBus.frequency, live := s.portBus.live }
  | BusName.stbBus => some { voltage := s.stbBus.voltage, frequency := s.stbBus.frequency, live := s.stbBus.live }
  | BusName.emergencyBus => some { voltage := s.emergencyBus.voltage, frequency := s.emergencyBus.frequency, live := s.emergencyBus.live }
  | BusName.mainBus => some { voltage := s.mainBus.voltage, frequency := s.mainBus.frequency, live := s.mainBus.live }
  | b => (s.subBuses.get b).map (fun sb => { voltage := sb.voltage, frequency := sb.frequency, live := sb.live })

/-- JavaScript falsiness of an optional numeric map entry
(`!map[id]`): missing or zero. -/
def falsyOpt : Option ℚ → Bool
  | none => true
  | some v => decide (v = 0)

/-- One consumer's update inside `_computeHeavyConsumers`; returns the
updated consumer record and the state with the random draws consumed. -/
def tickConsumerRec (env : Env) (dt : ℚ) (s : State) (c : Consumer) : Consumer × State :=
  if ¬(c.enabled = true ∧ c.breakerState = BreakerState.CLOSED) then
    ({ c with currentLoad := chase env c.currentLoad 0 (3/10) dt }, s)
  else
    match resolveBus s c.bus with
    | none => ({ c with currentLoad := chase env c.currentLoad 0 (3/10) dt }, s)
    | some bv =>
      if bv.live = false then
        ({ c with currentLoad := chase env c.currentLoad 0 (3/10) dt }, s)
      else
        match c.profile with
        | Profile.sinusoidal =>
          let (phase0, s) :=
            if falsyOpt c.phaseSt then
              let (r, s) := nextRand env s
              (r * TwoPi, s)
            else (c.phaseSt.getD 0, s)
          let phase := phase0 + dt * (5/100) * TwoPi
          let (r2, s) := nextRand env s
          let noiseV := (r2 - 1/2) * (5/100)
          let target := clamp (c.maxKw * (1/2 + (1/2) * env.sin phase + noiseV)) 0 c.maxKw
          ({ c with phaseSt := some phase
                    currentLoad := chase env c.currentLoad target (1/2) dt }, s)
        | Profile.step =>
          let stepTimer := if falsyOpt c.stepTimerSt then 0 else c.stepTimerSt.getD 0
          let stepTarget := if falsyOpt c.stepTargetSt then c.maxKw * (3/10) else c.stepTargetSt.getD 0
          let stepTimer := stepTimer - dt
          let (stepTimer, stepTarget, s) :=
            if stepTimer ≤ 0 then
              let (r, s) := nextRand env s
              let stepTarget := c.maxKw * (2/10 + r * (8/10))
              let (r2, s) := nextRand env s
              (10 + r2 * 20, stepTarget, s)
            else (stepTimer, stepTarget, s)
          ({ c with stepTimerSt := some stepTimer
                    stepTargetSt := some stepTarget
                    currentLoad := chase env c.currentLoad stepTarget (1/2) dt }, s)
        | Profile.constant =>
          ({ c with currentLoad := chase env c.currentLoad (c.maxKw * (7/10)) (1/2) dt }, s)

/-- `_computeHeavyConsumers`: update the eight consumers in insertion
order (each may consume random draws). -/
def computeHeavyConsumers (env : Env) (dt : ℚ) (s : State) : State :=
  let p := tickConsumerRec env dt s s.consumers.thrusterST
  let s := { p.2 with consumers := { p.2.consumers with thrusterST := p.1 } }
  let p := tickConsumerRec env dt s s.consumers.thrusterMT
  let s := { p.2 with consumers := { p.2.consumers with thrusterMT := p.1 } }
  let p := tickConsumerRec env dt s s.consumers.thrusterBT
  let s := { p.2 with consumers := { p.2.consumers with thrusterBT := p.1 } }
  let p := tickConsumerRec env dt s s.consumers.thrusterAZ
  let s := { p.2 with consumers := { p.2.consumers with thrusterAZ := p.1 } }
  let p := tickConsumerRec env dt s s.consumers.crane1
  let s := { p.2 with consumers := { p.2.consumers with crane1 := p.1 } }
  let p := tickConsumerRec env dt s s.consumers.crane2
  let s := { p.2 with consumers := { p.2.consumers with crane2 := p.1 } }
  let p := tickConsumerRec env dt s s.consumers.rov1
  let s := { p.2 with consumers := { p.2.consumers with rov1 := p.1 } }
  let p := tickConsumerRec env dt s s.consumers.rov2
  { p.2 with consumers := { p.2.consumers with rov2 := p.1 } }

/-- `_tickGovernorDroop`. -/
def tickGovernorDroop (env : Env) (dt : ℚ) (s : State) (g : Gen) : Gen :=
  let st := s.settings
  let fSetpoint := g.governorSetpoint * st.generatorPoles / 120
  let droop := g.droopPercent / 100
  let fBus := if s.mainBus.frequency = 0 then fSetpoint else s.mainBus.frequency
  let targetPower := if droop > 0 then g.capacity * ((fSetpoint - fBus) / (droop * fSetpoint)) else 0
  let targetPower := clamp targetPower 0 g.capacity
  let g := { g with activePower := chase env g.activePower targetPower g.governorTau dt }
  let pFrac := g.activePower / g.capacity
  let targetFreq := fSetpoint * (1 - droop * pFrac)
  let targetRpm := targetFreq * 120 / st.generatorPoles
  { g with rpm := chase env g.rpm targetRpm (g.governorTau * (1/2)) dt
           fuelCommand := clamp (15/100 + (85/100) * pFrac) 0 1 }

/-- `_tickGovernorIsochronous`. -/
def tickGovernorIso (env : Env) (dt : ℚ) (s : State) (g : Gen) : Gen :=
  let st := s.settings
  let fSetpoint := g.governorSetpoint * st.generatorPoles / 120
  let g :=
    if g.isoCommsEnabled then
      let onlineGens := getOnlineMainGens s
      let totalCapacity := (onlineGens.map (fun x => x.capacity)).sum
      let loadShare := if totalCapacity > 0 then s.mainBus.totalLoad / totalCapacity * g.capacity else 0
      let targetPower := clamp loadShare 0 g.capacity
      let g := { g with activePower := chase env g.activePower targetPower g.governorTau dt }
      { g with rpm := chase env g.rpm g.governorSetpoint (g.governorTau * (3/10)) dt }
    else
      let fBus := if s.mainBus.frequency = 0 then fSetpoint else s.mainBus.frequency
      let freqError := fSetpoint - fBus
      let isoIntegral := clamp (g.isoIntegral + freqError * dt) (-5) 5
      let kp := g.capacity * (8/10)
      let ki := g.capacity * (3/10)
      let pCommand := kp * freqError + ki * isoIntegral
      let targetPower := clamp pCommand 0 g.capacity
      let g := { g with isoIntegral := isoIntegral
                        activePower := chase env g.activePower targetPower g.governorTau dt }
      { g with rpm := chase env g.rpm g.governorSetpoint g.governorTau dt }
  let pFrac := g.activePower / g.capacity
  { g with fuelCommand := clamp (15/100 + (85/100) * pFrac) 0 1 }

/-- `_tickGovernor` (RUNNING state only). -/
def tickGovernor (env : Env) (dt : ℚ) (s : State) (g : Gen) : Gen :=
  if g.breakerState ≠ BreakerState.CLOSED then
    { g with rpm := chase env g.rpm g.governorSetpoint g.governorTau dt
             fuelCommand := chase env g.fuelCommand (15/100) g.governorTau dt
             activePower := 0
             reactivePower := 0 }
  else if g.speedMode = SpeedMode.droop then tickGovernorDroop env dt s g
  else tickGovernorIso env dt s g

/-- `_tickAVR`: excitation dynamics and the simplified reactive model. -/
def tickAVR (env : Env) (dt : ℚ) (s : State) (g : Gen) : Gen :=
  let loadFrac := if g.capacity > 0 then g.activePower / g.capacity else 0
  let voltageSag := g.avrSetpoint * (5/100) * loadFrac
  let targetExcitation := 1 + voltageSag / g.avrSetpoint
  let g := { g with excitationLevel := chase env g.excitationLevel targetExcitation g.excitationTau dt }
  let effectiveTarget := g.avrSetpoint * g.excitationLevel - voltageSag
  if g.breakerState = BreakerState.CLOSED then
    let busVoltage := if s.mainBus.voltage = 0 then g.avrSetpoint else s.mainBus.voltage
    let vError := g.avrSetpoint - busVoltage
    { g with voltage := chase env g.voltage effectiveTarget g.avrTau dt
             reactivePower := clamp (vError * 5) (-(g.capacity * (1/2))) (g.capacity * (1/2)) }
  else
    { g with voltage := chase env g.voltage effectiveTarget g.avrTau dt
             reactivePower := 0 }

/-- The state-machine switch of `_tickGenerator` (timer bump, per-state
physics, dwell transitions and their alerts). -/
def tickGenSwitch (env : Env) (dt : ℚ) (s : State) (gid : GenId) : State :=
  let st := s.settings
  let g := s.gen gid
  let g := { g with stateTimer := g.stateTimer + dt }
  match g.state with
  | GenState.OFF =>
      s.setGen gid { g with rpm := chase env g.rpm 0 1 dt
                            voltage := chase env g.voltage 0 (1/2) dt
                            fuelCommand := 0
                            activePower := 0
                            reactivePower := 0 }
  | GenState.PRE_LUBE =>
      let g := { g with rpm := 0, voltage := 0 }
      if g.stateTimer ≥ st.preLubeTime then
        s.setGen gid (setGenStateTo g GenState.CRANKING)
      else s.setGen gid g
  | GenState.CRANKING =>
      let g := { g with rpm := chase env g.rpm (s.nominalRpm * (3/10)) (8/10) dt, voltage := 0 }
      if g.stateTimer ≥ st.crankingTime then
        addAlert (s.setGen gid (setGenStateTo g GenState.IDLE)) Severity.info (AlertMsg.genIgnition g.id)
      else s.setGen gid g
  | GenState.IDLE =>
      let g := { g with fuelCommand := chase env g.fuelCommand (15/100) g.governorTau dt }
      let g := { g with rpm := chase env g.rpm s.nominalRpm (g.governorTau * (12/10)) dt }
      let g := { g with voltage := chase env g.voltage g.avrSetpoint (g.avrTau * 2) dt }
      if g.rpm > s.nominalRpm * (95/100) ∧ g.voltage > st.nominalVoltage * (9/10) then
        addAlert (s.setGen gid (setGenStateTo g GenState.RUNNING)) Severity.info (AlertMsg.genRunning g.id)
      else s.setGen gid g
  | GenState.RUNNING =>
      let g := tickGovernor env dt s g
      let g := tickAVR env dt s g
      s.setGen gid g
  | GenState.COOL_DOWN =>
      let g := { g with fuelCommand := chase env g.fuelCommand 0 (1/2) dt
                        rpm := chase env g.rpm (s.nominalRpm * (3/10)) 2 dt
                        voltage := chase env g.voltage 0 1 dt
                        activePower := 0
                        reactivePower := 0 }
      if g.stateTimer ≥ st.coolDownTime then
        addAlert (s.setGen gid (setGenStateTo g GenState.OFF)) Severity.info (AlertMsg.genShutdownComplete g.id)
      else s.setGen gid g

/-- The tail of `_tickGenerator`: derive frequency from rpm, advance and
wrap the phase angle, then clamp rpm and voltage non-negative. -/
def tickGenTail (dt : ℚ) (s : State) (gid : GenId) : State :=
  let st := s.settings
  let g := s.gen gid
  let freq := g.rpm * st.generatorPoles / 120
  let g := { g with frequency := freq
                    phaseAngle := wrapAngle (g.phaseAngle + TwoPi * freq * dt) }
  s.setGen gid { g with rpm := max 0 g.rpm, voltage := max 0 g.voltage }

/-- `_tickGenerator` for one unit. -/
def tickGeneratorOne (env : Env) (dt : ℚ) (s : State) (gid : GenId) : State :=
  tickGenTail dt (tickGenSwitch env dt s gid) gid

/-- Tick all five generators in insertion order (step 3 of `tick`). -/
def tickGenerators (env : Env) (dt : ℚ) (s : State) : State :=
  [GenId.DG1, GenId.DG2, GenId.DG3, GenId.DG4, GenId.EMG].foldl (tickGeneratorOne env dt) s

/-- `_computeBusFromGens`: capacity-weighted aggregation, or exponential
decay toward zero when no generator is online. -/
def busAccStep (a : ℚ × ℚ × ℚ × ℚ) (g : Gen) : ℚ × ℚ × ℚ × ℚ :=
  (a.1 + g.capacity, a.2.1 + g.frequency * g.capacity,
   a.2.2.1 + g.voltage * g.capacity, a.2.2.2 + g.activePower)

def computeBusFromGens (env : Env) (dt : ℚ) (bus : PowerBus) (onlineGens : List Gen) : PowerBus :=
  if onlineGens.length = 0 then
    let voltage := chase env bus.voltage 0 (3/10) dt
    { bus with voltage := voltage
               frequency := chase env bus.frequency 0 (1/2) dt
               totalGeneration := 0
               live := decide (voltage > 50) }
  else
    let acc := onlineGens.foldl busAccStep (0, 0, 0, 0)
    let frequency := acc.2.1 / acc.1
    let voltage := acc.2.2.1 / acc.1
    { bus with frequency := frequency
               voltage := voltage
               totalGeneration := acc.2.2.2
               live := decide (voltage > 50)
               phaseAngle := wrapAngle (bus.phaseAngle + TwoPi * frequency * dt) }

/-- Direct consumer load attached to a bus. -/
def consumerLoadOn (s : State) (b : BusName) : ℚ :=
  (s.consumers.list.map (fun c => if c.bus = b then c.currentLoad else 0)).sum

/-- Consumer load on a transformer's secondary bus. -/
def subLoadThrough (s : State) (t : Transformer) : ℚ :=
  (s.consumers.list.map (fun c => if c.bus = t.secondaryBus then c.currentLoad else 0)).sum

/-- Sub-bus load transformed up to a primary bus through closed
transformer breakers. -/
def transformerLoadOn (s : State) (b : BusName) : ℚ :=
  (s.transformers.list.map (fun t =>
    if t.breakerState = BreakerState.CLOSED ∧ t.primaryBus = b then subLoadThrough s t else 0)).sum

/-- `_computePortStbBuses` (step 4): aggregate each side, attach consumer
loads, then equalise the two sides when the bus-tie is closed and both
are live. -/
def computePortStbBuses (env : Env) (dt : ℚ) (s : State) : State :=
  let portGens := getOnlineGensForBus s BusName.portBus
  let stbGens := getOnlineGensForBus s BusName.stbBus
  let portBus := computeBusFromGens env dt s.portBus portGens
  let stbBus := computeBusFromGens env dt s.stbBus stbGens
  let portLoad := consumerLoadOn s BusName.portBus + transformerLoadOn s BusName.portBus
  let stbLoad := consumerLoadOn s BusName.stbBus + transformerLoadOn s BusName.stbBus
  let s := { s with portBus := { portBus with totalLoad := portLoad }
                    stbBus := { stbBus with totalLoad := stbLoad } }
  if s.busTieClosed = true ∧ s.portBus.live = true ∧ s.stbBus.live = true then
    let avgFreq := (s.portBus.frequency + s.stbBus.frequency) / 2
    let avgVolt := (s.portBus.voltage + s.stbBus.voltage) / 2
    { s with portBus := { s.portBus with frequency := avgFreq, voltage := avgVolt }
             stbBus := { s.stbBus with frequency := avgFreq, voltage := avgVolt } }
  else s

/-- `_computeMainBus` (step 5): the backward-compatibility aggregate of
port and starboard, plus the total-load computation. -/
def computeMainBus (env : Env) (dt : ℚ) (s : State) : State :=
  let portLive := s.portBus.live
  let stbLive := s.stbBus.live
  let mb := s.mainBus
  let mb :=
    if s.busTieClosed then
      if portLive = true ∨ stbLive = true then
        let totalGen := s.portBus.totalGeneration + s.stbBus.totalGeneration
        let mb :=
          if portLive = true ∧ stbLive = true then
            { mb with voltage := (s.portBus.voltage + s.stbBus.voltage) / 2
                      frequency := (s.portBus.frequency + s.stbBus.frequency) / 2 }
          else if portLive = true then
            { mb with voltage := s.portBus.voltage, frequency := s.portBus.frequency }
          else
            { mb with voltage := s.stbBus.voltage, frequency := s.stbBus.frequency }
        { mb with totalGeneration := totalGen, live := decide (mb.voltage > 50) }
      else
        let voltage := chase env mb.voltage 0 (3/10) dt
        { mb with voltage := voltage
                  frequency := chase env mb.frequency 0 (1/2) dt
                  totalGeneration := 0
                  live := decide (voltage > 50) }
    else
      if portLive = true ∧ stbLive = true then
        let portGen := s.portBus.totalGeneration
        let stbGen := s.stbBus.totalGeneration
        let mb :=
          if portGen ≥ stbGen then
            { mb with voltage := s.portBus.voltage, frequency := s.portBus.frequency }
          else
            { mb with voltage := s.stbBus.voltage, frequency := s.stbBus.frequency }
        { mb with totalGeneration := portGen + stbGen, live := true }
      else if portLive = true then
        { mb with voltage := s.portBus.voltage, frequency := s.portBus.frequency
                  totalGeneration := s.portBus.totalGeneration, live := true }
      else if stbLive = true then
        { mb with voltage := s.stbBus.voltage, frequency := s.stbBus.frequency
                  totalGeneration := s.stbBus.totalGeneration, live := true }
      else
        let voltage := chase env mb.voltage 0 (3/10) dt
        { mb with voltage := voltage
                  frequency := chase env mb.frequency 0 (1/2) dt
                  totalGeneration := 0
                  live := decide (voltage > 50) }
  let consumerLoad := s.portBus.totalLoad + s.stbBus.totalLoad
  let mb := { mb with totalLoad := max 0 (s.settings.baseLoad + s.loadNoise + consumerLoad) }
  let mb := { mb with phaseAngle := wrapAngle (mb.phaseAngle + TwoPi * mb.frequency * dt) }
  { s with mainBus := mb }

/-- `_computeEmergencyBus` (step 6). -/
def computeEmergencyBus (env : Env) (dt : ℚ) (s : State) : State :=
  let emg := s.gens.emg
  let eb := s.emergencyBus
  let eb :=
    if s.emergencyBus.busTieClosed = true ∧ s.mainBus.live = true then
      { eb with voltage := s.mainBus.voltage, frequency := s.mainBus.frequency, live := true }
    else if emg.state = GenState.RUNNING ∧ emg.breakerState = BreakerState.CLOSED then
      { eb with voltage := emg.voltage, frequency := emg.frequency
                live := decide (emg.voltage > 50) }
    else
      let voltage := chase env eb.voltage 0 (3/10) dt
      { eb with voltage := voltage
                frequency := chase env eb.frequency 0 (1/2) dt
                live := decide (voltage > 50) }
  { s with emergencyBus := eb }

/-- One transformer's secondary-bus update inside `_computeSubBuses`. -/
def computeSubBusFor (env : Env) (dt : ℚ) (s : State) (t : Transformer) : State :=
  match s.subBuses.get t.secondaryBus with
  | none => s
  | some sb =>
    let decayed :=
      let voltage := chase env sb.voltage 0 (3/10) dt
      { sb with voltage := voltage
                frequency := chase env sb.frequency 0 (1/2) dt
                live := decide (voltage > 10) }
    let sb :=
      match resolveBus s t.primaryBus with
      | some p =>
        if p.live = true ∧ t.breakerState = BreakerState.CLOSED then
          { sb with voltage := p.voltage / t.turns, frequency := p.frequency, live := true }
        else decayed
      | none => decayed
    { s with subBuses := s.subBuses.put t.secondaryBus sb }

/-- `_computeSubBuses` (step 7), in transformer insertion order. -/
def computeSubBuses (env : Env) (dt : ℚ) (s : State) : State :=
  let s := computeSubBusFor env dt s s.transformers.t1
  let s := computeSubBusFor env dt s s.transformers.t2
  let s := computeSubBusFor env dt s s.transformers.t3
  computeSubBusFor env dt s s.transformers.t4

/-- `_distributeLoad` (step 8): a no-op unless at least one main-bus
generator is online (the droop/isochronous branches in the source only
contain commentary); when the main bus is dead, an online EMG picks up
the emergency-bus load, with a droop rpm adjustment. -/
def distributeLoad (env : Env) (dt : ℚ) (s : State) : State :=
  let onlineGens := getOnlineMainGens s
  if onlineGens.length = 0 then s
  else
    let emg := s.gens.emg
    if emg.state = GenState.RUNNING ∧ emg.breakerState = BreakerState.CLOSED ∧
        s.mainBus.live = false then
      let newPower := chase env emg.activePower s.emergencyBus.totalLoad emg.governorTau dt
      let emg := { emg with activePower := newPower }
      let pFrac := emg.activePower / emg.capacity
      let emg := { emg with fuelCommand := clamp (15/100 + (85/100) * pFrac) 0 1 }
      let emg :=
        if emg.speedMode = SpeedMode.droop ∧ emg.droopPercent > 0 then
          let droop := emg.droopPercent / 100
          let fSetpoint := emg.governorSetpoint * s.settings.generatorPoles / 120
          let targetFreq := fSetpoint * (1 - droop * pFrac)
          let targetRpm := targetFreq * 120 / s.settings.generatorPoles
          { emg with rpm := chase env emg.rpm targetRpm (emg.governorTau * (1/2)) dt }
        else emg
      { s with gens := { s.gens with emg := emg } }
    else s

/-- `_checkProtection` for one generator (step 9): dwell-timer and
instantaneous trip conditions, evaluated in source order on the live
record (a trip zeroes power, so later conditions see the post-trip
values, and `_tripBreaker` ignores an already-tripped breaker). -/
def protUnderFreq (st : Settings) (dt : ℚ) (s : State) (gid : GenId) : State :=
  let g := s.gen gid
  if g.frequency < st.underFreqTrip ∧ g.frequency > 0 then
    let g := { g with underFreqTimer := g.underFreqTimer + dt }
    let s := s.setGen gid g
    if g.underFreqTimer ≥ st.underFreqTime then tripBreaker s gid TripReason.under_frequency else s
  else s.setGen gid { g with underFreqTimer := max 0 (g.underFreqTimer - dt) }

/-- The over-frequency block of `_checkProtection`. -/
def protOverFreq (st : Settings) (dt : ℚ) (s : State) (gid : GenId) : State :=
  let g := s.gen gid
  if g.frequency > st.overFreqTrip then
    let g := { g with overFreqTimer := g.overFreqTimer + dt }
    let s := s.setGen gid g
    if g.overFreqTimer ≥ st.overFreqTime then tripBreaker s gid TripReason.over_frequency else s
  else s.setGen gid { g with overFreqTimer := max 0 (g.overFreqTimer - dt) }

/-- The under-voltage block of `_checkProtection` (instantaneous). -/
def protUnderVolt (st : Settings) (s : State) (gid : GenId) : State :=
  let g := s.gen gid
  if g.voltage < st.underVoltTrip ∧ g.voltage > 0 then
    tripBreaker s gid TripReason.under_voltage
  else s

/-- The over-voltage block of `_checkProtection` (instantaneous). -/
def protOverVolt (st : Settings) (s : State) (gid : GenId) : State :=
  if (s.gen gid).voltage > st.overVoltTrip then tripBreaker s gid TripReason.over_voltage else s

/-- The reverse-power block of `_checkProtection` (instantaneous). -/
def protReversePower (st : Settings) (s : State) (gid : GenId) : State :=
  if (s.gen gid).activePower < st.reversePowerTrip then
    tripBreaker s gid TripReason.reverse_power
  else s

/-- The overcurrent block of `_checkProtection`. -/
def protOvercurrent (st : Settings) (dt : ℚ) (s : State) (gid : GenId) : State :=
  let g := s.gen gid
  if g.activePower / g.capacity * 100 > st.overcurrentPercent then
    let g := { g with overcurrentTimer := g.overcurrentTimer + dt }
    let s := s.setGen gid g
    if g.overcurrentTimer ≥ st.overcurrentTime then tripBreaker s gid TripReason.overcurrent else s
  else s.setGen gid { g with overcurrentTimer := max 0 (g.overcurrentTimer - dt) }

def checkProtectionOne (dt : ℚ) (s : State) (gid : GenId) : State :=
  let st := s.settings
  let g := s.gen gid
  if g.state ≠ GenState.RUNNING then
    s.setGen gid { g with underFreqTimer := 0, overFreqTimer := 0, overcurrentTimer := 0 }
  else if g.breakerState ≠ BreakerState.CLOSED then
    s.setGen gid { g with underFreqTimer := 0, overFreqTimer := 0, overcurrentTimer := 0 }
  else
    protOvercurrent st dt (protReversePower st (protOverVolt st (protUnderVolt st
      (protOverFreq st dt (protUnderFreq st dt s gid) gid) gid) gid) gid) gid

/-- Step 9 over all generators in insertion order. -/
def checkProtection (dt : ℚ) (s : State) : State :=
  [GenId.DG1, GenId.DG2, GenId.DG3, GenId.DG4, GenId.EMG].foldl (checkProtectionOne dt) s

/-- `_checkBlackout` (step 10): blackout detection, emergency bus-tie
management and the EMG auto-start sequence. -/
def emgAutoStartStep (st : Settings) (s : State) : State :=
  let emg := s.gens.emg
  if emg.autoStart = true ∧ emg.state = GenState.OFF ∧
      s.emgAutoStartPending = false ∧ s.blackoutTimer ≥ st.blackoutDetectDelay then
    startGenerator
      (addAlert { s with emgAutoStartPending := true } Severity.warning AlertMsg.blackoutEmgAutoStart)
      ExtId.EMG
  else s

/-- The EMG automatic breaker close of `_checkBlackout`. -/
def emgAutoCloseStep (s : State) : State :=
  let emg := s.gens.emg
  if s.emgAutoStartPending = true ∧ emg.state = GenState.RUNNING ∧
      emg.breakerState = BreakerState.OPEN then
    let s := s.setGen GenId.EMG { emg with breakerState := BreakerState.CLOSED }
    addAlert { s with emgAutoStartPending := false }
      Severity.info AlertMsg.emgBreakerAutoClosed
  else s

/-- The blackout-active branch of `_checkBlackout`: timer, bus-tie
opening, then the EMG auto-start sequence. -/
def blackoutBranch (st : Settings) (dt : ℚ) (s : State) : State :=
  let s := { s with blackoutTimer := s.blackoutTimer + dt }
  let s :=
    if s.emergencyBus.busTieClosed then
      addAlert { s with emergencyBus := { s.emergencyBus with busTieClosed := false } }
        Severity.warning AlertMsg.busTieOpenedBlackout
    else s
  emgAutoCloseStep (emgAutoStartStep st s)

/-- The blackout-clear branch of `_checkBlackout`: timer reset and
bus-tie reclose. -/
def clearBranch (s : State) : State :=
  let s := { s with blackoutTimer := 0 }
  if s.emergencyBus.busTieClosed = false ∧ s.mainBus.live = true ∧
      s.gens.emg.breakerState ≠ BreakerState.CLOSED then
    addAlert { s with emergencyBus := { s.emergencyBus with busTieClosed := true } }
      Severity.info AlertMsg.busTieReclosed
  else s

def checkBlackout (dt : ℚ) (s : State) : State :=
  let st := s.settings
  let wasBlackout := s.blackout
  let blackout := !s.mainBus.live
  let s := { s with blackout := blackout }
  let s := if blackout then blackoutBranch st dt s else clearBranch s
  if blackout = true ∧ wasBlackout = false then
    addAlert s Severity.critical AlertMsg.mainBusBlackout
  else s

/-- Steps 1-3 of `tick` (sim-time bump, load noise, consumers, generator
physics): the state from which bus aggregation reads its inputs. -/
def tickUpToGens (env : Env) (dt : ℚ) (s : State) : State :=
  tickGenerators env dt (computeHeavyConsumers env dt (updateLoadNoise env dt (advanceSimTime dt s)))

/-- Steps 1-10 of `tick` in source order. -/
def tickPhases (env : Env) (dt : ℚ) (s : State) : State :=
  checkBlackout dt (checkProtection dt (distributeLoad env dt (computeSubBuses env dt
    (computeEmergencyBus env dt (computeMainBus env dt (computePortStbBuses env dt
      (tickUpToGens env dt s)))))))

/-- `tick(dt)`: a no-op once the (truthy) game-over reason is set. -/
def tick (env : Env) (dt : ℚ) (s : State) : State :=
  if gameOverTruthy s.gameOverReason then s else tickPhases env dt s


/-- A concrete environment for witnesses and counterexamples:
`exp` and `sin` constantly 0 (so every `chase` step lands exactly on its
target), `random` constantly 0. -/
def envZero : Env := { exp := fun _ => 0, sin := fun _ => 0, random := fun _ => 0 }

/-- The spec-side capacity-weighted average of a generator quantity. -/
def capacityWeighted (f : Gen → ℚ) (gs : List Gen) : ℚ :=
  (gs.map (fun g => f g * g.capacity)).sum / (gs.map (fun g => g.capacity)).sum

/-- Iterate the per-generator protection check (the protection relay's
view of a generator whose measured quantities are held fixed, as in the
spec's dwell test). -/
def checkProtectionIter (dt : ℚ) (gid : GenId) : ℕ → State → State
  | 0, s => s
  | n + 1, s => checkProtectionOne dt (checkProtectionIter dt gid n s) gid

/-- Engine states reachable from a constructor call by ticks and the
operator commands named in the spec (start/stop, breaker open / close /
reset, and the governor / AVR / mode / droop / comms setters). -/
inductive Reachable (env : Env) : State → Prop
  | init (cfg : Settings) : Reachable env (mkEngine cfg env)
  | tick (dt : ℚ) {s : State} : Reachable env s → Reachable env (tick env dt s)
  | start (x : ExtId) {s : State} : Reachable env s → Reachable env (startGenerator s x)
  | stop (x : ExtId) {s : State} : Reachable env s → Reachable env (stopGenerator s x)
  | closeBrk (x : ExtId) {s : State} : Reachable env s → Reachable env (closeBreaker s x)
  | openBrk (x : ExtId) {s : State} : Reachable env s → Reachable env (openBreaker s x)
  | resetBrk (x : ExtId) {s : State} : Reachable env s → Reachable env (resetBreaker s x)
  | setGov (x : ExtId) (v : ℚ) {s : State} : Reachable env s → Reachable env (setGovernorSetpoint s x v)
  | setAvr (x : ExtId) (v : ℚ) {s : State} : Reachable env s → Reachable env (setAvrSetpoint s x v)
  | setMode (x : ExtId) (m : SpeedMode) {s : State} : Reachable env s → Reachable env (setSpeedMode s x m)
  | setDroop (x : ExtId) (v : ℚ) {s : State} : Reachable env s → Reachable env (setDroopPercent s x v)
  | setComms (x : ExtId) (b : Bool) {s : State} : Reachable env s → Reachable env (setIsoComms s x b)

/-- The invariant behind claim C3: a generator only shows nonzero active
power while RUNNING with its breaker CLOSED. -/
def PowerInv (s : State) : Prop :=
  ∀ gid : GenId, (s.gen gid).activePower ≠ 0 →
    (s.gen gid).state = GenState.RUNNING ∧ (s.gen gid).breakerState = BreakerState.CLOSED

/-- The invariant behind claim C7: every phase angle lies in `[0, 2π)`. -/
def PhaseInv (s : State) : Prop :=
  ∀ gid : GenId, 0 ≤ (s.gen gid).phaseAngle ∧ (s.gen gid).phaseAngle < TwoPi

/-- The shape of `gameOverReason` in every reachable state: absent, or
the (non-empty) terminal damage message. -/
def GameOverInv (s : State) : Prop :=
  s.gameOverReason = none ∨ ∃ n : ℕ, s.gameOverReason = some (gameOverString n)

/-- Frame relation for claim C8: two states agree on every generator's
`rpm` and `frequency`. -/
def GenRF (a b : State) : Prop :=
  ∀ j : GenId, ((a.gen j).rpm = (b.gen j).rpm) ∧ ((a.gen j).frequency = (b.gen j).frequency)

/-- Frame relation for claim C5: two states agree on the port bus, the
starboard bus and the port-starboard bus-tie flag. -/
def PSFrame (a b : State) : Prop :=
  a.portBus = b.portBus ∧ a.stbBus = b.stbBus ∧ a.busTieClosed = b.busTieClosed

/-- A reachable demonstration state: DG1 started, synchronised onto the
dead bus and feeding it at 60 Hz; DG2 started and trimmed to 61 Hz with
its breaker open.  (With `envZero`, every chase lands on its target and
all initial phase angles are 0, so after these integer-second ticks all
running phase angles and the bus phase angle are exactly 0.) -/
def demoTwoGens : State :=
  tick envZero 1 (setGovernorSetpoint
    (tick envZero 1 (tick envZero 2 (tick envZero 3 (startGenerator
      (tick envZero 1 (closeBreaker
        (tick envZero 1 (tick envZero 2 (tick envZero 3 (startGenerator
          (mkEngine defaultSettings envZero) ExtId.DG1))))
        ExtId.DG1))
      ExtId.DG2))))
    ExtId.DG2 732)

/-- Close DG2 onto the live 60 Hz bus three times with a 1 Hz frequency
difference and zero phase difference: each attempt is classified as
(non-phase) sync damage and handled as a surge. -/
def surgeState : State :=
  closeBreaker (openBreaker (closeBreaker (openBreaker (closeBreaker demoTwoGens
    ExtId.DG2) ExtId.DG2) ExtId.DG2) ExtId.DG2) ExtId.DG2

/-- An eighth-of-a-second tick leaves DG2 45 degrees ahead of the bus;
closing three times then marks DG2 damaged three times and sets the
terminal game-over reason. -/
def severeState : State :=
  closeBreaker (openBreaker (closeBreaker (openBreaker (closeBreaker
    (tick envZero (1/8) demoTwoGens)
    ExtId.DG2) ExtId.DG2) ExtId.DG2) ExtId.DG2) ExtId.DG2

/-- A reachable state with a generator delivering nonzero power: one
further tick after DG2's breaker closes onto the live bus. -/
def c3WitState : State :=
  tick envZero 1 (closeBreaker demoTwoGens ExtId.DG2)

/-- Crafted state for claim C1: DG1 RUNNING at 61 Hz with breaker OPEN
against a live 60 Hz main bus, voltages and phases matched — the sync
check classifies the close attempt as damage via the frequency branch. -/
def c1State : State :=
  let b := mkEngine defaultSettings envZero
  { b with
    gens := { b.gens with dg1 := { b.gens.dg1 with
      state := GenState.RUNNING, rpm := 732, frequency := 61
      voltage := 690, phaseAngle := 0 } }
    mainBus := { b.mainBus with voltage := 690, frequency := 60
                                phaseAngle := 0, live := true } }

/-- Crafted state for claim C5: DG1 online on the port bus and DG3
online on the starboard bus with different voltages and setpoints, both
buses live and the port-starboard bus-tie closed. -/
def c5State : State :=
  let b := mkEngine defaultSettings envZero
  { b with
    gens := { b.gens with
      dg1 := { b.gens.dg1 with
        state := GenState.RUNNING, breakerState := BreakerState.CLOSED
        rpm := 720, frequency := 60, voltage := 690 }
      dg3 := { b.gens.dg3 with
        state := GenState.RUNNING, breakerState := BreakerState.CLOSED
        rpm := 744, frequency := 62, voltage := 680
        avrSetpoint := 680, governorSetpoint := 744 } }
    mainBus := { b.mainBus with voltage := 690, frequency := 59, live := true }
    portBus := { b.portBus with voltage := 690, frequency := 60, live := true }
    stbBus := { b.stbBus with voltage := 680, frequency := 60, live := true } }

/-- Claim C5's crafted state with the port-starboard bus-tie opened. -/
def c5StateTieOpen : State :=
  { c5State with busTieClosed := false }

/-- Crafted state for claim C8: the EMG online on a dead main bus
(island mode) while DG1 is online at 40 V, so load distribution adjusts
the EMG rpm after its frequency was derived. -/
def c8State : State :=
  let b := mkEngine defaultSettings envZero
  { b with
    gens := { b.gens with
      dg1 := { b.gens.dg1 with
        state := GenState.RUNNING, breakerState := BreakerState.CLOSED
        rpm := 720, frequency := 60, voltage := 40, avrSetpoint := 40 }
      emg := { b.gens.emg with
        state := GenState.RUNNING, breakerState := BreakerState.CLOSED
        rpm := 720, frequency := 60, voltage := 690 } }
    emergencyBus := { b.emergencyBus with busTieClosed := false }
    blackout := true }

/-- Crafted state for claim C4's witness: DG1 RUNNING and CLOSED with
its frequency held at 54 Hz (below the 55 Hz under-frequency threshold)
and every other measured quantity healthy. -/
def c4State : State :=
  let b := mkEngine defaultSettings envZero
  { b with gens := { b.gens with dg1 := { b.gens.dg1 with
      state := GenState.RUNNING, breakerState := BreakerState.CLOSED
      rpm := 648, frequency := 54, voltage := 690 } } }

/-- Crafted state for claim C9's witness: DG1's breaker already CLOSED. -/
def c9State : State :=
  let b := mkEngine defaultSettings envZero
  { b with gens := { b.gens with dg1 := { b.gens.dg1 with
      state := GenState.RUNNING, breakerState := BreakerState.CLOSED
      rpm := 720, frequency := 60, voltage := 690 } } }

/-- Crafted state for claim C10's witness: the EMG RUNNING with breaker
OPEN against a live emergency bus whose frequency and voltage are far
outside every synchronisation tolerance. -/
def c10State : State :=
  let b := mkEngine defaultSettings envZero
  { b with
    gens := { b.gens with emg := { b.gens.emg with
      state := GenState.RUNNING, rpm := 720, frequency := 60
      voltage := 690, phaseAngle := 3 } }
    emergencyBus := { b.emergencyBus with voltage := 400, frequency := 45
                                          live := true, busTieClosed := false }
    mainBus := { b.mainBus with voltage := 500, frequency := 45, live := true } }

/-- Witness pre-state for the amended claim C2: two damage incidents
already on the counter. -/
def c2WitState : State :=
  { mkEngine defaultSettings envZero with damageCount := 2 }

/-- Witness sync result for the amended claim C2: a 45-degree phase
delta, classified as non-blackout damage. -/
def c2WitResult : SyncResult :=
  { severity := SyncSeverity.damage, dV := 0, dF := 0, dThetaDeg := 45, blackout := false }

theorem Gens.get_set_self (gs : Gens) (i : GenId) (g : Gen) : (gs.set i g).get i = g := by
  cases i <;> rfl

theorem Gens.get_set_ne (gs : Gens) {i j : GenId} (h : j ≠ i) (g : Gen) :
    (gs.set i g).get j = gs.get j := by
  cases i <;> cases j <;> first | rfl | exact absurd rfl h

theorem State.gen_setGen_self (s : State) (i : GenId) (g : Gen) :
    (s.setGen i g).gen i = g := by
  simp [State.setGen, State.gen, Gens.get_set_self]

theorem State.gen_setGen_ne (s : State) {i j : GenId} (h : j ≠ i) (g : Gen) :
    (s.setGen i g).gen j = s.gen j := by
  simp [State.setGen, State.gen, Gens.get_set_ne _ h]

/-- Claim C9: closing an already-closed breaker changes nothing (the
command returns before any mutation or alert). -/
theorem c9_closeBreaker_idempotent (s : State) (x : ExtId) (gid : GenId)
    (hx : resolveId x = some gid)
    (hB : (s.gen gid).breakerState = BreakerState.CLOSED) :
    closeBreaker s x = s := by
  simp [closeBreaker, hx, hB]

theorem c9_closeBreaker_idempotent_witness :
    (c9State.gen GenId.DG1).breakerState = BreakerState.CLOSED ∧
    closeBreaker c9State ExtId.DG1 = c9State :=
  ⟨by with_unfolding_all decide,
   c9_closeBreaker_idempotent c9State ExtId.DG1 GenId.DG1 rfl
     (by with_unfolding_all decide)⟩

/-- Claim C10: `closeBreaker` on the (running, breaker-open) emergency
generator never reaches the synchronisation check — the breaker closes
unconditionally, whatever the bus deltas, and neither the damaged flag
nor the damage counter can change. -/
theorem c10_emg_close_unconditional (s : State)
    (hE : (s.gen GenId.EMG).isEmergency = true)
    (hS : (s.gen GenId.EMG).state = GenState.RUNNING)
    (hB : (s.gen GenId.EMG).breakerState = BreakerState.OPEN) :
    ((closeBreaker s ExtId.EMG).gen GenId.EMG).breakerState = BreakerState.CLOSED ∧
    ((closeBreaker s ExtId.EMG).gen GenId.EMG).damaged = (s.gen GenId.EMG).damaged ∧
    (closeBreaker s ExtId.EMG).damageCount = s.damageCount := by
  have hx : resolveId ExtId.EMG = some GenId.EMG := rfl
  simp only [State.gen] at hE hS hB ⊢
  simp [closeBreaker, hx, hB, hS, hE, finishClose, addAlert,
        State.setGen, State.gen, Gens.get_set_self]

theorem c10_emg_close_unconditional_witness :
    ((closeBreaker c10State ExtId.EMG).gen GenId.EMG).breakerState = BreakerState.CLOSED ∧
    ((closeBreaker c10State ExtId.EMG).gen GenId.EMG).damaged = (c10State.gen GenId.EMG).damaged ∧
    (closeBreaker c10State ExtId.EMG).damageCount = c10State.damageCount :=
  c10_emg_close_unconditional c10State (by with_unfolding_all decide)
    (by with_unfolding_all decide) (by with_unfolding_all decide)

/-- Counterexample for claim C1: DG1 is non-emergency, RUNNING with
breaker OPEN against a live main bus, and the sync check classifies the
attempt as (non-blackout) damage with a 1 Hz frequency delta; yet after
`closeBreaker` the breaker is CLOSED (not TRIPPED), the trip reason is
null and the damaged flag is still false — only the damage counter moved
(`_applySyncDamage` trips the breaker, but `closeBreaker` then falls
through and unconditionally re-closes it; the damaged flag is reserved
for phase deltas above 30 degrees). -/
theorem c1_close_damage_counterexample :
    (c1State.gen GenId.DG1).isEmergency = false ∧
    (c1State.gen GenId.DG1).state = GenState.RUNNING ∧
    (c1State.gen GenId.DG1).breakerState = BreakerState.OPEN ∧
    c1State.mainBus.live = true ∧
    (checkSync c1State (c1State.gen GenId.DG1)).severity = SyncSeverity.damage ∧
    (checkSync c1State (c1State.gen GenId.DG1)).blackout = false ∧
    ((closeBreaker c1State ExtId.DG1).gen GenId.DG1).breakerState = BreakerState.CLOSED ∧
    ((closeBreaker c1State ExtId.DG1).gen GenId.DG1).tripReason = none ∧
    ((closeBreaker c1State ExtId.DG1).gen GenId.DG1).damaged = false ∧
    (closeBreaker c1State ExtId.DG1).damageCount = c1State.damageCount + 1 := by
  with_unfolding_all decide

/-- The demonstration state is reachable. -/
theorem demoTwoGens_reachable : Reachable envZero demoTwoGens := by
  refine Reachable.tick 1 ?_
  refine Reachable.setGov ExtId.DG2 732 ?_
  refine Reachable.tick 1 ?_
  refine Reachable.tick 2 ?_
  refine Reachable.tick 3 ?_
  refine Reachable.start ExtId.DG2 ?_
  refine Reachable.tick 1 ?_
  refine Reachable.closeBrk ExtId.DG1 ?_
  refine Reachable.tick 1 ?_
  refine Reachable.tick 2 ?_
  refine Reachable.tick 3 ?_
  refine Reachable.start ExtId.DG1 ?_
  exact Reachable.init defaultSettings

/-- The triple-surge state is reachable. -/
theorem surge_reachable : Reachable envZero surgeState := by
  refine Reachable.closeBrk ExtId.DG2 ?_
  refine Reachable.openBrk ExtId.DG2 ?_
  refine Reachable.closeBrk ExtId.DG2 ?_
  refine Reachable.openBrk ExtId.DG2 ?_
  refine Reachable.closeBrk ExtId.DG2 ?_
  exact demoTwoGens_reachable

/-- The triple-severe-damage state is reachable. -/
theorem severe_reachable : Reachable envZero severeState := by
  refine Reachable.closeBrk ExtId.DG2 ?_
  refine Reachable.openBrk ExtId.DG2 ?_
  refine Reachable.closeBrk ExtId.DG2 ?_
  refine Reachable.openBrk ExtId.DG2 ?_
  refine Reachable.closeBrk ExtId.DG2 ?_
  refine Reachable.tick (1/8) ?_
  exact demoTwoGens_reachable

set_option maxRecDepth 10000 in
set_option maxHeartbeats 2000000 in
/-- Counterexample for claim C2: `surgeState` is reachable by operator
commands and ticks alone, its damage counter is 3, and yet
`gameOverReason` is still null (all three incidents took the surge
branch of `_applySyncDamage`, which never checks the threshold). -/
theorem c2_damage_threshold_counterexample :
    Reachable envZero surgeState ∧
    surgeState.damageCount = 3 ∧ surgeState.gameOverReason = none := by
  refine ⟨?_, (by with_unfolding_all decide), (by with_unfolding_all decide)⟩
  exact surge_reachable

@[simp] theorem addAlert_damageCount (s : State) (sev : Severity) (m : AlertMsg) :
    (addAlert s sev m).damageCount = s.damageCount := rfl

@[simp] theorem addAlert_gameOverReason (s : State) (sev : Severity) (m : AlertMsg) :
    (addAlert s sev m).gameOverReason = s.gameOverReason := rfl

@[simp] theorem addAlert_gens (s : State) (sev : Severity) (m : AlertMsg) :
    (addAlert s sev m).gens = s.gens := rfl

@[simp] theorem setGen_damageCount (s : State) (i : GenId) (g : Gen) :
    (s.setGen i g).damageCount = s.damageCount := rfl

@[simp] theorem setGen_gameOverReason (s : State) (i : GenId) (g : Gen) :
    (s.setGen i g).gameOverReason = s.gameOverReason := rfl

@[simp] theorem tripBreaker_damageCount (s : State) (gid : GenId) (r : TripReason) :
    (tripBreaker s gid r).damageCount = s.damageCount := by
  simp only [tripBreaker]
  split <;> rfl

@[simp] theorem tripBreaker_gameOverReason (s : State) (gid : GenId) (r : TripReason) :
    (tripBreaker s gid r).gameOverReason = s.gameOverReason := by
  simp only [tripBreaker]
  split <;> rfl

/-- Amended claim C2: when a severe (phase delta above 30 degrees,
non-blackout) sync-damage incident brings the damage counter to 3 or
more, the terminal game-over reason is set.  (Surge and blackout-cascade
incidents increment the counter without checking the threshold.) -/
theorem c2_damage_threshold_amended (s : State) (gid : GenId) (r : SyncResult)
    (hb : r.blackout = false) (hθ : r.dThetaDeg > 30)
    (h3 : (applySyncDamage s gid r).damageCount ≥ 3) :
    (applySyncDamage s gid r).gameOverReason ≠ none := by
  have hcount : (applySyncDamage s gid r).damageCount = s.damageCount + 1 := by
    simp only [applySyncDamage, hb, Bool.false_eq_true, if_false, if_pos hθ]
    split <;> simp
  rw [hcount] at h3
  simp only [applySyncDamage, hb, Bool.false_eq_true, if_false, if_pos hθ]
  rw [if_pos]
  · simp [addAlert]
  · simpa using h3

theorem c2_damage_threshold_amended_witness :
    (applySyncDamage c2WitState GenId.DG1 c2WitResult).gameOverReason ≠ none :=
  c2_damage_threshold_amended c2WitState GenId.DG1 c2WitResult rfl
    (by with_unfolding_all decide) (by with_unfolding_all decide)

set_option maxRecDepth 10000 in
set_option maxHeartbeats 2000000 in
/-- Counterexample for claim C5: with the port-starboard bus-tie closed
and both sides live, the tick averages the two sides after aggregation,
so the port bus voltage is not the capacity-weighted average of the port
generators (685 V versus 690 V here). -/
theorem c5_bus_aggregation_counterexample :
    c5State.busTieClosed = true ∧
    (getOnlineGensForBus (tick envZero 1 c5State) BusName.portBus).length ≠ 0 ∧
    (tick envZero 1 c5State).portBus.voltage ≠
      capacityWeighted (fun g => g.voltage)
        (getOnlineGensForBus (tick envZero 1 c5State) BusName.portBus) := by
  with_unfolding_all decide

set_option maxRecDepth 10000 in
set_option maxHeartbeats 2000000 in
/-- Counterexample for claim C8: in island mode the EMG's rpm is
adjusted by `_distributeLoad` after its frequency was derived in
`_tickGenerator`, so its end-of-tick frequency (60 Hz) is not
`rpm * poles / 120` of its end-of-tick rpm (711.36 rpm). -/
theorem c8_frequency_from_rpm_counterexample :
    (tick envZero 1 c8State).gens.emg.frequency ≠
      (tick envZero 1 c8State).gens.emg.rpm *
        (tick envZero 1 c8State).settings.generatorPoles / 120 := by
  with_unfolding_all decide

@[simp] theorem addAlert_gen (s : State) (sev : Severity) (m : AlertMsg) (i : GenId) :
    (addAlert s sev m).gen i = s.gen i := rfl

@[simp] theorem tripAll_damageCount (s : State) :
    (tripAllClosedNonEmergency s).damageCount = s.damageCount := by
  simp only [tripAllClosedNonEmergency, List.foldl_cons, List.foldl_nil]
  split_ifs <;> simp

@[simp] theorem applySyncDamage_damageCount (s : State) (gid : GenId) (r : SyncResult) :
    (applySyncDamage s gid r).damageCount = s.damageCount + 1 := by
  simp only [applySyncDamage]
  split
  · simp
  · split
    · split <;> simp
    · simp

theorem tripBreaker_gen_damaged (s : State) (gid : GenId) (r : TripReason) :
    ((tripBreaker s gid r).gen gid).damaged = (s.gen gid).damaged := by
  simp only [tripBreaker]
  split
  · rfl
  · simp [State.gen_setGen_self]

theorem applySyncDamage_gen_damaged (s : State) (gid : GenId) (r : SyncResult)
    (hbl : r.blackout = false) :
    ((applySyncDamage s gid r).gen gid).damaged =
      (if r.dThetaDeg > 30 then true else (s.gen gid).damaged) := by
  by_cases hgt : r.dThetaDeg > 30
  · rw [if_pos hgt]
    simp only [applySyncDamage, hbl, Bool.false_eq_true, if_false, if_pos hgt]
    split
    · simp [State.gen, State.setGen, addAlert, Gens.get_set_self]
    · simp [State.gen, State.setGen, addAlert, Gens.get_set_self]
  · rw [if_neg hgt]
    simp only [applySyncDamage, hbl, Bool.false_eq_true, if_false, if_neg hgt]
    rw [tripBreaker_gen_damaged]
    rfl

@[simp] theorem finishClose_damageCount (s : State) (x : ExtId) (gid : GenId) :
    (finishClose s x gid).damageCount = s.damageCount := rfl

@[simp] theorem finishClose_gen_breakerState (s : State) (x : ExtId) (gid : GenId) :
    ((finishClose s x gid).gen gid).breakerState = BreakerState.CLOSED := by
  simp [finishClose, State.gen_setGen_self]

@[simp] theorem finishClose_gen_tripReason (s : State) (x : ExtId) (gid : GenId) :
    ((finishClose s x gid).gen gid).tripReason = none := by
  simp [finishClose, State.gen_setGen_self]

@[simp] theorem finishClose_gen_damaged (s : State) (x : ExtId) (gid : GenId) :
    ((finishClose s x gid).gen gid).damaged = ((s.gen gid)).damaged := by
  simp [finishClose, State.gen_setGen_self]

/-- Amended claim C1: for a non-emergency RUNNING generator with breaker
OPEN against a live main bus, a close attempt classified as non-blackout
sync damage increments the damage counter by exactly one and — because
`closeBreaker` falls through after `_applySyncDamage` — leaves the
breaker CLOSED with a null trip reason; the damaged flag is set exactly
when the phase delta exceeds 30 degrees. -/
theorem c1_close_damage_amended (s : State) (x : ExtId) (gid : GenId)
    (hx : resolveId x = some gid)
    (hE : (s.gen gid).isEmergency = false)
    (hS : (s.gen gid).state = GenState.RUNNING)
    (hB : (s.gen gid).breakerState = BreakerState.OPEN)
    (hL : s.mainBus.live = true)
    (hsev : (checkSync s (s.gen gid)).severity = SyncSeverity.damage)
    (hbl : (checkSync s (s.gen gid)).blackout = false) :
    ((closeBreaker s x).gen gid).breakerState = BreakerState.CLOSED ∧
    ((closeBreaker s x).gen gid).tripReason = none ∧
    (closeBreaker s x).damageCount = s.damageCount + 1 ∧
    ((closeBreaker s x).gen gid).damaged =
      (if (checkSync s (s.gen gid)).dThetaDeg > 30 then true else (s.gen gid).damaged) := by
  simp [closeBreaker, hx, hB, hS, hE, hL, hsev, applySyncDamage_gen_damaged _ _ _ hbl]

theorem c1_close_damage_amended_witness :
    ((closeBreaker c1State ExtId.DG1).gen GenId.DG1).breakerState = BreakerState.CLOSED ∧
    ((closeBreaker c1State ExtId.DG1).gen GenId.DG1).tripReason = none ∧
    (closeBreaker c1State ExtId.DG1).damageCount = c1State.damageCount + 1 ∧
    ((closeBreaker c1State ExtId.DG1).gen GenId.DG1).damaged =
      (if (checkSync c1State (c1State.gen GenId.DG1)).dThetaDeg > 30 then true
       else (c1State.gen GenId.DG1).damaged) :=
  c1_close_damage_amended c1State ExtId.DG1 GenId.DG1 rfl
    (by with_unfolding_all decide) (by with_unfolding_all decide)
    (by with_unfolding_all decide) (by with_unfolding_all decide)
    (by with_unfolding_all decide) (by with_unfolding_all decide)

@[simp] theorem Gens.set_set (gs : Gens) (i : GenId) (a b : Gen) :
    (gs.set i a).set i b = gs.set i b := by
  cases i <;> rfl

@[simp] theorem Gens.set_get (gs : Gens) (i : GenId) :
    gs.set i (gs.get i) = gs := by
  cases i <;> rfl

@[simp] theorem State.setGen_setGen (s : State) (i : GenId) (a b : Gen) :
    (s.setGen i a).setGen i b = s.setGen i b := by
  simp [State.setGen]

@[simp] theorem State.setGen_gen_self (s : State) (i : GenId) :
    s.setGen i (s.gen i) = s := by
  simp [State.setGen, State.gen]

@[simp] theorem setGen_settings (s : State) (i : GenId) (g : Gen) :
    (s.setGen i g).settings = s.settings := rfl

@[simp] theorem addAlert_settings (s : State) (sev : Severity) (m : AlertMsg) :
    (addAlert s sev m).settings = s.settings := rfl

/-- One protection scan of a RUNNING, CLOSED generator whose only fault
condition is under-frequency and whose accumulated dwell stays below the
threshold: the scan only advances the under-frequency timer. -/
theorem protStep_noTrip (s : State) (gid : GenId) (dt : ℚ) (hdt : 0 ≤ dt)
    (hS : (s.gen gid).state = GenState.RUNNING)
    (hB : (s.gen gid).breakerState = BreakerState.CLOSED)
    (hFlo : 0 < (s.gen gid).frequency)
    (hFhi : (s.gen gid).frequency < s.settings.underFreqTrip)
    (hFof : (s.gen gid).frequency ≤ s.settings.overFreqTrip)
    (hVlo : s.settings.underVoltTrip ≤ (s.gen gid).voltage)
    (hVhi : (s.gen gid).voltage ≤ s.settings.overVoltTrip)
    (hRev : s.settings.reversePowerTrip ≤ (s.gen gid).activePower)
    (hOC : (s.gen gid).activePower / (s.gen gid).capacity * 100 ≤ s.settings.overcurrentPercent)
    (hT1 : (s.gen gid).overFreqTimer = 0)
    (hT2 : (s.gen gid).overcurrentTimer = 0)
    (hstep : (s.gen gid).underFreqTimer + dt < s.settings.underFreqTime) :
    checkProtectionOne dt s gid =
      s.setGen gid { s.gen gid with underFreqTimer := (s.gen gid).underFreqTimer + dt } := by
  have hmax : max (0:ℚ) (0 - dt) = 0 := by
    rw [max_eq_left]
    linarith
  have hmax2 : (0:ℚ) ⊔ (-dt) = 0 := by
    rw [sup_eq_left]
    linarith
  have hn1 : ¬((s.gen gid).underFreqTimer + dt ≥ s.settings.underFreqTime) := not_le.mpr hstep
  have hn2 : ¬((s.gen gid).frequency > s.settings.overFreqTrip) := not_lt.mpr hFof
  have hn3 : ¬((s.gen gid).voltage < s.settings.underVoltTrip) := not_lt.mpr hVlo
  have hn4 : ¬((s.gen gid).voltage > s.settings.overVoltTrip) := not_lt.mpr hVhi
  have hn5 : ¬((s.gen gid).activePower < s.settings.reversePowerTrip) := not_lt.mpr hRev
  have hn6 : ¬((s.gen gid).activePower / (s.gen gid).capacity * 100 >
      s.settings.overcurrentPercent) := not_lt.mpr hOC
  simp [checkProtectionOne, protUnderFreq, protOverFreq, protUnderVolt, protOverVolt,
        protReversePower, protOvercurrent, hS, hB, hFlo, hFhi, hn1, hn2, hn3, hn4, hn5, hn6,
        State.gen_setGen_self, hT1, hT2, hmax, hmax2]

/-- One protection scan of the same generator once the accumulated dwell
reaches the threshold: the breaker trips with reason under_frequency. -/
theorem protStep_trip (s : State) (gid : GenId) (dt : ℚ) (hdt : 0 ≤ dt)
    (hS : (s.gen gid).state = GenState.RUNNING)
    (hB : (s.gen gid).breakerState = BreakerState.CLOSED)
    (hFlo : 0 < (s.gen gid).frequency)
    (hFhi : (s.gen gid).frequency < s.settings.underFreqTrip)
    (hFof : (s.gen gid).frequency ≤ s.settings.overFreqTrip)
    (hVlo : s.settings.underVoltTrip ≤ (s.gen gid).voltage)
    (hVhi : (s.gen gid).voltage ≤ s.settings.overVoltTrip)
    (hRevSane : s.settings.reversePowerTrip ≤ 0)
    (hOCSane : 0 ≤ s.settings.overcurrentPercent)
    (hT1 : (s.gen gid).overFreqTimer = 0)
    (hT2 : (s.gen gid).overcurrentTimer = 0)
    (hstep : s.settings.underFreqTime ≤ (s.gen gid).underFreqTimer + dt) :
    checkProtectionOne dt s gid =
      addAlert (s.setGen gid
        { s.gen gid with
            underFreqTimer := 0, overFreqTimer := 0, overcurrentTimer := 0
            breakerState := BreakerState.TRIPPED, breakerTripped := true
            tripReason := some TripReason.under_frequency
            activePower := 0, reactivePower := 0, isoIntegral := 0 })
        Severity.critical
        (AlertMsg.breakerTrippedMsg (s.gen gid).id TripReason.under_frequency) := by
  have hmax : max (0:ℚ) (0 - dt) = 0 := by
    rw [max_eq_left]
    linarith
  have hmax2 : (0:ℚ) ⊔ (-dt) = 0 := by
    rw [sup_eq_left]
    linarith
  have hn2 : ¬((s.gen gid).frequency > s.settings.overFreqTrip) := not_lt.mpr hFof
  have hn3 : ¬((s.gen gid).voltage < s.settings.underVoltTrip) := not_lt.mpr hVlo
  have hn4 : ¬((s.gen gid).voltage > s.settings.overVoltTrip) := not_lt.mpr hVhi
  have hn5 : ¬((0:ℚ) < s.settings.reversePowerTrip) := not_lt.mpr hRevSane
  have hn6 : ¬((0:ℚ) / (s.gen gid).capacity * 100 > s.settings.overcurrentPercent) := by
    rw [zero_div, zero_mul]
    exact not_lt.mpr hOCSane
  have hn7 : ¬(s.settings.overcurrentPercent < 0) := not_lt.mpr hOCSane
  simp only [State.gen] at hS hB hFlo hFhi hstep hn2 hn3 hn4 hn6 hT1 hT2 ⊢
  simp [checkProtectionOne, protUnderFreq, protOverFreq, protUnderVolt, protOverVolt,
        protReversePower, protOvercurrent, hS, hB, hFlo, hFhi, hstep, tripBreaker,
        State.gen_setGen_self, addAlert, State.setGen, State.gen,
        Gens.get_set_self, Gens.set_set,
        hn2, hn3, hn4, hn5, hn6, hn7, hT1, hT2, hmax, hmax2]

/-- Claim C4: for a RUNNING generator with breaker CLOSED whose
frequency is held strictly between 0 and the under-frequency threshold
(all other measured quantities healthy, dwell timers initially clear),
repeated protection scans at step `dt` do not trip the breaker while the
accumulated time `n * dt` is below `underFreqTime`, and the scan that
reaches or exceeds `underFreqTime` trips it with reason
under_frequency. -/
theorem c4_underfreq_dwell (s : State) (gid : GenId) (dt : ℚ) (hdt : 0 < dt)
    (hS : (s.gen gid).state = GenState.RUNNING)
    (hB : (s.gen gid).breakerState = BreakerState.CLOSED)
    (hFlo : 0 < (s.gen gid).frequency)
    (hFhi : (s.gen gid).frequency < s.settings.underFreqTrip)
    (hFof : (s.gen gid).frequency ≤ s.settings.overFreqTrip)
    (hVlo : s.settings.underVoltTrip ≤ (s.gen gid).voltage)
    (hVhi : (s.gen gid).voltage ≤ s.settings.overVoltTrip)
    (hRev : s.settings.reversePowerTrip ≤ (s.gen gid).activePower)
    (hOC : (s.gen gid).activePower / (s.gen gid).capacity * 100 ≤ s.settings.overcurrentPercent)
    (hRevSane : s.settings.reversePowerTrip ≤ 0)
    (hOCSane : 0 ≤ s.settings.overcurrentPercent)
    (hT0 : (s.gen gid).underFreqTimer = 0)
    (hT1 : (s.gen gid).overFreqTimer = 0)
    (hT2 : (s.gen gid).overcurrentTimer = 0) :
    (∀ n : ℕ, (n : ℚ) * dt < s.settings.underFreqTime →
       checkProtectionIter dt gid n s =
         s.setGen gid { s.gen gid with underFreqTimer := (n : ℚ) * dt }) ∧
    (∀ n : ℕ, (n : ℚ) * dt < s.settings.underFreqTime →
       s.settings.underFreqTime ≤ ((n : ℚ) + 1) * dt →
       ((checkProtectionIter dt gid (n + 1) s).gen gid).breakerState = BreakerState.TRIPPED ∧
       ((checkProtectionIter dt gid (n + 1) s).gen gid).tripReason =
         some TripReason.under_frequency) := by
  have main : ∀ n : ℕ, (n : ℚ) * dt < s.settings.underFreqTime →
      checkProtectionIter dt gid n s =
        s.setGen gid { s.gen gid with underFreqTimer := (n : ℚ) * dt } := by
    intro n
    induction n with
    | zero =>
      intro _
      have h0 : ((0 : ℕ) : ℚ) * dt = (s.gen gid).underFreqTimer := by
        rw [hT0]
        push_cast
        ring
      rw [h0]
      exact (State.setGen_gen_self s gid).symm
    | succ n ih =>
      intro hlt
      have hcast : ((n + 1 : ℕ) : ℚ) = (n : ℚ) + 1 := by push_cast; ring
      have hlt' : (n : ℚ) * dt + dt < s.settings.underFreqTime := by
        rw [hcast] at hlt
        calc (n : ℚ) * dt + dt = ((n : ℚ) + 1) * dt := by ring
        _ < s.settings.underFreqTime := hlt
      have hnlt : (n : ℚ) * dt < s.settings.underFreqTime := by linarith
      have hrec : checkProtectionIter dt gid (n + 1) s =
          checkProtectionOne dt (checkProtectionIter dt gid n s) gid := rfl
      rw [hrec, ih hnlt]
      have hgen : (s.setGen gid { s.gen gid with underFreqTimer := (n : ℚ) * dt }).gen gid =
          { s.gen gid with underFreqTimer := (n : ℚ) * dt } := State.gen_setGen_self _ _ _
      have e1 : ((s.setGen gid { s.gen gid with underFreqTimer := (n : ℚ) * dt }).gen gid).state
          = GenState.RUNNING := by rw [hgen]; exact hS
      have e2 : ((s.setGen gid { s.gen gid with underFreqTimer := (n : ℚ) * dt }).gen gid).breakerState
          = BreakerState.CLOSED := by rw [hgen]; exact hB
      have e3 : 0 < ((s.setGen gid { s.gen gid with underFreqTimer := (n : ℚ) * dt }).gen gid).frequency := by
        rw [hgen]; exact hFlo
      have e4 : ((s.setGen gid { s.gen gid with underFreqTimer := (n : ℚ) * dt }).gen gid).frequency
          < (s.setGen gid { s.gen gid with underFreqTimer := (n : ℚ) * dt }).settings.underFreqTrip := by
        rw [hgen, setGen_settings]; exact hFhi
      have e5 : ((s.setGen gid { s.gen gid with underFreqTimer := (n : ℚ) * dt }).gen gid).frequency
          ≤ (s.setGen gid { s.gen gid with underFreqTimer := (n : ℚ) * dt }).settings.overFreqTrip := by
        rw [hgen, setGen_settings]; exact hFof
      have e6 : (s.setGen gid { s.gen gid with underFreqTimer := (n : ℚ) * dt }).settings.underVoltTrip
          ≤ ((s.setGen gid { s.gen gid with underFreqTimer := (n : ℚ) * dt }).gen gid).voltage := by
        rw [hgen, setGen_settings]; exact hVlo
      have e7 : ((s.setGen gid { s.gen gid with underFreqTimer := (n : ℚ) * dt }).gen gid).voltage
          ≤ (s.setGen gid { s.gen gid with underFreqTimer := (n : ℚ) * dt }).settings.overVoltTrip := by
        rw [hgen, setGen_settings]; exact hVhi
      have e8 : (s.setGen gid { s.gen gid with underFreqTimer := (n : ℚ) * dt }).settings.reversePowerTrip
          ≤ ((s.setGen gid { s.gen gid with underFreqTimer := (n : ℚ) * dt }).gen gid).activePower := by
        rw [hgen, setGen_settings]; exact hRev
      have e9 : ((s.setGen gid { s.gen gid with underFreqTimer := (n : ℚ) * dt }).gen gid).activePower
            / ((s.setGen gid { s.gen gid with underFreqTimer := (n : ℚ) * dt }).gen gid).capacity * 100
          ≤ (s.setGen gid { s.gen gid with underFreqTimer := (n : ℚ) * dt }).settings.overcurrentPercent := by
        rw [hgen, setGen_settings]; exact hOC
      have e10 : ((s.setGen gid { s.gen gid with underFreqTimer := (n : ℚ) * dt }).gen gid).overFreqTimer
          = 0 := by rw [hgen]; exact hT1
      have e11 : ((s.setGen gid { s.gen gid with underFreqTimer := (n : ℚ) * dt }).gen gid).overcurrentTimer
          = 0 := by rw [hgen]; exact hT2
      have e12 : ((s.setGen gid { s.gen gid with underFreqTimer := (n : ℚ) * dt }).gen gid).underFreqTimer + dt
          < (s.setGen gid { s.gen gid with underFreqTimer := (n : ℚ) * dt }).settings.underFreqTime := by
        rw [hgen, setGen_settings]; exact hlt'
      rw [protStep_noTrip _ gid dt (le_of_lt hdt) e1 e2 e3 e4 e5 e6 e7 e8 e9 e10 e11 e12,
          hgen, State.setGen_setGen]
      have harith : (n : ℚ) * dt + dt = ((n + 1 : ℕ) : ℚ) * dt := by push_cast; ring
      rw [show ({ s.gen gid with underFreqTimer := (n : ℚ) * dt } : Gen).underFreqTimer
            = (n : ℚ) * dt from rfl, harith]
  refine ⟨main, ?_⟩
  intro n hlt hge
  have hge' : s.settings.underFreqTime ≤ (n : ℚ) * dt + dt := by
    calc s.settings.underFreqTime ≤ ((n : ℚ) + 1) * dt := hge
    _ = (n : ℚ) * dt + dt := by ring
  have hrec : checkProtectionIter dt gid (n + 1) s =
      checkProtectionOne dt (checkProtectionIter dt gid n s) gid := rfl
  rw [hrec, main n hlt]
  have hgen : (s.setGen gid { s.gen gid with underFreqTimer := (n : ℚ) * dt }).gen gid =
      { s.gen gid with underFreqTimer := (n : ℚ) * dt } := State.gen_setGen_self _ _ _
  have e1 : ((s.setGen gid { s.gen gid with underFreqTimer := (n : ℚ) * dt }).gen gid).state
      = GenState.RUNNING := by rw [hgen]; exact hS
  have e2 : ((s.setGen gid { s.gen gid with underFreqTimer := (n : ℚ) * dt }).gen gid).breakerState
      = BreakerState.CLOSED := by rw [hgen]; exact hB
  have e3 : 0 < ((s.setGen gid { s.gen gid with underFreqTimer := (n : ℚ) * dt }).gen gid).frequency := by
    rw [hgen]; exact hFlo
  have e4 : ((s.setGen gid { s.gen gid with underFreqTimer := (n : ℚ) * dt }).gen gid).frequency
      < (s.setGen gid { s.gen gid with underFreqTimer := (n : ℚ) * dt }).settings.underFreqTrip := by
    rw [hgen, setGen_settings]; exact hFhi
  have e5 : ((s.setGen gid { s.gen gid with underFreqTimer := (n : ℚ) * dt }).gen gid).frequency
      ≤ (s.setGen gid { s.gen gid with underFreqTimer := (n : ℚ) * dt }).settings.overFreqTrip := by
    rw [hgen, setGen_settings]; exact hFof
  have e6 : (s.setGen gid { s.gen gid with underFreqTimer := (n : ℚ) * dt }).settings.underVoltTrip
      ≤ ((s.setGen gid { s.gen gid with underFreqTimer := (n : ℚ) * dt }).gen gid).voltage := by
    rw [hgen, setGen_settings]; exact hVlo
  have e7 : ((s.setGen gid { s.gen gid with underFreqTimer := (n : ℚ) * dt }).gen gid).voltage
      ≤ (s.setGen gid { s.gen gid with underFreqTimer := (n : ℚ) * dt }).settings.overVoltTrip := by
    rw [hgen, setGen_settings]; exact hVhi
  have e8 : (s.setGen gid { s.gen gid with underFreqTimer := (n : ℚ) * dt }).settings.reversePowerTrip
      ≤ 0 := by rw [setGen_settings]; exact hRevSane
  have e9 : 0 ≤ (s.setGen gid { s.gen gid with underFreqTimer := (n : ℚ) * dt }).settings.overcurrentPercent := by
    rw [setGen_settings]; exact hOCSane
  have e10 : ((s.setGen gid { s.gen gid with underFreqTimer := (n : ℚ) * dt }).gen gid).overFreqTimer
      = 0 := by rw [hgen]; exact hT1
  have e11 : ((s.setGen gid { s.gen gid with underFreqTimer := (n : ℚ) * dt }).gen gid).overcurrentTimer
      = 0 := by rw [hgen]; exact hT2
  have e12 : (s.setGen gid { s.gen gid with underFreqTimer := (n : ℚ) * dt }).settings.underFreqTime
      ≤ ((s.setGen gid { s.gen gid with underFreqTimer := (n : ℚ) * dt }).gen gid).underFreqTimer + dt := by
    rw [hgen, setGen_settings]; exact hge'
  rw [protStep_trip _ gid dt (le_of_lt hdt) e1 e2 e3 e4 e5 e6 e7 e8 e9 e10 e11 e12]
  constructor <;>
    simp [addAlert, State.gen_setGen_self, State.setGen, State.gen, Gens.get_set_self]

theorem c4_underfreq_dwell_witness :
    checkProtectionIter 1 GenId.DG1 4 c4State =
      c4State.setGen GenId.DG1
        { c4State.gen GenId.DG1 with underFreqTimer := ((4 : ℕ) : ℚ) * 1 } ∧
    ((checkProtectionIter 1 GenId.DG1 5 c4State).gen GenId.DG1).breakerState =
      BreakerState.TRIPPED ∧
    ((checkProtectionIter 1 GenId.DG1 5 c4State).gen GenId.DG1).tripReason =
      some TripReason.under_frequency := by
  have h := c4_underfreq_dwell c4State GenId.DG1 1 (by norm_num)
    (by with_unfolding_all decide) (by with_unfolding_all decide)
    (by with_unfolding_all decide) (by with_unfolding_all decide)
    (by with_unfolding_all decide) (by with_unfolding_all decide)
    (by with_unfolding_all decide) (by with_unfolding_all decide)
    (by with_unfolding_all decide) (by with_unfolding_all decide)
    (by with_unfolding_all decide) (by with_unfolding_all decide)
    (by with_unfolding_all decide) (by with_unfolding_all decide)
  exact ⟨h.1 4 (by with_unfolding_all decide),
         (h.2 4 (by with_unfolding_all decide) (by with_unfolding_all decide)).1,
         (h.2 4 (by with_unfolding_all decide) (by with_unfolding_all decide)).2⟩

theorem TwoPi_pos : (0 : ℚ) < TwoPi := by
  norm_num [TwoPi, MathPI]

theorem jsMod_bounds (a m : ℚ) (hm : 0 < m) : 0 - m < jsMod a m ∧ jsMod a m < m := by
  have hmne : m ≠ 0 := ne_of_gt hm
  have ha : a = m * (a / m) := by field_simp
  simp only [jsMod]
  split_ifs with hq
  · have h1 : ((⌊a / m⌋ : ℤ) : ℚ) ≤ a / m := Int.floor_le _
    have h2 : a / m < (⌊a / m⌋ : ℤ) + 1 := Int.lt_floor_add_one _
    constructor <;> nlinarith
  · have h1 : a / m ≤ ((⌈a / m⌉ : ℤ) : ℚ) := Int.le_ceil _
    have h2 : ((⌈a / m⌉ : ℤ) : ℚ) < a / m + 1 := Int.ceil_lt_add_one _
    constructor <;> nlinarith

theorem jsMod_nonneg_of_nonneg_div (a m : ℚ) (hm : 0 < m) (hq : 0 ≤ a / m) :
    0 ≤ jsMod a m := by
  simp only [jsMod]
  rw [if_pos hq]
  have hmne : m ≠ 0 := ne_of_gt hm
  have ha : a = m * (a / m) := by field_simp
  have h1 : ((⌊a / m⌋ : ℤ) : ℚ) ≤ a / m := Int.floor_le _
  nlinarith

theorem jsMod_nonpos_of_neg_div (a m : ℚ) (hm : 0 < m) (hq : ¬(0 ≤ a / m)) :
    jsMod a m ≤ 0 := by
  simp only [jsMod]
  rw [if_neg hq]
  have hmne : m ≠ 0 := ne_of_gt hm
  have ha : a = m * (a / m) := by field_simp
  have h1 : a / m ≤ ((⌈a / m⌉ : ℤ) : ℚ) := Int.le_ceil _
  nlinarith

/-- `wrapAngle` really lands in `[0, 2π)`. -/
theorem wrapAngle_mem (a : ℚ) : 0 ≤ wrapAngle a ∧ wrapAngle a < TwoPi := by
  have hm := TwoPi_pos
  have hb := jsMod_bounds a TwoPi hm
  simp only [wrapAngle]
  split_ifs with hneg
  · constructor <;> linarith [hb.1]
  · refine ⟨le_of_not_lt hneg, hb.2⟩

theorem powerInv_congr {s' s : State} (h : s'.gens = s.gens) (hp : PowerInv s) :
    PowerInv s' := by
  intro j hj
  unfold State.gen at hj ⊢
  rw [h] at hj ⊢
  exact hp j hj

theorem phaseInv_congr {s' s : State} (h : s'.gens = s.gens) (hp : PhaseInv s) :
    PhaseInv s' := by
  intro j
  unfold State.gen
  rw [h]
  exact hp j

theorem gameOverInv_congr {s' s : State} (h : s'.gameOverReason = s.gameOverReason)
    (hp : GameOverInv s) : GameOverInv s' := by
  unfold GameOverInv at hp ⊢
  rw [h]
  exact hp

theorem advanceSimTime_gens (dt : ℚ) (s : State) : (advanceSimTime dt s).gens = s.gens := rfl

theorem advanceSimTime_gameOverReason (dt : ℚ) (s : State) :
    (advanceSimTime dt s).gameOverReason = s.gameOverReason := rfl

theorem updateLoadNoise_gens (env : Env) (dt : ℚ) (s : State) :
    (updateLoadNoise env dt s).gens = s.gens := by
  simp only [updateLoadNoise, nextRand]
  split_ifs <;> rfl

theorem updateLoadNoise_gameOverReason (env : Env) (dt : ℚ) (s : State) :
    (updateLoadNoise env dt s).gameOverReason = s.gameOverReason := by
  simp only [updateLoadNoise, nextRand]
  split_ifs <;> rfl

theorem tickConsumerRec_snd_gens (env : Env) (dt : ℚ) (s : State) (c : Consumer) :
    ((tickConsumerRec env dt s c).2).gens = s.gens := by
  simp only [tickConsumerRec, nextRand]
  repeat' split
  all_goals rfl

theorem tickConsumerRec_snd_gameOverReason (env : Env) (dt : ℚ) (s : State) (c : Consumer) :
    ((tickConsumerRec env dt s c).2).gameOverReason = s.gameOverReason := by
  simp only [tickConsumerRec, nextRand]
  repeat' split
  all_goals rfl

theorem computeHeavyConsumers_gens (env : Env) (dt : ℚ) (s : State) :
    (computeHeavyConsumers env dt s).gens = s.gens := by
  simp only [computeHeavyConsumers]
  simp only [tickConsumerRec_snd_gens]

theorem computeHeavyConsumers_gameOverReason (env : Env) (dt : ℚ) (s : State) :
    (computeHeavyConsumers env dt s).gameOverReason = s.gameOverReason := by
  simp only [computeHeavyConsumers]
  simp only [tickConsumerRec_snd_gameOverReason]

theorem computePortStbBuses_gens (env : Env) (dt : ℚ) (s : State) :
    (computePortStbBuses env dt s).gens = s.gens := by
  simp only [computePortStbBuses]
  split_ifs <;> rfl

theorem computePortStbBuses_gameOverReason (env : Env) (dt : ℚ) (s : State) :
    (computePortStbBuses env dt s).gameOverReason = s.gameOverReason := by
  simp only [computePortStbBuses]
  split_ifs <;> rfl

theorem computeMainBus_gens (env : Env) (dt : ℚ) (s : State) :
    (computeMainBus env dt s).gens = s.gens := by
  simp only [computeMainBus]
  try (split_ifs <;> rfl)

theorem computeMainBus_gameOverReason (env : Env) (dt : ℚ) (s : State) :
    (computeMainBus env dt s).gameOverReason = s.gameOverReason := by
  simp only [computeMainBus]
  try (split_ifs <;> rfl)

theorem computeEmergencyBus_gens (env : Env) (dt : ℚ) (s : State) :
    (computeEmergencyBus env dt s).gens = s.gens := by
  simp only [computeEmergencyBus]
  try (split_ifs <;> rfl)

theorem computeEmergencyBus_gameOverReason (env : Env) (dt : ℚ) (s : State) :
    (computeEmergencyBus env dt s).gameOverReason = s.gameOverReason := by
  simp only [computeEmergencyBus]
  try (split_ifs <;> rfl)

theorem computeSubBusFor_gens (env : Env) (dt : ℚ) (s : State) (t : Transformer) :
    (computeSubBusFor env dt s t).gens = s.gens := by
  simp only [computeSubBusFor]
  repeat' split
  all_goals rfl

theorem computeSubBusFor_gameOverReason (env : Env) (dt : ℚ) (s : State) (t : Transformer) :
    (computeSubBusFor env dt s t).gameOverReason = s.gameOverReason := by
  simp only [computeSubBusFor]
  repeat' split
  all_goals rfl

theorem computeSubBuses_gens (env : Env) (dt : ℚ) (s : State) :
    (computeSubBuses env dt s).gens = s.gens := by
  simp only [computeSubBuses]
  rw [computeSubBusFor_gens, computeSubBusFor_gens, computeSubBusFor_gens,
      computeSubBusFor_gens]

theorem computeSubBuses_gameOverReason (env : Env) (dt : ℚ) (s : State) :
    (computeSubBuses env dt s).gameOverReason = s.gameOverReason := by
  simp only [computeSubBuses]
  rw [computeSubBusFor_gameOverReason, computeSubBusFor_gameOverReason,
      computeSubBusFor_gameOverReason, computeSubBusFor_gameOverReason]

theorem powerInv_addAlert {s : State} {sev : Severity} {m : AlertMsg} (h : PowerInv s) :
    PowerInv (addAlert s sev m) :=
  powerInv_congr (addAlert_gens s sev m) h

theorem phaseInv_addAlert {s : State} {sev : Severity} {m : AlertMsg} (h : PhaseInv s) :
    PhaseInv (addAlert s sev m) :=
  phaseInv_congr (addAlert_gens s sev m) h

theorem powerInv_setGen {s : State} {i : GenId} {g : Gen}
    (hg : g.activePower ≠ 0 → g.state = GenState.RUNNING ∧ g.breakerState = BreakerState.CLOSED)
    (h : PowerInv s) : PowerInv (s.setGen i g) := by
  intro j hj
  by_cases hji : j = i
  · subst hji
    rw [State.gen_setGen_self] at hj ⊢
    exact hg hj
  · rw [State.gen_setGen_ne s hji] at hj ⊢
    exact h j hj

theorem powerInv_setGen_core {s : State} {i : GenId} {g : Gen}
    (hp : g.activePower = (s.gen i).activePower) (hs : g.state = (s.gen i).state)
    (hb : g.breakerState = (s.gen i).breakerState) (h : PowerInv s) :
    PowerInv (s.setGen i g) := by
  apply powerInv_setGen _ h
  intro hz
  rw [hp] at hz
  rw [hs, hb]
  exact h i hz

theorem phaseInv_setGen {s : State} {i : GenId} {g : Gen}
    (hg : 0 ≤ g.phaseAngle ∧ g.phaseAngle < TwoPi) (h : PhaseInv s) :
    PhaseInv (s.setGen i g) := by
  intro j
  by_cases hji : j = i
  · subst hji
    rw [State.gen_setGen_self]
    exact hg
  · rw [State.gen_setGen_ne s hji]
    exact h j

theorem phaseInv_setGen_eq {s : State} {i : GenId} {g : Gen}
    (hp : g.phaseAngle = (s.gen i).phaseAngle) (h : PhaseInv s) :
    PhaseInv (s.setGen i g) := by
  apply phaseInv_setGen _ h
  rw [hp]
  exact h i

theorem powerInv_tripBreaker {s : State} {gid : GenId} {r : TripReason} (h : PowerInv s) :
    PowerInv (tripBreaker s gid r) := by
  simp only [tripBreaker]
  split
  · exact h
  · exact powerInv_addAlert (powerInv_setGen (fun hp => absurd rfl hp) h)

theorem phaseInv_tripBreaker {s : State} {gid : GenId} {r : TripReason} (h : PhaseInv s) :
    PhaseInv (tripBreaker s gid r) := by
  simp only [tripBreaker]
  split
  · exact h
  · exact phaseInv_addAlert (phaseInv_setGen_eq rfl h)

theorem tripAllStep_gameOverReason (s : State) (gid : GenId) :
    ((if (s.gen gid).breakerState = BreakerState.CLOSED ∧ (s.gen gid).isEmergency = false
      then tripBreaker s gid TripReason.sync_blackout else s) : State).gameOverReason =
      s.gameOverReason := by
  split_ifs
  · exact tripBreaker_gameOverReason _ _ _
  · rfl

@[simp] theorem tripAll_gameOverReason (s : State) :
    (tripAllClosedNonEmergency s).gameOverReason = s.gameOverReason := by
  simp only [tripAllClosedNonEmergency, List.foldl_cons, List.foldl_nil]
  rw [tripAllStep_gameOverReason, tripAllStep_gameOverReason, tripAllStep_gameOverReason,
      tripAllStep_gameOverReason, tripAllStep_gameOverReason]

theorem powerInv_tripAllStep (s : State) (gid : GenId) (h : PowerInv s) :
    PowerInv (if (s.gen gid).breakerState = BreakerState.CLOSED ∧ (s.gen gid).isEmergency = false
      then tripBreaker s gid TripReason.sync_blackout else s) := by
  split_ifs
  · exact powerInv_tripBreaker h
  · exact h

theorem powerInv_tripAll {s : State} (h : PowerInv s) :
    PowerInv (tripAllClosedNonEmergency s) := by
  simp only [tripAllClosedNonEmergency, List.foldl_cons, List.foldl_nil]
  exact powerInv_tripAllStep _ _ (powerInv_tripAllStep _ _ (powerInv_tripAllStep _ _
    (powerInv_tripAllStep _ _ (powerInv_tripAllStep _ _ h))))

theorem phaseInv_tripAllStep (s : State) (gid : GenId) (h : PhaseInv s) :
    PhaseInv (if (s.gen gid).breakerState = BreakerState.CLOSED ∧ (s.gen gid).isEmergency = false
      then tripBreaker s gid TripReason.sync_blackout else s) := by
  split_ifs
  · exact phaseInv_tripBreaker h
  · exact h

theorem phaseInv_tripAll {s : State} (h : PhaseInv s) :
    PhaseInv (tripAllClosedNonEmergency s) := by
  simp only [tripAllClosedNonEmergency, List.foldl_cons, List.foldl_nil]
  exact phaseInv_tripAllStep _ _ (phaseInv_tripAllStep _ _ (phaseInv_tripAllStep _ _
    (phaseInv_tripAllStep _ _ (phaseInv_tripAllStep _ _ h))))

set_option maxHeartbeats 4000000 in
theorem powerInv_applySyncDamage {s : State} {gid : GenId} {r : SyncResult} (h : PowerInv s) :
    PowerInv (applySyncDamage s gid r) := by
  have h1 : PowerInv ({ s with damageCount := s.damageCount + 1 } : State) := h
  have k1 : PowerInv (tripBreaker { s with damageCount := s.damageCount + 1 } gid
      TripReason.sync_damage) := powerInv_tripBreaker h1
  have k2 : PowerInv ((tripBreaker { s with damageCount := s.damageCount + 1 } gid
      TripReason.sync_damage).setGen gid
      { (tripBreaker { s with damageCount := s.damageCount + 1 } gid
          TripReason.sync_damage).gen gid with damaged := true }) :=
    powerInv_setGen (fun hp => k1 gid hp) k1
  simp only [applySyncDamage]
  split
  · exact powerInv_tripAll (powerInv_addAlert h1)
  · split
    · split
      · exact powerInv_congr (by simp) k2
      · exact powerInv_congr (by simp) k2
    · exact powerInv_tripBreaker h1

set_option maxHeartbeats 4000000 in
theorem phaseInv_applySyncDamage {s : State} {gid : GenId} {r : SyncResult} (h : PhaseInv s) :
    PhaseInv (applySyncDamage s gid r) := by
  have h1 : PhaseInv ({ s with damageCount := s.damageCount + 1 } : State) := h
  have k1 : PhaseInv (tripBreaker { s with damageCount := s.damageCount + 1 } gid
      TripReason.sync_damage) := phaseInv_tripBreaker h1
  have k2 : PhaseInv ((tripBreaker { s with damageCount := s.damageCount + 1 } gid
      TripReason.sync_damage).setGen gid
      { (tripBreaker { s with damageCount := s.damageCount + 1 } gid
          TripReason.sync_damage).gen gid with damaged := true }) :=
    phaseInv_setGen_eq rfl k1
  simp only [applySyncDamage]
  split
  · exact phaseInv_tripAll (phaseInv_addAlert h1)
  · split
    · split
      · exact phaseInv_congr (by simp) k2
      · exact phaseInv_congr (by simp) k2
    · exact phaseInv_tripBreaker h1

theorem gameOverInv_applySyncDamage {s : State} {gid : GenId} {r : SyncResult}
    (h : GameOverInv s) : GameOverInv (applySyncDamage s gid r) := by
  simp only [applySyncDamage]
  split
  · exact gameOverInv_congr (by simp) h
  · split
    · split
      · exact Or.inr ⟨_, rfl⟩
      · exact gameOverInv_congr (by simp) h
    · exact gameOverInv_congr (tripBreaker_gameOverReason _ _ _) h

theorem tickGovernor_state (env : Env) (dt : ℚ) (s : State) (g : Gen) :
    (tickGovernor env dt s g).state = g.state := by
  simp only [tickGovernor, tickGovernorDroop, tickGovernorIso]
  split_ifs <;> rfl

theorem tickGovernor_breakerState (env : Env) (dt : ℚ) (s : State) (g : Gen) :
    (tickGovernor env dt s g).breakerState = g.breakerState := by
  simp only [tickGovernor, tickGovernorDroop, tickGovernorIso]
  split_ifs <;> rfl

theorem tickGovernor_phaseAngle (env : Env) (dt : ℚ) (s : State) (g : Gen) :
    (tickGovernor env dt s g).phaseAngle = g.phaseAngle := by
  simp only [tickGovernor, tickGovernorDroop, tickGovernorIso]
  split_ifs <;> rfl

theorem tickGovernor_power_of_open (env : Env) (dt : ℚ) (s : State) (g : Gen)
    (hne : g.breakerState ≠ BreakerState.CLOSED) :
    (tickGovernor env dt s g).activePower = 0 := by
  simp only [tickGovernor]
  rw [if_pos hne]

theorem tickAVR_state (env : Env) (dt : ℚ) (s : State) (g : Gen) :
    (tickAVR env dt s g).state = g.state := by
  simp only [tickAVR]
  split_ifs <;> rfl

theorem tickAVR_breakerState (env : Env) (dt : ℚ) (s : State) (g : Gen) :
    (tickAVR env dt s g).breakerState = g.breakerState := by
  simp only [tickAVR]
  split_ifs <;> rfl

theorem tickAVR_activePower (env : Env) (dt : ℚ) (s : State) (g : Gen) :
    (tickAVR env dt s g).activePower = g.activePower := by
  simp only [tickAVR]
  split_ifs <;> rfl

theorem tickAVR_phaseAngle (env : Env) (dt : ℚ) (s : State) (g : Gen) :
    (tickAVR env dt s g).phaseAngle = g.phaseAngle := by
  simp only [tickAVR]
  split_ifs <;> rfl

@[simp] theorem tickGenSwitch_gameOverReason (env : Env) (dt : ℚ) (s : State) (gid : GenId) :
    (tickGenSwitch env dt s gid).gameOverReason = s.gameOverReason := by
  simp only [tickGenSwitch]
  split <;> (try split_ifs) <;> simp

theorem powerInv_tickGenSwitch (env : Env) (dt : ℚ) (s : State) (gid : GenId)
    (h : PowerInv s) : PowerInv (tickGenSwitch env dt s gid) := by
  have hzero : ∀ st : GenState, (s.gen gid).state = st → st ≠ GenState.RUNNING →
      (s.gen gid).activePower = 0 := by
    intro st hst hne
    by_contra hp
    exact hne (hst.symm.trans (h gid hp).1)
  simp only [tickGenSwitch]
  split
  · exact powerInv_setGen (fun hp => absurd rfl hp) h
  · next heq =>
    have h0 := hzero _ heq (by decide)
    split_ifs <;> exact powerInv_setGen (fun hp => absurd h0 hp) h
  · next heq =>
    have h0 := hzero _ heq (by decide)
    split_ifs
    · exact powerInv_addAlert (powerInv_setGen (fun hp => absurd h0 hp) h)
    · exact powerInv_setGen (fun hp => absurd h0 hp) h
  · next heq =>
    have h0 := hzero _ heq (by decide)
    split_ifs
    · exact powerInv_addAlert (powerInv_setGen (fun hp => absurd h0 hp) h)
    · exact powerInv_setGen (fun hp => absurd h0 hp) h
  · next heq =>
    apply powerInv_setGen _ h
    intro hp
    rw [tickAVR_state, tickAVR_breakerState, tickGovernor_state, tickGovernor_breakerState]
    refine ⟨heq, ?_⟩
    by_cases hb : ({ s.gen gid with
        stateTimer := (s.gen gid).stateTimer + dt } : Gen).breakerState = BreakerState.CLOSED
    · exact hb
    · exfalso
      rw [tickAVR_activePower] at hp
      exact hp (tickGovernor_power_of_open env dt s _ hb)
  · split_ifs
    · exact powerInv_addAlert (powerInv_setGen (fun hp => absurd rfl hp) h)
    · exact powerInv_setGen (fun hp => absurd rfl hp) h

theorem phaseInv_tickGenSwitch (env : Env) (dt : ℚ) (s : State) (gid : GenId)
    (h : PhaseInv s) : PhaseInv (tickGenSwitch env dt s gid) := by
  simp only [tickGenSwitch]
  split
  · exact phaseInv_setGen_eq rfl h
  · split_ifs <;> exact phaseInv_setGen_eq rfl h
  · split_ifs
    · exact phaseInv_addAlert (phaseInv_setGen_eq rfl h)
    · exact phaseInv_setGen_eq rfl h
  · split_ifs
    · exact phaseInv_addAlert (phaseInv_setGen_eq rfl h)
    · exact phaseInv_setGen_eq rfl h
  · exact phaseInv_setGen_eq (by rw [tickAVR_phaseAngle, tickGovernor_phaseAngle]) h
  · split_ifs
    · exact phaseInv_addAlert (phaseInv_setGen_eq rfl h)
    · exact phaseInv_setGen_eq rfl h

@[simp] theorem tickGenTail_gameOverReason (dt : ℚ) (s : State) (gid : GenId) :
    (tickGenTail dt s gid).gameOverReason = s.gameOverReason := by
  simp [tickGenTail]

theorem powerInv_tickGenTail (dt : ℚ) (s : State) (gid : GenId) (h : PowerInv s) :
    PowerInv (tickGenTail dt s gid) := by
  simp only [tickGenTail]
  exact powerInv_setGen (fun hp => h gid hp) h

theorem phaseInv_tickGenTail (dt : ℚ) (s : State) (gid : GenId) (h : PhaseInv s) :
    PhaseInv (tickGenTail dt s gid) := by
  simp only [tickGenTail]
  exact phaseInv_setGen (wrapAngle_mem _) h

@[simp] theorem tickGeneratorOne_gameOverReason (env : Env) (dt : ℚ) (s : State) (gid : GenId) :
    (tickGeneratorOne env dt s gid).gameOverReason = s.gameOverReason := by
  simp [tickGeneratorOne]

theorem powerInv_tickGeneratorOne (env : Env) (dt : ℚ) (s : State) (gid : GenId)
    (h : PowerInv s) : PowerInv (tickGeneratorOne env dt s gid) :=
  powerInv_tickGenTail _ _ _ (powerInv_tickGenSwitch env dt s gid h)

theorem phaseInv_tickGeneratorOne (env : Env) (dt : ℚ) (s : State) (gid : GenId)
    (h : PhaseInv s) : PhaseInv (tickGeneratorOne env dt s gid) :=
  phaseInv_tickGenTail _ _ _ (phaseInv_tickGenSwitch env dt s gid h)

@[simp] theorem tickGenerators_gameOverReason (env : Env) (dt : ℚ) (s : State) :
    (tickGenerators env dt s).gameOverReason = s.gameOverReason := by
  simp [tickGenerators]

theorem powerInv_tickGenerators (env : Env) (dt : ℚ) (s : State) (h : PowerInv s) :
    PowerInv (tickGenerators env dt s) := by
  simp only [tickGenerators, List.foldl_cons, List.foldl_nil]
  exact powerInv_tickGeneratorOne _ _ _ _ (powerInv_tickGeneratorOne _ _ _ _
    (powerInv_tickGeneratorOne _ _ _ _ (powerInv_tickGeneratorOne _ _ _ _
      (powerInv_tickGeneratorOne _ _ _ _ h))))

theorem phaseInv_tickGenerators (env : Env) (dt : ℚ) (s : State) (h : PhaseInv s) :
    PhaseInv (tickGenerators env dt s) := by
  simp only [tickGenerators, List.foldl_cons, List.foldl_nil]
  exact phaseInv_tickGeneratorOne _ _ _ _ (phaseInv_tickGeneratorOne _ _ _ _
    (phaseInv_tickGeneratorOne _ _ _ _ (phaseInv_tickGeneratorOne _ _ _ _
      (phaseInv_tickGeneratorOne _ _ _ _ h))))

theorem powerInv_setEmg {s : State} {g : Gen}
    (hg : g.activePower ≠ 0 → g.state = GenState.RUNNING ∧ g.breakerState = BreakerState.CLOSED)
    (h : PowerInv s) : PowerInv ({ s with gens := { s.gens with emg := g } }) := by
  intro j hj
  cases j
  · exact h GenId.DG1 hj
  · exact h GenId.DG2 hj
  · exact h GenId.DG3 hj
  · exact h GenId.DG4 hj
  · exact hg hj

theorem phaseInv_setEmg {s : State} {g : Gen}
    (hg : 0 ≤ g.phaseAngle ∧ g.phaseAngle < TwoPi) (h : PhaseInv s) :
    PhaseInv ({ s with gens := { s.gens with emg := g } }) := by
  intro j
  cases j
  · exact h GenId.DG1
  · exact h GenId.DG2
  · exact h GenId.DG3
  · exact h GenId.DG4
  · exact hg

@[simp] theorem distributeLoad_gameOverReason (env : Env) (dt : ℚ) (s : State) :
    (distributeLoad env dt s).gameOverReason = s.gameOverReason := by
  simp only [distributeLoad]
  split_ifs <;> rfl

theorem powerInv_distributeLoad (env : Env) (dt : ℚ) (s : State) (h : PowerInv s) :
    PowerInv (distributeLoad env dt s) := by
  simp only [distributeLoad]
  split
  · exact h
  · split
    · next h2 =>
      split <;> exact powerInv_setEmg (fun hp => ⟨h2.1, h2.2.1⟩) h
    · exact h

theorem phaseInv_distributeLoad (env : Env) (dt : ℚ) (s : State) (h : PhaseInv s) :
    PhaseInv (distributeLoad env dt s) := by
  simp only [distributeLoad]
  split
  · exact h
  · split
    · split <;> exact phaseInv_setEmg (h GenId.EMG) h
    · exact h

@[simp] theorem startGenerator_gameOverReason (s : State) (x : ExtId) :
    (startGenerator s x).gameOverReason = s.gameOverReason := by
  simp only [startGenerator]
  split
  · rfl
  · split_ifs <;> simp

theorem powerInv_startGenerator (s : State) (x : ExtId) (h : PowerInv s) :
    PowerInv (startGenerator s x) := by
  simp only [startGenerator]
  split
  · exact h
  · split_ifs
    · exact h
    · exact powerInv_addAlert h
    · next h1 h2 =>
      refine powerInv_addAlert (powerInv_setGen ?_ h)
      intro hp
      rw [not_ne_iff] at h1
      have h3 := (h _ hp).1
      rw [h3] at h1
      exact absurd h1 (by decide)

theorem phaseInv_startGenerator (s : State) (x : ExtId) (h : PhaseInv s) :
    PhaseInv (startGenerator s x) := by
  simp only [startGenerator]
  split
  · exact h
  · split_ifs
    · exact h
    · exact phaseInv_addAlert h
    · exact phaseInv_addAlert (phaseInv_setGen_eq rfl h)

@[simp] theorem protUnderFreq_gameOverReason (st : Settings) (dt : ℚ) (s : State) (gid : GenId) :
    (protUnderFreq st dt s gid).gameOverReason = s.gameOverReason := by
  simp only [protUnderFreq]
  split_ifs <;> simp

@[simp] theorem protOverFreq_gameOverReason (st : Settings) (dt : ℚ) (s : State) (gid : GenId) :
    (protOverFreq st dt s gid).gameOverReason = s.gameOverReason := by
  simp only [protOverFreq]
  split_ifs <;> simp

@[simp] theorem protUnderVolt_gameOverReason (st : Settings) (s : State) (gid : GenId) :
    (protUnderVolt st s gid).gameOverReason = s.gameOverReason := by
  simp only [protUnderVolt]
  split_ifs <;> simp

@[simp] theorem protOverVolt_gameOverReason (st : Settings) (s : State) (gid : GenId) :
    (protOverVolt st s gid).gameOverReason = s.gameOverReason := by
  simp only [protOverVolt]
  split_ifs <;> simp

@[simp] theorem protReversePower_gameOverReason (st : Settings) (s : State) (gid : GenId) :
    (protReversePower st s gid).gameOverReason = s.gameOverReason := by
  simp only [protReversePower]
  split_ifs <;> simp

@[simp] theorem protOvercurrent_gameOverReason (st : Settings) (dt : ℚ) (s : State) (gid : GenId) :
    (protOvercurrent st dt s gid).gameOverReason = s.gameOverReason := by
  simp only [protOvercurrent]
  split_ifs <;> simp

@[simp] theorem checkProtectionOne_gameOverReason (dt : ℚ) (s : State) (gid : GenId) :
    (checkProtectionOne dt s gid).gameOverReason = s.gameOverReason := by
  simp only [checkProtectionOne]
  split_ifs <;> simp

theorem powerInv_protUnderFreq (st : Settings) (dt : ℚ) (s : State) (gid : GenId)
    (h : PowerInv s) : PowerInv (protUnderFreq st dt s gid) := by
  simp only [protUnderFreq]
  split_ifs <;> first
    | exact powerInv_setGen_core rfl rfl rfl h
    | exact powerInv_tripBreaker (powerInv_setGen_core rfl rfl rfl h)

theorem powerInv_protOverFreq (st : Settings) (dt : ℚ) (s : State) (gid : GenId)
    (h : PowerInv s) : PowerInv (protOverFreq st dt s gid) := by
  simp only [protOverFreq]
  split_ifs <;> first
    | exact powerInv_setGen_core rfl rfl rfl h
    | exact powerInv_tripBreaker (powerInv_setGen_core rfl rfl rfl h)

theorem powerInv_protUnderVolt (st : Settings) (s : State) (gid : GenId)
    (h : PowerInv s) : PowerInv (protUnderVolt st s gid) := by
  simp only [protUnderVolt]
  split_ifs <;> first | exact h | exact powerInv_tripBreaker h

theorem powerInv_protOverVolt (st : Settings) (s : State) (gid : GenId)
    (h : PowerInv s) : PowerInv (protOverVolt st s gid) := by
  simp only [protOverVolt]
  split_ifs <;> first | exact h | exact powerInv_tripBreaker h

theorem powerInv_protReversePower (st : Settings) (s : State) (gid : GenId)
    (h : PowerInv s) : PowerInv (protReversePower st s gid) := by
  simp only [protReversePower]
  split_ifs <;> first | exact h | exact powerInv_tripBreaker h

theorem powerInv_protOvercurrent (st : Settings) (dt : ℚ) (s : State) (gid : GenId)
    (h : PowerInv s) : PowerInv (protOvercurrent st dt s gid) := by
  simp only [protOvercurrent]
  split_ifs <;> first
    | exact powerInv_setGen_core rfl rfl rfl h
    | exact powerInv_tripBreaker (powerInv_setGen_core rfl rfl rfl h)

theorem powerInv_checkProtectionOne (dt : ℚ) (s : State) (gid : GenId) (h : PowerInv s) :
    PowerInv (checkProtectionOne dt s gid) := by
  simp only [checkProtectionOne]
  split_ifs
  · exact powerInv_setGen_core rfl rfl rfl h
  · exact powerInv_setGen_core rfl rfl rfl h
  · exact powerInv_protOvercurrent _ _ _ _ (powerInv_protReversePower _ _ _
      (powerInv_protOverVolt _ _ _ (powerInv_protUnderVolt _ _ _
        (powerInv_protOverFreq _ _ _ _ (powerInv_protUnderFreq _ _ _ _ h)))))

theorem phaseInv_protUnderFreq (st : Settings) (dt : ℚ) (s : State) (gid : GenId)
    (h : PhaseInv s) : PhaseInv (protUnderFreq st dt s gid) := by
  simp only [protUnderFreq]
  split_ifs
  · exact phaseInv_tripBreaker (phaseInv_setGen_eq rfl h)
  · exact phaseInv_setGen_eq rfl h
  · exact phaseInv_setGen_eq rfl h

theorem phaseInv_protOverFreq (st : Settings) (dt : ℚ) (s : State) (gid : GenId)
    (h : PhaseInv s) : PhaseInv (protOverFreq st dt s gid) := by
  simp only [protOverFreq]
  split_ifs
  · exact phaseInv_tripBreaker (phaseInv_setGen_eq rfl h)
  · exact phaseInv_setGen_eq rfl h
  · exact phaseInv_setGen_eq rfl h

theorem phaseInv_protUnderVolt (st : Settings) (s : State) (gid : GenId)
    (h : PhaseInv s) : PhaseInv (protUnderVolt st s gid) := by
  simp only [protUnderVolt]
  split_ifs <;> first | exact h | exact phaseInv_tripBreaker h

theorem phaseInv_protOverVolt (st : Settings) (s : State) (gid : GenId)
    (h : PhaseInv s) : PhaseInv (protOverVolt st s gid) := by
  simp only [protOverVolt]
  split_ifs <;> first | exact h | exact phaseInv_tripBreaker h

theorem phaseInv_protReversePower (st : Settings) (s : State) (gid : GenId)
    (h : PhaseInv s) : PhaseInv (protReversePower st s gid) := by
  simp only [protReversePower]
  split_ifs <;> first | exact h | exact phaseInv_tripBreaker h

theorem phaseInv_protOvercurrent (st : Settings) (dt : ℚ) (s : State) (gid : GenId)
    (h : PhaseInv s) : PhaseInv (protOvercurrent st dt s gid) := by
  simp only [protOvercurrent]
  split_ifs
  · exact phaseInv_tripBreaker (phaseInv_setGen_eq rfl h)
  · exact phaseInv_setGen_eq rfl h
  · exact phaseInv_setGen_eq rfl h

theorem phaseInv_checkProtectionOne (dt : ℚ) (s : State) (gid : GenId) (h : PhaseInv s) :
    PhaseInv (checkProtectionOne dt s gid) := by
  simp only [checkProtectionOne]
  split_ifs
  · exact phaseInv_setGen_eq rfl h
  · exact phaseInv_setGen_eq rfl h
  · exact phaseInv_protOvercurrent _ _ _ _ (phaseInv_protReversePower _ _ _
      (phaseInv_protOverVolt _ _ _ (phaseInv_protUnderVolt _ _ _
        (phaseInv_protOverFreq _ _ _ _ (phaseInv_protUnderFreq _ _ _ _ h)))))

@[simp] theorem checkProtection_gameOverReason (dt : ℚ) (s : State) :
    (checkProtection dt s).gameOverReason = s.gameOverReason := by
  simp [checkProtection]

theorem powerInv_checkProtection (dt : ℚ) (s : State) (h : PowerInv s) :
    PowerInv (checkProtection dt s) := by
  simp only [checkProtection, List.foldl_cons, List.foldl_nil]
  exact powerInv_checkProtectionOne _ _ _ (powerInv_checkProtectionOne _ _ _
    (powerInv_checkProtectionOne _ _ _ (powerInv_checkProtectionOne _ _ _
      (powerInv_checkProtectionOne _ _ _ h))))

theorem phaseInv_checkProtection (dt : ℚ) (s : State) (h : PhaseInv s) :
    PhaseInv (checkProtection dt s) := by
  simp only [checkProtection, List.foldl_cons, List.foldl_nil]
  exact phaseInv_checkProtectionOne _ _ _ (phaseInv_checkProtectionOne _ _ _
    (phaseInv_checkProtectionOne _ _ _ (phaseInv_checkProtectionOne _ _ _
      (phaseInv_checkProtectionOne _ _ _ h))))

theorem powerInv_withBlackout (s : State) (b : Bool) (h : PowerInv s) :
    PowerInv ({ s with blackout := b }) := h

theorem powerInv_withBlackoutTimer (s : State) (t : ℚ) (h : PowerInv s) :
    PowerInv ({ s with blackoutTimer := t }) := h

theorem powerInv_withEmergencyBus (s : State) (e : EmergencyBus) (h : PowerInv s) :
    PowerInv ({ s with emergencyBus := e }) := h

theorem powerInv_withPending (s : State) (p : Bool) (h : PowerInv s) :
    PowerInv ({ s with emgAutoStartPending := p }) := h

theorem phaseInv_withBlackout (s : State) (b : Bool) (h : PhaseInv s) :
    PhaseInv ({ s with blackout := b }) := h

theorem phaseInv_withBlackoutTimer (s : State) (t : ℚ) (h : PhaseInv s) :
    PhaseInv ({ s with blackoutTimer := t }) := h

theorem phaseInv_withEmergencyBus (s : State) (e : EmergencyBus) (h : PhaseInv s) :
    PhaseInv ({ s with emergencyBus := e }) := h

theorem phaseInv_withPending (s : State) (p : Bool) (h : PhaseInv s) :
    PhaseInv ({ s with emgAutoStartPending := p }) := h

theorem powerInv_setGenBreakerClosed (s : State) (i : GenId) (h : PowerInv s) :
    PowerInv (s.setGen i { s.gen i with breakerState := BreakerState.CLOSED }) :=
  powerInv_setGen (fun hp => ⟨(h i hp).1, rfl⟩) h

theorem phaseInv_setGenBreakerClosed (s : State) (i : GenId) (h : PhaseInv s) :
    PhaseInv (s.setGen i { s.gen i with breakerState := BreakerState.CLOSED }) :=
  phaseInv_setGen_eq rfl h

@[simp] theorem emgAutoStartStep_gameOverReason (st : Settings) (s : State) :
    (emgAutoStartStep st s).gameOverReason = s.gameOverReason := by
  simp only [emgAutoStartStep]
  split_ifs <;> simp

@[simp] theorem emgAutoCloseStep_gameOverReason (s : State) :
    (emgAutoCloseStep s).gameOverReason = s.gameOverReason := by
  simp only [emgAutoCloseStep]
  split_ifs <;> simp

@[simp] theorem blackoutBranch_gameOverReason (st : Settings) (dt : ℚ) (s : State) :
    (blackoutBranch st dt s).gameOverReason = s.gameOverReason := by
  simp only [blackoutBranch]
  rw [emgAutoCloseStep_gameOverReason, emgAutoStartStep_gameOverReason]
  split_ifs <;> simp

@[simp] theorem clearBranch_gameOverReason (s : State) :
    (clearBranch s).gameOverReason = s.gameOverReason := by
  simp only [clearBranch]
  split_ifs <;> simp

@[simp] theorem checkBlackout_gameOverReason (dt : ℚ) (s : State) :
    (checkBlackout dt s).gameOverReason = s.gameOverReason := by
  simp only [checkBlackout]
  split_ifs <;> simp

theorem powerInv_emgAutoStartStep (st : Settings) (s : State) (h : PowerInv s) :
    PowerInv (emgAutoStartStep st s) := by
  simp only [emgAutoStartStep]
  split
  · exact powerInv_startGenerator _ _ (powerInv_addAlert (powerInv_withPending _ _ h))
  · exact h

theorem powerInv_emgAutoCloseStep (s : State) (h : PowerInv s) :
    PowerInv (emgAutoCloseStep s) := by
  simp only [emgAutoCloseStep]
  split
  · exact powerInv_addAlert (powerInv_withPending _ _ (powerInv_setGenBreakerClosed _ _ h))
  · exact h

theorem powerInv_blackoutBranch (st : Settings) (dt : ℚ) (s : State) (h : PowerInv s) :
    PowerInv (blackoutBranch st dt s) := by
  simp only [blackoutBranch]
  refine powerInv_emgAutoCloseStep _ (powerInv_emgAutoStartStep _ _ ?_)
  split
  · exact powerInv_congr (by simp) h
  · exact powerInv_congr (by simp) h

theorem powerInv_clearBranch (s : State) (h : PowerInv s) :
    PowerInv (clearBranch s) := by
  simp only [clearBranch]
  split
  · exact powerInv_congr (by simp) h
  · exact powerInv_congr (by simp) h

theorem powerInv_checkBlackout (dt : ℚ) (s : State) (h : PowerInv s) :
    PowerInv (checkBlackout dt s) := by
  simp only [checkBlackout]
  split
  · apply powerInv_addAlert
    split
    · exact powerInv_blackoutBranch _ _ _ (powerInv_withBlackout _ _ h)
    · exact powerInv_clearBranch _ (powerInv_withBlackout _ _ h)
  · split
    · exact powerInv_blackoutBranch _ _ _ (powerInv_withBlackout _ _ h)
    · exact powerInv_clearBranch _ (powerInv_withBlackout _ _ h)

theorem phaseInv_emgAutoStartStep (st : Settings) (s : State) (h : PhaseInv s) :
    PhaseInv (emgAutoStartStep st s) := by
  simp only [emgAutoStartStep]
  split
  · exact phaseInv_startGenerator _ _ (phaseInv_addAlert (phaseInv_withPending _ _ h))
  · exact h

theorem phaseInv_emgAutoCloseStep (s : State) (h : PhaseInv s) :
    PhaseInv (emgAutoCloseStep s) := by
  simp only [emgAutoCloseStep]
  split
  · exact phaseInv_addAlert (phaseInv_withPending _ _ (phaseInv_setGenBreakerClosed _ _ h))
  · exact h

theorem phaseInv_blackoutBranch (st : Settings) (dt : ℚ) (s : State) (h : PhaseInv s) :
    PhaseInv (blackoutBranch st dt s) := by
  simp only [blackoutBranch]
  refine phaseInv_emgAutoCloseStep _ (phaseInv_emgAutoStartStep _ _ ?_)
  split
  · exact phaseInv_congr (by simp) h
  · exact phaseInv_congr (by simp) h

theorem phaseInv_clearBranch (s : State) (h : PhaseInv s) :
    PhaseInv (clearBranch s) := by
  simp only [clearBranch]
  split
  · exact phaseInv_congr (by simp) h
  · exact phaseInv_congr (by simp) h

theorem phaseInv_checkBlackout (dt : ℚ) (s : State) (h : PhaseInv s) :
    PhaseInv (checkBlackout dt s) := by
  simp only [checkBlackout]
  split
  · apply phaseInv_addAlert
    split
    · exact phaseInv_blackoutBranch _ _ _ (phaseInv_withBlackout _ _ h)
    · exact phaseInv_clearBranch _ (phaseInv_withBlackout _ _ h)
  · split
    · exact phaseInv_blackoutBranch _ _ _ (phaseInv_withBlackout _ _ h)
    · exact phaseInv_clearBranch _ (phaseInv_withBlackout _ _ h)

theorem powerInv_tickUpToGens (env : Env) (dt : ℚ) (s : State) (h : PowerInv s) :
    PowerInv (tickUpToGens env dt s) := by
  refine powerInv_tickGenerators env dt _ ?_
  refine powerInv_congr (computeHeavyConsumers_gens env dt _) ?_
  refine powerInv_congr (updateLoadNoise_gens env dt _) ?_
  exact powerInv_congr (advanceSimTime_gens dt s) h

theorem phaseInv_tickUpToGens (env : Env) (dt : ℚ) (s : State) (h : PhaseInv s) :
    PhaseInv (tickUpToGens env dt s) := by
  refine phaseInv_tickGenerators env dt _ ?_
  refine phaseInv_congr (computeHeavyConsumers_gens env dt _) ?_
  refine phaseInv_congr (updateLoadNoise_gens env dt _) ?_
  exact phaseInv_congr (advanceSimTime_gens dt s) h

theorem powerInv_tickPhases (env : Env) (dt : ℚ) (s : State) (h : PowerInv s) :
    PowerInv (tickPhases env dt s) := by
  refine powerInv_checkBlackout dt _ ?_
  refine powerInv_checkProtection dt _ ?_
  refine powerInv_distributeLoad env dt _ ?_
  refine powerInv_congr (computeSubBuses_gens env dt _) ?_
  refine powerInv_congr (computeEmergencyBus_gens env dt _) ?_
  refine powerInv_congr (computeMainBus_gens env dt _) ?_
  refine powerInv_congr (computePortStbBuses_gens env dt _) ?_
  exact powerInv_tickUpToGens env dt s h

theorem phaseInv_tickPhases (env : Env) (dt : ℚ) (s : State) (h : PhaseInv s) :
    PhaseInv (tickPhases env dt s) := by
  refine phaseInv_checkBlackout dt _ ?_
  refine phaseInv_checkProtection dt _ ?_
  refine phaseInv_distributeLoad env dt _ ?_
  refine phaseInv_congr (computeSubBuses_gens env dt _) ?_
  refine phaseInv_congr (computeEmergencyBus_gens env dt _) ?_
  refine phaseInv_congr (computeMainBus_gens env dt _) ?_
  refine phaseInv_congr (computePortStbBuses_gens env dt _) ?_
  exact phaseInv_tickUpToGens env dt s h

theorem powerInv_tick (env : Env) (dt : ℚ) (s : State) (h : PowerInv s) :
    PowerInv (tick env dt s) := by
  simp only [tick]
  split
  · exact h
  · exact powerInv_tickPhases env dt s h

theorem phaseInv_tick (env : Env) (dt : ℚ) (s : State) (h : PhaseInv s) :
    PhaseInv (tick env dt s) := by
  simp only [tick]
  split
  · exact h
  · exact phaseInv_tickPhases env dt s h

@[simp] theorem openBreaker_gameOverReason (s : State) (x : ExtId) :
    (openBreaker s x).gameOverReason = s.gameOverReason := by
  simp only [openBreaker]
  split <;> (try split_ifs) <;> simp

theorem powerInv_openBreaker (s : State) (x : ExtId) (h : PowerInv s) :
    PowerInv (openBreaker s x) := by
  simp only [openBreaker]
  split
  · exact h
  · split_ifs
    · exact powerInv_addAlert h
    · exact h
    · exact powerInv_addAlert (powerInv_setGen (fun hp => absurd rfl hp) h)

theorem phaseInv_openBreaker (s : State) (x : ExtId) (h : PhaseInv s) :
    PhaseInv (openBreaker s x) := by
  simp only [openBreaker]
  split
  · exact h
  · split_ifs
    · exact phaseInv_addAlert h
    · exact h
    · exact phaseInv_addAlert (phaseInv_setGen_eq rfl h)

theorem openBreaker_closed_eq (s : State) (x : ExtId) (gid : GenId)
    (hres : resolveId x = some gid)
    (hB : (s.gen gid).breakerState = BreakerState.CLOSED) :
    openBreaker s x =
      addAlert (s.setGen gid
        { s.gen gid with breakerState := BreakerState.OPEN
                         activePower := 0
                         reactivePower := 0
                         isoIntegral := 0 })
        Severity.info (AlertMsg.breakerOpenedMsg x) := by
  simp [openBreaker, hres, hB]

@[simp] theorem stopGenerator_gameOverReason (s : State) (x : ExtId) :
    (stopGenerator s x).gameOverReason = s.gameOverReason := by
  simp only [stopGenerator]
  split
  · rfl
  · split_ifs <;> simp [openBreaker_gameOverReason]

theorem powerInv_stopGenerator (s : State) (x : ExtId) (h : PowerInv s) :
    PowerInv (stopGenerator s x) := by
  simp only [stopGenerator]
  split
  · exact h
  · next gid heq =>
    split_ifs with h1 h2
    · exact h
    · rw [openBreaker_closed_eq s x gid heq h2]
      refine powerInv_addAlert (powerInv_setGen ?_
        (powerInv_addAlert (powerInv_setGen (fun hp => absurd rfl hp) h)))
      intro hp
      exfalso
      apply hp
      simp [setGenStateTo, State.gen_setGen_self]
    · refine powerInv_addAlert (powerInv_setGen ?_ h)
      intro hp
      exact absurd (h gid hp).2 h2

theorem phaseInv_stopGenerator (s : State) (x : ExtId) (h : PhaseInv s) :
    PhaseInv (stopGenerator s x) := by
  simp only [stopGenerator]
  split
  · exact h
  · split_ifs
    · exact h
    · exact phaseInv_addAlert (phaseInv_setGen_eq rfl (phaseInv_openBreaker s x h))
    · exact phaseInv_addAlert (phaseInv_setGen_eq rfl h)

@[simp] theorem resetBreaker_gameOverReason (s : State) (x : ExtId) :
    (resetBreaker s x).gameOverReason = s.gameOverReason := by
  simp only [resetBreaker]
  split <;> (try split_ifs) <;> simp

theorem powerInv_resetBreaker (s : State) (x : ExtId) (h : PowerInv s) :
    PowerInv (resetBreaker s x) := by
  simp only [resetBreaker]
  split
  · exact h
  · split_ifs with h1
    · exact powerInv_addAlert h
    · refine powerInv_addAlert (powerInv_setGen ?_ h)
      intro hp
      rw [not_ne_iff] at h1
      have h2 := (h _ hp).2
      rw [h2] at h1
      exact absurd h1 (by decide)

theorem phaseInv_resetBreaker (s : State) (x : ExtId) (h : PhaseInv s) :
    PhaseInv (resetBreaker s x) := by
  simp only [resetBreaker]
  split
  · exact h
  · split_ifs
    · exact phaseInv_addAlert h
    · exact phaseInv_addAlert (phaseInv_setGen_eq rfl h)

@[simp] theorem finishClose_gameOverReason (s : State) (x : ExtId) (gid : GenId) :
    (finishClose s x gid).gameOverReason = s.gameOverReason := by
  simp [finishClose]

theorem powerInv_finishClose (x : ExtId) {s : State} {gid : GenId} (h : PowerInv s) :
    PowerInv (finishClose s x gid) := by
  simp only [finishClose]
  refine powerInv_addAlert (powerInv_setGen ?_ h)
  intro hp
  exact ⟨(h gid hp).1, rfl⟩

theorem phaseInv_finishClose (x : ExtId) {s : State} {gid : GenId} (h : PhaseInv s) :
    PhaseInv (finishClose s x gid) := by
  simp only [finishClose]
  exact phaseInv_addAlert (phaseInv_setGen_eq rfl h)

theorem powerInv_closeBreaker (s : State) (x : ExtId) (h : PowerInv s) :
    PowerInv (closeBreaker s x) := by
  simp only [closeBreaker]
  split
  · exact h
  · split_ifs <;>
      first
        | exact h
        | exact powerInv_addAlert h
        | exact powerInv_finishClose _ (powerInv_applySyncDamage (powerInv_addAlert h))
        | exact powerInv_finishClose _ (powerInv_addAlert h)
        | exact powerInv_finishClose _ h

theorem phaseInv_closeBreaker (s : State) (x : ExtId) (h : PhaseInv s) :
    PhaseInv (closeBreaker s x) := by
  simp only [closeBreaker]
  split
  · exact h
  · split_ifs
    · exact phaseInv_addAlert h
    · exact h
    · exact phaseInv_addAlert h
    · exact phaseInv_addAlert h
    · exact phaseInv_finishClose _ (phaseInv_applySyncDamage (phaseInv_addAlert h))
    · exact phaseInv_finishClose _ (phaseInv_addAlert h)
    · exact phaseInv_finishClose _ h
    · exact phaseInv_finishClose _ h
    · exact phaseInv_addAlert h
    · exact phaseInv_finishClose _ (phaseInv_applySyncDamage (phaseInv_addAlert h))
    · exact phaseInv_finishClose _ (phaseInv_addAlert h)
    · exact phaseInv_finishClose _ h
    · exact phaseInv_finishClose _ h

theorem gameOverInv_addAlert {s : State} {sev : Severity} {m : AlertMsg} (h : GameOverInv s) :
    GameOverInv (addAlert s sev m) :=
  gameOverInv_congr (addAlert_gameOverReason s sev m) h

theorem gameOverInv_finishClose (x : ExtId) {s : State} {gid : GenId} (h : GameOverInv s) :
    GameOverInv (finishClose s x gid) :=
  gameOverInv_congr (finishClose_gameOverReason s x gid) h

theorem gameOverInv_closeBreaker (s : State) (x : ExtId) (h : GameOverInv s) :
    GameOverInv (closeBreaker s x) := by
  simp only [closeBreaker]
  split
  · exact h
  · split_ifs <;>
      first
        | exact h
        | exact gameOverInv_addAlert h
        | exact gameOverInv_finishClose _ (gameOverInv_applySyncDamage (gameOverInv_addAlert h))
        | exact gameOverInv_finishClose _ (gameOverInv_addAlert h)
        | exact gameOverInv_finishClose _ h

@[simp] theorem setGovernorSetpoint_gameOverReason (s : State) (x : ExtId) (v : ℚ) :
    (setGovernorSetpoint s x v).gameOverReason = s.gameOverReason := by
  simp only [setGovernorSetpoint]
  split <;> simp

theorem powerInv_setGovernorSetpoint (s : State) (x : ExtId) (v : ℚ) (h : PowerInv s) :
    PowerInv (setGovernorSetpoint s x v) := by
  simp only [setGovernorSetpoint]
  split
  · exact h
  · exact powerInv_setGen_core rfl rfl rfl h

theorem phaseInv_setGovernorSetpoint (s : State) (x : ExtId) (v : ℚ) (h : PhaseInv s) :
    PhaseInv (setGovernorSetpoint s x v) := by
  simp only [setGovernorSetpoint]
  split
  · exact h
  · exact phaseInv_setGen_eq rfl h

@[simp] theorem setAvrSetpoint_gameOverReason (s : State) (x : ExtId) (v : ℚ) :
    (setAvrSetpoint s x v).gameOverReason = s.gameOverReason := by
  simp only [setAvrSetpoint]
  split <;> simp

theorem powerInv_setAvrSetpoint (s : State) (x : ExtId) (v : ℚ) (h : PowerInv s) :
    PowerInv (setAvrSetpoint s x v) := by
  simp only [setAvrSetpoint]
  split
  · exact h
  · exact powerInv_setGen_core rfl rfl rfl h

theorem phaseInv_setAvrSetpoint (s : State) (x : ExtId) (v : ℚ) (h : PhaseInv s) :
    PhaseInv (setAvrSetpoint s x v) := by
  simp only [setAvrSetpoint]
  split
  · exact h
  · exact phaseInv_setGen_eq rfl h

@[simp] theorem setSpeedMode_gameOverReason (s : State) (x : ExtId) (m : SpeedMode) :
    (setSpeedMode s x m).gameOverReason = s.gameOverReason := by
  simp only [setSpeedMode]
  split <;> simp

theorem powerInv_setSpeedMode (s : State) (x : ExtId) (m : SpeedMode) (h : PowerInv s) :
    PowerInv (setSpeedMode s x m) := by
  simp only [setSpeedMode]
  split
  · exact h
  · exact powerInv_addAlert (powerInv_setGen_core rfl rfl rfl h)

theorem phaseInv_setSpeedMode (s : State) (x : ExtId) (m : SpeedMode) (h : PhaseInv s) :
    PhaseInv (setSpeedMode s x m) := by
  simp only [setSpeedMode]
  split
  · exact h
  · exact phaseInv_addAlert (phaseInv_setGen_eq rfl h)

@[simp] theorem setDroopPercent_gameOverReason (s : State) (x : ExtId) (v : ℚ) :
    (setDroopPercent s x v).gameOverReason = s.gameOverReason := by
  simp only [setDroopPercent]
  split <;> simp

theorem powerInv_setDroopPercent (s : State) (x : ExtId) (v : ℚ) (h : PowerInv s) :
    PowerInv (setDroopPercent s x v) := by
  simp only [setDroopPercent]
  split
  · exact h
  · exact powerInv_setGen_core rfl rfl rfl h

theorem phaseInv_setDroopPercent (s : State) (x : ExtId) (v : ℚ) (h : PhaseInv s) :
    PhaseInv (setDroopPercent s x v) := by
  simp only [setDroopPercent]
  split
  · exact h
  · exact phaseInv_setGen_eq rfl h

@[simp] theorem setIsoComms_gameOverReason (s : State) (x : ExtId) (b : Bool) :
    (setIsoComms s x b).gameOverReason = s.gameOverReason := by
  simp only [setIsoComms]
  split <;> simp

theorem powerInv_setIsoComms (s : State) (x : ExtId) (b : Bool) (h : PowerInv s) :
    PowerInv (setIsoComms s x b) := by
  simp only [setIsoComms]
  split
  · exact h
  · exact powerInv_addAlert (powerInv_setGen_core rfl rfl rfl h)

theorem phaseInv_setIsoComms (s : State) (x : ExtId) (b : Bool) (h : PhaseInv s) :
    PhaseInv (setIsoComms s x b) := by
  simp only [setIsoComms]
  split
  · exact h
  · exact phaseInv_addAlert (phaseInv_setGen_eq rfl h)

@[simp] theorem tickUpToGens_gameOverReason (env : Env) (dt : ℚ) (s : State) :
    (tickUpToGens env dt s).gameOverReason = s.gameOverReason := by
  simp only [tickUpToGens]
  rw [tickGenerators_gameOverReason, computeHeavyConsumers_gameOverReason,
      updateLoadNoise_gameOverReason, advanceSimTime_gameOverReason]

@[simp] theorem tickPhases_gameOverReason (env : Env) (dt : ℚ) (s : State) :
    (tickPhases env dt s).gameOverReason = s.gameOverReason := by
  simp only [tickPhases]
  rw [checkBlackout_gameOverReason, checkProtection_gameOverReason,
      distributeLoad_gameOverReason, computeSubBuses_gameOverReason,
      computeEmergencyBus_gameOverReason, computeMainBus_gameOverReason,
      computePortStbBuses_gameOverReason, tickUpToGens_gameOverReason]

theorem gameOverInv_tick (env : Env) (dt : ℚ) (s : State) (h : GameOverInv s) :
    GameOverInv (tick env dt s) := by
  simp only [tick]
  split
  · exact h
  · exact gameOverInv_congr (by simp) h

theorem powerInv_mkEngine (cfg : Settings) (env : Env) : PowerInv (mkEngine cfg env) := by
  intro gid hp
  cases gid <;> exact absurd rfl hp

theorem phase_init_mem (r : ℚ) (h0 : 0 ≤ r) (h1 : r < 1) :
    0 ≤ r * TwoPi ∧ r * TwoPi < TwoPi := by
  constructor
  · exact mul_nonneg h0 (le_of_lt TwoPi_pos)
  · calc r * TwoPi < 1 * TwoPi := mul_lt_mul_of_pos_right h1 TwoPi_pos
      _ = TwoPi := one_mul _

theorem phaseInv_mkEngine (cfg : Settings) (env : Env)
    (hrand : ∀ n : ℕ, 0 ≤ env.random n ∧ env.random n < 1) :
    PhaseInv (mkEngine cfg env) := by
  intro gid
  cases gid <;> exact phase_init_mem _ (hrand _).1 (hrand _).2

theorem gameOverInv_mkEngine (cfg : Settings) (env : Env) :
    GameOverInv (mkEngine cfg env) :=
  Or.inl rfl

/-- Every reachable state satisfies the power invariant. -/
theorem reachable_powerInv {env : Env} {s : State} (h : Reachable env s) : PowerInv s := by
  induction h with
  | init cfg => exact powerInv_mkEngine cfg env
  | tick dt _ ih => exact powerInv_tick env dt _ ih
  | start x _ ih => exact powerInv_startGenerator _ x ih
  | stop x _ ih => exact powerInv_stopGenerator _ x ih
  | closeBrk x _ ih => exact powerInv_closeBreaker _ x ih
  | openBrk x _ ih => exact powerInv_openBreaker _ x ih
  | resetBrk x _ ih => exact powerInv_resetBreaker _ x ih
  | setGov x v _ ih => exact powerInv_setGovernorSetpoint _ x v ih
  | setAvr x v _ ih => exact powerInv_setAvrSetpoint _ x v ih
  | setMode x m _ ih => exact powerInv_setSpeedMode _ x m ih
  | setDroop x v _ ih => exact powerInv_setDroopPercent _ x v ih
  | setComms x b _ ih => exact powerInv_setIsoComms _ x b ih

/-- Every reachable state of an engine whose random stream stays in
`[0, 1)` satisfies the phase-angle invariant. -/
theorem reachable_phaseInv {env : Env} {s : State}
    (hrand : ∀ n : ℕ, 0 ≤ env.random n ∧ env.random n < 1)
    (h : Reachable env s) : PhaseInv s := by
  induction h with
  | init cfg => exact phaseInv_mkEngine cfg env hrand
  | tick dt _ ih => exact phaseInv_tick env dt _ ih
  | start x _ ih => exact phaseInv_startGenerator _ x ih
  | stop x _ ih => exact phaseInv_stopGenerator _ x ih
  | closeBrk x _ ih => exact phaseInv_closeBreaker _ x ih
  | openBrk x _ ih => exact phaseInv_openBreaker _ x ih
  | resetBrk x _ ih => exact phaseInv_resetBreaker _ x ih
  | setGov x v _ ih => exact phaseInv_setGovernorSetpoint _ x v ih
  | setAvr x v _ ih => exact phaseInv_setAvrSetpoint _ x v ih
  | setMode x m _ ih => exact phaseInv_setSpeedMode _ x m ih
  | setDroop x v _ ih => exact phaseInv_setDroopPercent _ x v ih
  | setComms x b _ ih => exact phaseInv_setIsoComms _ x b ih

/-- Every reachable state's `gameOverReason` is absent or the terminal
damage message. -/
theorem reachable_gameOverInv {env : Env} {s : State} (h : Reachable env s) :
    GameOverInv s := by
  induction h with
  | init cfg => exact gameOverInv_mkEngine cfg env
  | tick dt _ ih => exact gameOverInv_tick env dt _ ih
  | start x _ ih => exact gameOverInv_congr (by simp) ih
  | stop x _ ih => exact gameOverInv_congr (by simp) ih
  | closeBrk x _ ih => exact gameOverInv_closeBreaker _ x ih
  | openBrk x _ ih => exact gameOverInv_congr (by simp) ih
  | resetBrk x _ ih => exact gameOverInv_congr (by simp) ih
  | setGov x v _ ih => exact gameOverInv_congr (by simp) ih
  | setAvr x v _ ih => exact gameOverInv_congr (by simp) ih
  | setMode x m _ ih => exact gameOverInv_congr (by simp) ih
  | setDroop x v _ ih => exact gameOverInv_congr (by simp) ih
  | setComms x b _ ih => exact gameOverInv_congr (by simp) ih

theorem c3WitState_reachable : Reachable envZero c3WitState :=
  Reachable.tick 1 (Reachable.closeBrk ExtId.DG2 demoTwoGens_reachable)

theorem gameOverString_ne_empty (n : ℕ) : gameOverString n ≠ "" := by
  intro h
  have hl := congrArg String.length h
  rw [gameOverString, String.length_append, String.length_append] at hl
  have h1 : ("Excessive equipment damage (" : String).length = 28 := rfl
  have h2 : (" incidents)" : String).length = 11 := rfl
  have h3 : ("" : String).length = 0 := rfl
  rw [h1, h2, h3] at hl
  omega

/-- Claim C3: in every state reachable from the initial engine by
commands and ticks, a generator with nonzero active power is RUNNING
with its breaker CLOSED. -/
theorem c3_power_implies_online (env : Env) (s : State) (gid : GenId)
    (hr : Reachable env s) (hp : (s.gen gid).activePower ≠ 0) :
    (s.gen gid).state = GenState.RUNNING ∧
      (s.gen gid).breakerState = BreakerState.CLOSED :=
  reachable_powerInv hr gid hp

set_option maxRecDepth 10000 in
set_option maxHeartbeats 2000000 in
theorem c3_power_implies_online_witness :
    (c3WitState.gen GenId.DG2).activePower ≠ 0 ∧
    ((c3WitState.gen GenId.DG2).state = GenState.RUNNING ∧
     (c3WitState.gen GenId.DG2).breakerState = BreakerState.CLOSED) :=
  ⟨by with_unfolding_all decide,
   c3_power_implies_online envZero c3WitState GenId.DG2 c3WitState_reachable
     (by with_unfolding_all decide)⟩

/-- Claim C6: in every reachable state whose `gameOverReason` is set
(non-null), `tick` returns the state unchanged. -/
theorem c6_tick_noop_after_gameover (env : Env) (dt : ℚ) (s : State)
    (hr : Reachable env s) (hn : s.gameOverReason ≠ none) :
    tick env dt s = s := by
  rcases reachable_gameOverInv hr with h0 | ⟨n, hn2⟩
  · exact absurd h0 hn
  · have ht : gameOverTruthy s.gameOverReason = true := by
      rw [hn2]
      simp only [gameOverTruthy]
      exact decide_eq_true (gameOverString_ne_empty n)
    simp only [tick, ht]
    simp

set_option maxRecDepth 10000 in
set_option maxHeartbeats 2000000 in
theorem c6_tick_noop_after_gameover_witness :
    severeState.gameOverReason ≠ none ∧ tick envZero 1 severeState = severeState :=
  ⟨by with_unfolding_all decide,
   c6_tick_noop_after_gameover envZero 1 severeState severe_reachable
     (by with_unfolding_all decide)⟩

/-- Claim C7: with a random stream confined to `[0, 1)` (as
`Math.random()` is), every generator's phase angle lies in `[0, 2π)` in
every reachable state. -/
theorem c7_phase_angle_range (env : Env) (s : State) (gid : GenId)
    (hrand : ∀ n : ℕ, 0 ≤ env.random n ∧ env.random n < 1)
    (hr : Reachable env s) :
    0 ≤ (s.gen gid).phaseAngle ∧ (s.gen gid).phaseAngle < TwoPi :=
  reachable_phaseInv hrand hr gid

theorem c7_phase_angle_range_witness :
    (∀ n : ℕ, 0 ≤ envZero.random n ∧ envZero.random n < 1) ∧
    (0 ≤ (demoTwoGens.gen GenId.DG1).phaseAngle ∧
     (demoTwoGens.gen GenId.DG1).phaseAngle < TwoPi) :=
  ⟨fun n => ⟨le_rfl, zero_lt_one⟩,
   c7_phase_angle_range envZero demoTwoGens GenId.DG1
     (fun n => ⟨le_rfl, zero_lt_one⟩) demoTwoGens_reachable⟩

theorem GenRF_refl (s : State) : GenRF s s := fun _ => ⟨rfl, rfl⟩

theorem GenRF_trans {a b c : State} (h1 : GenRF a b) (h2 : GenRF b c) : GenRF a c :=
  fun j => ⟨(h1 j).1.trans (h2 j).1, (h1 j).2.trans (h2 j).2⟩

theorem GenRF_of_gens {a b : State} (h : a.gens = b.gens) : GenRF a b := by
  intro j
  unfold State.gen
  rw [h]
  exact ⟨rfl, rfl⟩

theorem GenRF_addAlert (s : State) (sev : Severity) (m : AlertMsg) :
    GenRF (addAlert s sev m) s :=
  GenRF_of_gens (addAlert_gens s sev m)

theorem GenRF_setGen {s : State} {i : GenId} {g : Gen}
    (hr : g.rpm = (s.gen i).rpm) (hf : g.frequency = (s.gen i).frequency) :
    GenRF (s.setGen i g) s := by
  intro j
  by_cases hj : j = i
  · subst hj
    rw [State.gen_setGen_self]
    exact ⟨hr, hf⟩
  · rw [State.gen_setGen_ne s hj]
    exact ⟨rfl, rfl⟩

theorem GenRF_tripBreaker (s : State) (gid : GenId) (r : TripReason) :
    GenRF (tripBreaker s gid r) s := by
  simp only [tripBreaker]
  split
  · exact GenRF_refl s
  · exact GenRF_trans (GenRF_addAlert _ _ _) (GenRF_setGen rfl rfl)

theorem GenRF_protUnderFreq (st : Settings) (dt : ℚ) (s : State) (gid : GenId) :
    GenRF (protUnderFreq st dt s gid) s := by
  simp only [protUnderFreq]
  split_ifs
  · exact GenRF_trans (GenRF_tripBreaker _ _ _) (GenRF_setGen rfl rfl)
  · exact GenRF_setGen rfl rfl
  · exact GenRF_setGen rfl rfl

theorem GenRF_protOverFreq (st : Settings) (dt : ℚ) (s : State) (gid : GenId) :
    GenRF (protOverFreq st dt s gid) s := by
  simp only [protOverFreq]
  split_ifs
  · exact GenRF_trans (GenRF_tripBreaker _ _ _) (GenRF_setGen rfl rfl)
  · exact GenRF_setGen rfl rfl
  · exact GenRF_setGen rfl rfl

theorem GenRF_protUnderVolt (st : Settings) (s : State) (gid : GenId) :
    GenRF (protUnderVolt st s gid) s := by
  simp only [protUnderVolt]
  split_ifs
  · exact GenRF_tripBreaker _ _ _
  · exact GenRF_refl s

theorem GenRF_protOverVolt (st : Settings) (s : State) (gid : GenId) :
    GenRF (protOverVolt st s gid) s := by
  simp only [protOverVolt]
  split_ifs
  · exact GenRF_tripBreaker _ _ _
  · exact GenRF_refl s

theorem GenRF_protReversePower (st : Settings) (s : State) (gid : GenId) :
    GenRF (protReversePower st s gid) s := by
  simp only [protReversePower]
  split_ifs
  · exact GenRF_tripBreaker _ _ _
  · exact GenRF_refl s

theorem GenRF_protOvercurrent (st : Settings) (dt : ℚ) (s : State) (gid : GenId) :
    GenRF (protOvercurrent st dt s gid) s := by
  simp only [protOvercurrent]
  split_ifs
  · exact GenRF_trans (GenRF_tripBreaker _ _ _) (GenRF_setGen rfl rfl)
  · exact GenRF_setGen rfl rfl
  · exact GenRF_setGen rfl rfl

theorem GenRF_checkProtectionOne (dt : ℚ) (s : State) (gid : GenId) :
    GenRF (checkProtectionOne dt s gid) s := by
  simp only [checkProtectionOne]
  split_ifs
  · exact GenRF_setGen rfl rfl
  · exact GenRF_setGen rfl rfl
  · exact GenRF_trans (GenRF_protOvercurrent _ _ _ _)
      (GenRF_trans (GenRF_protReversePower _ _ _)
        (GenRF_trans (GenRF_protOverVolt _ _ _)
          (GenRF_trans (GenRF_protUnderVolt _ _ _)
            (GenRF_trans (GenRF_protOverFreq _ _ _ _) (GenRF_protUnderFreq _ _ _ _)))))

theorem GenRF_checkProtection (dt : ℚ) (s : State) : GenRF (checkProtection dt s) s := by
  simp only [checkProtection, List.foldl_cons, List.foldl_nil]
  exact GenRF_trans (GenRF_checkProtectionOne _ _ _)
    (GenRF_trans (GenRF_checkProtectionOne _ _ _)
      (GenRF_trans (GenRF_checkProtectionOne _ _ _)
        (GenRF_trans (GenRF_checkProtectionOne _ _ _) (GenRF_checkProtectionOne _ _ _))))

theorem GenRF_startGenerator (s : State) (x : ExtId) : GenRF (startGenerator s x) s := by
  simp only [startGenerator]
  split
  · exact GenRF_refl s
  · split_ifs
    · exact GenRF_refl s
    · exact GenRF_addAlert _ _ _
    · exact GenRF_trans (GenRF_addAlert _ _ _) (GenRF_setGen rfl rfl)

theorem GenRF_emgAutoStartStep (st : Settings) (s : State) :
    GenRF (emgAutoStartStep st s) s := by
  simp only [emgAutoStartStep]
  split
  · exact GenRF_trans (GenRF_startGenerator _ _)
      (GenRF_trans (GenRF_addAlert _ _ _) (GenRF_of_gens rfl))
  · exact GenRF_refl s

theorem GenRF_emgAutoCloseStep (s : State) : GenRF (emgAutoCloseStep s) s := by
  simp only [emgAutoCloseStep]
  split
  · exact GenRF_trans (GenRF_addAlert _ _ _)
      (GenRF_trans (GenRF_of_gens rfl) (GenRF_setGen rfl rfl))
  · exact GenRF_refl s

theorem GenRF_blackoutBranch (st : Settings) (dt : ℚ) (s : State) :
    GenRF (blackoutBranch st dt s) s := by
  simp only [blackoutBranch]
  refine GenRF_trans (GenRF_emgAutoCloseStep _) (GenRF_trans (GenRF_emgAutoStartStep _ _) ?_)
  split
  · exact GenRF_trans (GenRF_addAlert _ _ _) (GenRF_of_gens rfl)
  · exact GenRF_of_gens rfl

theorem GenRF_clearBranch (s : State) : GenRF (clearBranch s) s := by
  simp only [clearBranch]
  split
  · exact GenRF_trans (GenRF_addAlert _ _ _) (GenRF_of_gens rfl)
  · exact GenRF_of_gens rfl

theorem GenRF_checkBlackout (dt : ℚ) (s : State) : GenRF (checkBlackout dt s) s := by
  simp only [checkBlackout]
  have hin : GenRF (if (!s.mainBus.live) = true
      then blackoutBranch s.settings dt { s with blackout := !s.mainBus.live }
      else clearBranch { s with blackout := !s.mainBus.live }) s := by
    split
    · exact GenRF_trans (GenRF_blackoutBranch _ _ _) (GenRF_of_gens rfl)
    · exact GenRF_trans (GenRF_clearBranch _) (GenRF_of_gens rfl)
  split
  · exact GenRF_trans (GenRF_addAlert _ _ _) hin
  · exact hin

theorem distributeLoad_gen_ne_emg (env : Env) (dt : ℚ) (s : State) (gid : GenId)
    (hg : gid ≠ GenId.EMG) : (distributeLoad env dt s).gen gid = s.gen gid := by
  simp only [distributeLoad]
  split
  · rfl
  · split
    · split <;> (cases gid <;> first | rfl | exact absurd rfl hg)
    · rfl

theorem advanceSimTime_settings (dt : ℚ) (s : State) :
    (advanceSimTime dt s).settings = s.settings := rfl

theorem updateLoadNoise_settings (env : Env) (dt : ℚ) (s : State) :
    (updateLoadNoise env dt s).settings = s.settings := by
  simp only [updateLoadNoise, nextRand]
  split_ifs <;> rfl

theorem tickConsumerRec_snd_settings (env : Env) (dt : ℚ) (s : State) (c : Consumer) :
    ((tickConsumerRec env dt s c).2).settings = s.settings := by
  simp only [tickConsumerRec, nextRand]
  repeat' split
  all_goals rfl

theorem computeHeavyConsumers_settings (env : Env) (dt : ℚ) (s : State) :
    (computeHeavyConsumers env dt s).settings = s.settings := by
  simp only [computeHeavyConsumers]
  simp only [tickConsumerRec_snd_settings]

theorem tickGenSwitch_settings (env : Env) (dt : ℚ) (s : State) (gid : GenId) :
    (tickGenSwitch env dt s gid).settings = s.settings := by
  simp only [tickGenSwitch]
  split <;> (try split_ifs) <;> simp

theorem tickGenTail_settings (dt : ℚ) (s : State) (gid : GenId) :
    (tickGenTail dt s gid).settings = s.settings := by
  simp [tickGenTail]

theorem tickGeneratorOne_settings (env : Env) (dt : ℚ) (s : State) (gid : GenId) :
    (tickGeneratorOne env dt s gid).settings = s.settings := by
  simp only [tickGeneratorOne]
  rw [tickGenTail_settings, tickGenSwitch_settings]

theorem tickGenSwitch_gen_ne (env : Env) (dt : ℚ) (s : State) (gid j : GenId)
    (hj : j ≠ gid) : (tickGenSwitch env dt s gid).gen j = s.gen j := by
  simp only [tickGenSwitch]
  split <;> (try split_ifs) <;> simp [State.gen_setGen_ne _ hj]

theorem tickGenTail_gen_ne (dt : ℚ) (s : State) (gid j : GenId)
    (hj : j ≠ gid) : (tickGenTail dt s gid).gen j = s.gen j := by
  simp only [tickGenTail]
  exact State.gen_setGen_ne _ hj _

theorem tickGeneratorOne_gen_ne (env : Env) (dt : ℚ) (s : State) (gid j : GenId)
    (hj : j ≠ gid) : (tickGeneratorOne env dt s gid).gen j = s.gen j := by
  simp only [tickGeneratorOne]
  rw [tickGenTail_gen_ne _ _ _ _ hj, tickGenSwitch_gen_ne _ _ _ _ _ hj]

theorem tickGenTail_gen_spec (dt : ℚ) (s : State) (gid : GenId) :
    ((tickGenTail dt s gid).gen gid).frequency =
      (s.gen gid).rpm * s.settings.generatorPoles / 120 ∧
    ((tickGenTail dt s gid).gen gid).rpm = max 0 ((s.gen gid).rpm) := by
  simp only [tickGenTail]
  rw [State.gen_setGen_self]
  exact ⟨rfl, rfl⟩

theorem tickGeneratorOne_gen_spec (env : Env) (dt : ℚ) (s : State) (gid : GenId) :
    ∃ r : ℚ,
      ((tickGeneratorOne env dt s gid).gen gid).frequency =
        r * s.settings.generatorPoles / 120 ∧
      ((tickGeneratorOne env dt s gid).gen gid).rpm = max 0 r := by
  refine ⟨((tickGenSwitch env dt s gid).gen gid).rpm, ?_, ?_⟩
  · simp only [tickGeneratorOne]
    rw [(tickGenTail_gen_spec _ _ _).1, tickGenSwitch_settings]
  · simp only [tickGeneratorOne]
    rw [(tickGenTail_gen_spec _ _ _).2]

theorem tickGenerators_gen_spec (env : Env) (dt : ℚ) (s : State) (gid : GenId) :
    ∃ r : ℚ,
      ((tickGenerators env dt s).gen gid).frequency =
        r * s.settings.generatorPoles / 120 ∧
      ((tickGenerators env dt s).gen gid).rpm = max 0 r := by
  cases gid with
  | DG1 =>
    obtain ⟨r, hf, hr⟩ := tickGeneratorOne_gen_spec env dt s GenId.DG1
    refine ⟨r, ?_, ?_⟩
    · simp only [tickGenerators, List.foldl_cons, List.foldl_nil]
      rw [tickGeneratorOne_gen_ne _ _ _ _ _ (by decide),
          tickGeneratorOne_gen_ne _ _ _ _ _ (by decide),
          tickGeneratorOne_gen_ne _ _ _ _ _ (by decide),
          tickGeneratorOne_gen_ne _ _ _ _ _ (by decide), hf]
    · simp only [tickGenerators, List.foldl_cons, List.foldl_nil]
      rw [tickGeneratorOne_gen_ne _ _ _ _ _ (by decide),
          tickGeneratorOne_gen_ne _ _ _ _ _ (by decide),
          tickGeneratorOne_gen_ne _ _ _ _ _ (by decide),
          tickGeneratorOne_gen_ne _ _ _ _ _ (by decide), hr]
  | DG2 =>
    obtain ⟨r, hf, hr⟩ := tickGeneratorOne_gen_spec env dt
      (tickGeneratorOne env dt s GenId.DG1) GenId.DG2
    refine ⟨r, ?_, ?_⟩
    · simp only [tickGenerators, List.foldl_cons, List.foldl_nil]
      rw [tickGeneratorOne_gen_ne _ _ _ _ _ (by decide),
          tickGeneratorOne_gen_ne _ _ _ _ _ (by decide),
          tickGeneratorOne_gen_ne _ _ _ _ _ (by decide), hf,
          tickGeneratorOne_settings]
    · simp only [tickGenerators, List.foldl_cons, List.foldl_nil]
      rw [tickGeneratorOne_gen_ne _ _ _ _ _ (by decide),
          tickGeneratorOne_gen_ne _ _ _ _ _ (by decide),
          tickGeneratorOne_gen_ne _ _ _ _ _ (by decide), hr]
  | DG3 =>
    obtain ⟨r, hf, hr⟩ := tickGeneratorOne_gen_spec env dt
      (tickGeneratorOne env dt (tickGeneratorOne env dt s GenId.DG1) GenId.DG2) GenId.DG3
    refine ⟨r, ?_, ?_⟩
    · simp only [tickGenerators, List.foldl_cons, List.foldl_nil]
      rw [tickGeneratorOne_gen_ne _ _ _ _ _ (by decide),
          tickGeneratorOne_gen_ne _ _ _ _ _ (by decide), hf,
          tickGeneratorOne_settings, tickGeneratorOne_settings]
    · simp only [tickGenerators, List.foldl_cons, List.foldl_nil]
      rw [tickGeneratorOne_gen_ne _ _ _ _ _ (by decide),
          tickGeneratorOne_gen_ne _ _ _ _ _ (by decide), hr]
  | DG4 =>
    obtain ⟨r, hf, hr⟩ := tickGeneratorOne_gen_spec env dt
      (tickGeneratorOne env dt (tickGeneratorOne env dt
        (tickGeneratorOne env dt s GenId.DG1) GenId.DG2) GenId.DG3) GenId.DG4
    refine ⟨r, ?_, ?_⟩
    · simp only [tickGenerators, List.foldl_cons, List.foldl_nil]
      rw [tickGeneratorOne_gen_ne _ _ _ _ _ (by decide), hf,
          tickGeneratorOne_settings, tickGeneratorOne_settings, tickGeneratorOne_settings]
    · simp only [tickGenerators, List.foldl_cons, List.foldl_nil]
      rw [tickGeneratorOne_gen_ne _ _ _ _ _ (by decide), hr]
  | EMG =>
    obtain ⟨r, hf, hr⟩ := tickGeneratorOne_gen_spec env dt
      (tickGeneratorOne env dt (tickGeneratorOne env dt (tickGeneratorOne env dt
        (tickGeneratorOne env dt s GenId.DG1) GenId.DG2) GenId.DG3) GenId.DG4) GenId.EMG
    refine ⟨r, ?_, ?_⟩
    · simp only [tickGenerators, List.foldl_cons, List.foldl_nil]
      rw [hf, tickGeneratorOne_settings, tickGeneratorOne_settings,
          tickGeneratorOne_settings, tickGeneratorOne_settings]
    · simp only [tickGenerators, List.foldl_cons, List.foldl_nil]
      rw [hr]

set_option maxHeartbeats 1000000 in
/-- Claim C8 (amended): after a tick of a non-terminated session, every
non-emergency generator whose derived frequency is non-negative shows
`frequency = rpm * generatorPoles / 120` at its end-of-tick rpm.  (The
emergency generator is excluded: `_distributeLoad` can adjust its rpm
after `_tickGenerator` derived its frequency, as the counterexample
shows.) -/
theorem c8_frequency_from_rpm_amended (env : Env) (dt : ℚ) (s : State) (gid : GenId)
    (hgid : gid ≠ GenId.EMG)
    (hgo : gameOverTruthy s.gameOverReason = false)
    (hpoles : 0 < s.settings.generatorPoles)
    (hfreq : 0 ≤ ((tick env dt s).gen gid).frequency) :
    ((tick env dt s).gen gid).frequency =
      ((tick env dt s).gen gid).rpm * s.settings.generatorPoles / 120 := by
  have htick : tick env dt s = tickPhases env dt s := by
    simp [tick, hgo]
  rw [htick] at hfreq ⊢
  have h1 : GenRF (tickPhases env dt s)
      (distributeLoad env dt (computeSubBuses env dt (computeEmergencyBus env dt
        (computeMainBus env dt (computePortStbBuses env dt (tickUpToGens env dt s)))))) := by
    simp only [tickPhases]
    exact GenRF_trans (GenRF_checkBlackout _ _) (GenRF_checkProtection _ _)
  have h3 : (computeSubBuses env dt (computeEmergencyBus env dt
      (computeMainBus env dt (computePortStbBuses env dt (tickUpToGens env dt s))))).gen gid =
      (tickUpToGens env dt s).gen gid := by
    unfold State.gen
    rw [computeSubBuses_gens, computeEmergencyBus_gens, computeMainBus_gens,
        computePortStbBuses_gens]
  have h4 : tickUpToGens env dt s =
      tickGenerators env dt (computeHeavyConsumers env dt
        (updateLoadNoise env dt (advanceSimTime dt s))) := rfl
  have hCset : (computeHeavyConsumers env dt
      (updateLoadNoise env dt (advanceSimTime dt s))).settings = s.settings := by
    rw [computeHeavyConsumers_settings, updateLoadNoise_settings, advanceSimTime_settings]
  obtain ⟨r, hf, hr⟩ := tickGenerators_gen_spec env dt
    (computeHeavyConsumers env dt (updateLoadNoise env dt (advanceSimTime dt s))) gid
  rw [(h1 gid).2, distributeLoad_gen_ne_emg env dt _ gid hgid, h3, h4, hf, hCset] at hfreq
  have hr0 : 0 ≤ r := by
    rcases div_nonneg_iff.mp hfreq with ⟨ha, _⟩ | ⟨_, hb⟩
    · by_contra hneg
      push_neg at hneg
      nlinarith
    · norm_num at hb
  rw [(h1 gid).2, (h1 gid).1, distributeLoad_gen_ne_emg env dt _ gid hgid, h3, h4, hf, hr,
      hCset, max_eq_right hr0]

set_option maxRecDepth 10000 in
set_option maxHeartbeats 4000000 in
theorem c8_frequency_from_rpm_amended_witness :
    GenId.DG1 ≠ GenId.EMG ∧
    gameOverTruthy demoTwoGens.gameOverReason = false ∧
    0 < demoTwoGens.settings.generatorPoles ∧
    0 ≤ ((tick envZero 1 demoTwoGens).gen GenId.DG1).frequency ∧
    ((tick envZero 1 demoTwoGens).gen GenId.DG1).frequency =
      ((tick envZero 1 demoTwoGens).gen GenId.DG1).rpm *
        demoTwoGens.settings.generatorPoles / 120 :=
  ⟨by decide, by with_unfolding_all decide, by with_unfolding_all decide,
   by with_unfolding_all decide,
   c8_frequency_from_rpm_amended envZero 1 demoTwoGens GenId.DG1 (by decide)
     (by with_unfolding_all decide) (by with_unfolding_all decide)
     (by with_unfolding_all decide)⟩

theorem PSFrame_refl (s : State) : PSFrame s s := ⟨rfl, rfl, rfl⟩

theorem PSFrame_trans {a b c : State} (h1 : PSFrame a b) (h2 : PSFrame b c) : PSFrame a c :=
  ⟨h1.1.trans h2.1, h1.2.1.trans h2.2.1, h1.2.2.trans h2.2.2⟩

theorem PSFrame_addAlert (s : State) (sev : Severity) (m : AlertMsg) :
    PSFrame (addAlert s sev m) s := by
  simp only [addAlert]
  split <;> exact ⟨rfl, rfl, rfl⟩

theorem PSFrame_setGen (s : State) (i : GenId) (g : Gen) : PSFrame (s.setGen i g) s :=
  ⟨rfl, rfl, rfl⟩

theorem PSFrame_tripBreaker (s : State) (gid : GenId) (r : TripReason) :
    PSFrame (tripBreaker s gid r) s := by
  simp only [tripBreaker]
  split
  · exact PSFrame_refl s
  · exact PSFrame_trans (PSFrame_addAlert _ _ _) (PSFrame_setGen _ _ _)

theorem PSFrame_protUnderFreq (st : Settings) (dt : ℚ) (s : State) (gid : GenId) :
    PSFrame (protUnderFreq st dt s gid) s := by
  simp only [protUnderFreq]
  split_ifs
  · exact PSFrame_trans (PSFrame_tripBreaker _ _ _) (PSFrame_setGen _ _ _)
  · exact PSFrame_setGen _ _ _
  · exact PSFrame_setGen _ _ _

theorem PSFrame_protOverFreq (st : Settings) (dt : ℚ) (s : State) (gid : GenId) :
    PSFrame (protOverFreq st dt s gid) s := by
  simp only [protOverFreq]
  split_ifs
  · exact PSFrame_trans (PSFrame_tripBreaker _ _ _) (PSFrame_setGen _ _ _)
  · exact PSFrame_setGen _ _ _
  · exact PSFrame_setGen _ _ _

theorem PSFrame_protUnderVolt (st : Settings) (s : State) (gid : GenId) :
    PSFrame (protUnderVolt st s gid) s := by
  simp only [protUnderVolt]
  split_ifs
  · exact PSFrame_tripBreaker _ _ _
  · exact PSFrame_refl s

theorem PSFrame_protOverVolt (st : Settings) (s : State) (gid : GenId) :
    PSFrame (protOverVolt st s gid) s := by
  simp only [protOverVolt]
  split_ifs
  · exact PSFrame_tripBreaker _ _ _
  · exact PSFrame_refl s

theorem PSFrame_protReversePower (st : Settings) (s : State) (gid : GenId) :
    PSFrame (protReversePower st s gid) s := by
  simp only [protReversePower]
  split_ifs
  · exact PSFrame_tripBreaker _ _ _
  · exact PSFrame_refl s

theorem PSFrame_protOvercurrent (st : Settings) (dt : ℚ) (s : State) (gid : GenId) :
    PSFrame (protOvercurrent st dt s gid) s := by
  simp only [protOvercurrent]
  split_ifs
  · exact PSFrame_trans (PSFrame_tripBreaker _ _ _) (PSFrame_setGen _ _ _)
  · exact PSFrame_setGen _ _ _
  · exact PSFrame_setGen _ _ _

theorem PSFrame_checkProtectionOne (dt : ℚ) (s : State) (gid : GenId) :
    PSFrame (checkProtectionOne dt s gid) s := by
  simp only [checkProtectionOne]
  split_ifs
  · exact PSFrame_setGen _ _ _
  · exact PSFrame_setGen _ _ _
  · exact PSFrame_trans (PSFrame_protOvercurrent _ _ _ _)
      (PSFrame_trans (PSFrame_protReversePower _ _ _)
        (PSFrame_trans (PSFrame_protOverVolt _ _ _)
          (PSFrame_trans (PSFrame_protUnderVolt _ _ _)
            (PSFrame_trans (PSFrame_protOverFreq _ _ _ _) (PSFrame_protUnderFreq _ _ _ _)))))

theorem PSFrame_checkProtection (dt : ℚ) (s : State) : PSFrame (checkProtection dt s) s := by
  simp only [checkProtection, List.foldl_cons, List.foldl_nil]
  exact PSFrame_trans (PSFrame_checkProtectionOne _ _ _)
    (PSFrame_trans (PSFrame_checkProtectionOne _ _ _)
      (PSFrame_trans (PSFrame_checkProtectionOne _ _ _)
        (PSFrame_trans (PSFrame_checkProtectionOne _ _ _) (PSFrame_checkProtectionOne _ _ _))))

theorem PSFrame_startGenerator (s : State) (x : ExtId) : PSFrame (startGenerator s x) s := by
  simp only [startGenerator]
  split
  · exact PSFrame_refl s
  · split_ifs
    · exact PSFrame_refl s
    · exact PSFrame_addAlert _ _ _
    · exact PSFrame_trans (PSFrame_addAlert _ _ _) (PSFrame_setGen _ _ _)

theorem PSFrame_emgAutoStartStep (st : Settings) (s : State) :
    PSFrame (emgAutoStartStep st s) s := by
  simp only [emgAutoStartStep]
  split
  · exact PSFrame_trans (PSFrame_startGenerator _ _)
      (PSFrame_trans (PSFrame_addAlert _ _ _) ⟨rfl, rfl, rfl⟩)
  · exact PSFrame_refl s

theorem PSFrame_emgAutoCloseStep (s : State) : PSFrame (emgAutoCloseStep s) s := by
  simp only [emgAutoCloseStep]
  split
  · exact PSFrame_trans (PSFrame_addAlert _ _ _)
      (@PSFrame_trans _
        (s.setGen GenId.EMG { s.gens.emg with breakerState := BreakerState.CLOSED }) _
        ⟨rfl, rfl, rfl⟩ (PSFrame_setGen _ _ _))
  · exact PSFrame_refl s

theorem PSFrame_blackoutBranch (st : Settings) (dt : ℚ) (s : State) :
    PSFrame (blackoutBranch st dt s) s := by
  simp only [blackoutBranch]
  refine PSFrame_trans (PSFrame_emgAutoCloseStep _) (PSFrame_trans (PSFrame_emgAutoStartStep _ _) ?_)
  split
  · exact PSFrame_trans (PSFrame_addAlert _ _ _) ⟨rfl, rfl, rfl⟩
  · exact ⟨rfl, rfl, rfl⟩

theorem PSFrame_clearBranch (s : State) : PSFrame (clearBranch s) s := by
  simp only [clearBranch]
  split
  · exact PSFrame_trans (PSFrame_addAlert _ _ _) ⟨rfl, rfl, rfl⟩
  · exact ⟨rfl, rfl, rfl⟩

theorem PSFrame_checkBlackout (dt : ℚ) (s : State) : PSFrame (checkBlackout dt s) s := by
  simp only [checkBlackout]
  have hin : PSFrame (if (!s.mainBus.live) = true
      then blackoutBranch s.settings dt { s with blackout := !s.mainBus.live }
      else clearBranch { s with blackout := !s.mainBus.live }) s := by
    split
    · exact PSFrame_trans (PSFrame_blackoutBranch _ _ _) ⟨rfl, rfl, rfl⟩
    · exact PSFrame_trans (PSFrame_clearBranch _) ⟨rfl, rfl, rfl⟩
  split
  · exact PSFrame_trans (PSFrame_addAlert _ _ _) hin
  · exact hin

theorem PSFrame_distributeLoad (env : Env) (dt : ℚ) (s : State) :
    PSFrame (distributeLoad env dt s) s := by
  simp only [distributeLoad]
  split
  · exact PSFrame_refl s
  · split
    · split <;> exact ⟨rfl, rfl, rfl⟩
    · exact PSFrame_refl s

theorem PSFrame_computeMainBus (env : Env) (dt : ℚ) (s : State) :
    PSFrame (computeMainBus env dt s) s := ⟨rfl, rfl, rfl⟩

theorem PSFrame_computeEmergencyBus (env : Env) (dt : ℚ) (s : State) :
    PSFrame (computeEmergencyBus env dt s) s := ⟨rfl, rfl, rfl⟩

theorem PSFrame_computeSubBusFor (env : Env) (dt : ℚ) (s : State) (t : Transformer) :
    PSFrame (computeSubBusFor env dt s t) s := by
  simp only [computeSubBusFor]
  split
  · exact PSFrame_refl s
  · exact ⟨rfl, rfl, rfl⟩

theorem PSFrame_computeSubBuses (env : Env) (dt : ℚ) (s : State) :
    PSFrame (computeSubBuses env dt s) s := by
  simp only [computeSubBuses]
  exact PSFrame_trans (PSFrame_computeSubBusFor _ _ _ _)
    (PSFrame_trans (PSFrame_computeSubBusFor _ _ _ _)
      (PSFrame_trans (PSFrame_computeSubBusFor _ _ _ _) (PSFrame_computeSubBusFor _ _ _ _)))

theorem PSFrame_advanceSimTime (dt : ℚ) (s : State) : PSFrame (advanceSimTime dt s) s :=
  ⟨rfl, rfl, rfl⟩

theorem PSFrame_updateLoadNoise (env : Env) (dt : ℚ) (s : State) :
    PSFrame (updateLoadNoise env dt s) s := by
  simp only [updateLoadNoise, nextRand]
  split_ifs <;> exact ⟨rfl, rfl, rfl⟩

theorem tickConsumerRec_snd_portBus (env : Env) (dt : ℚ) (s : State) (c : Consumer) :
    ((tickConsumerRec env dt s c).2).portBus = s.portBus := by
  simp only [tickConsumerRec, nextRand]
  repeat' split
  all_goals rfl

theorem tickConsumerRec_snd_stbBus (env : Env) (dt : ℚ) (s : State) (c : Consumer) :
    ((tickConsumerRec env dt s c).2).stbBus = s.stbBus := by
  simp only [tickConsumerRec, nextRand]
  repeat' split
  all_goals rfl

theorem tickConsumerRec_snd_busTieClosed (env : Env) (dt : ℚ) (s : State) (c : Consumer) :
    ((tickConsumerRec env dt s c).2).busTieClosed = s.busTieClosed := by
  simp only [tickConsumerRec, nextRand]
  repeat' split
  all_goals rfl

theorem PSFrame_computeHeavyConsumers (env : Env) (dt : ℚ) (s : State) :
    PSFrame (computeHeavyConsumers env dt s) s := by
  refine ⟨?_, ?_, ?_⟩
  · simp only [computeHeavyConsumers]
    simp only [tickConsumerRec_snd_portBus]
  · simp only [computeHeavyConsumers]
    simp only [tickConsumerRec_snd_stbBus]
  · simp only [computeHeavyConsumers]
    simp only [tickConsumerRec_snd_busTieClosed]

theorem PSFrame_tickGenSwitch (env : Env) (dt : ℚ) (s : State) (gid : GenId) :
    PSFrame (tickGenSwitch env dt s gid) s := by
  simp only [tickGenSwitch]
  split <;> (try split_ifs) <;>
    first
      | exact PSFrame_trans (PSFrame_addAlert _ _ _) (PSFrame_setGen _ _ _)
      | exact PSFrame_setGen _ _ _

theorem PSFrame_tickGenTail (dt : ℚ) (s : State) (gid : GenId) :
    PSFrame (tickGenTail dt s gid) s := by
  simp only [tickGenTail]
  exact PSFrame_setGen _ _ _

theorem PSFrame_tickGeneratorOne (env : Env) (dt : ℚ) (s : State) (gid : GenId) :
    PSFrame (tickGeneratorOne env dt s gid) s := by
  simp only [tickGeneratorOne]
  exact PSFrame_trans (PSFrame_tickGenTail _ _ _) (PSFrame_tickGenSwitch _ _ _ _)

theorem PSFrame_tickGenerators (env : Env) (dt : ℚ) (s : State) :
    PSFrame (tickGenerators env dt s) s := by
  simp only [tickGenerators, List.foldl_cons, List.foldl_nil]
  exact PSFrame_trans (PSFrame_tickGeneratorOne _ _ _ _)
    (PSFrame_trans (PSFrame_tickGeneratorOne _ _ _ _)
      (PSFrame_trans (PSFrame_tickGeneratorOne _ _ _ _)
        (PSFrame_trans (PSFrame_tickGeneratorOne _ _ _ _) (PSFrame_tickGeneratorOne _ _ _ _))))

theorem PSFrame_tickUpToGens (env : Env) (dt : ℚ) (s : State) :
    PSFrame (tickUpToGens env dt s) s := by
  simp only [tickUpToGens]
  exact PSFrame_trans (PSFrame_tickGenerators _ _ _)
    (PSFrame_trans (PSFrame_computeHeavyConsumers _ _ _)
      (PSFrame_trans (PSFrame_updateLoadNoise _ _ _) (PSFrame_advanceSimTime _ _)))

theorem busFold_eq (gs : List Gen) : ∀ a : ℚ × ℚ × ℚ × ℚ,
    gs.foldl busAccStep a =
      (a.1 + (gs.map (fun g => g.capacity)).sum,
       a.2.1 + (gs.map (fun g => g.frequency * g.capacity)).sum,
       a.2.2.1 + (gs.map (fun g => g.voltage * g.capacity)).sum,
       a.2.2.2 + (gs.map (fun g => g.activePower)).sum) := by
  induction gs with
  | nil =>
    intro a
    simp
  | cons g tl ih =>
    intro a
    simp only [List.foldl_cons, List.map_cons, List.sum_cons, ih, busAccStep, Prod.mk.injEq]
    refine ⟨by ring, by ring, by ring, by ring⟩

theorem computeBusFromGens_empty (env : Env) (dt : ℚ) (bus : PowerBus) (gs : List Gen)
    (h : gs.length = 0) :
    (computeBusFromGens env dt bus gs).voltage = chase env bus.voltage 0 (3/10) dt ∧
    (computeBusFromGens env dt bus gs).frequency = chase env bus.frequency 0 (1/2) dt := by
  simp only [computeBusFromGens]
  rw [if_pos h]
  exact ⟨rfl, rfl⟩

theorem computeBusFromGens_nonempty (env : Env) (dt : ℚ) (bus : PowerBus) (gs : List Gen)
    (h : gs.length ≠ 0) :
    (computeBusFromGens env dt bus gs).voltage =
      capacityWeighted (fun g => g.voltage) gs ∧
    (computeBusFromGens env dt bus gs).frequency =
      capacityWeighted (fun g => g.frequency) gs := by
  simp only [computeBusFromGens]
  rw [if_neg h, busFold_eq]
  constructor <;> simp [capacityWeighted]

theorem computePortStbBuses_noEq (env : Env) (dt : ℚ) (s : State)
    (hnc : ¬(s.busTieClosed = true ∧
      (computeBusFromGens env dt s.portBus (getOnlineGensForBus s BusName.portBus)).live = true ∧
      (computeBusFromGens env dt s.stbBus (getOnlineGensForBus s BusName.stbBus)).live = true)) :
    (computePortStbBuses env dt s).portBus.voltage =
      (computeBusFromGens env dt s.portBus (getOnlineGensForBus s BusName.portBus)).voltage ∧
    (computePortStbBuses env dt s).portBus.frequency =
      (computeBusFromGens env dt s.portBus (getOnlineGensForBus s BusName.portBus)).frequency ∧
    (computePortStbBuses env dt s).stbBus.voltage =
      (computeBusFromGens env dt s.stbBus (getOnlineGensForBus s BusName.stbBus)).voltage ∧
    (computePortStbBuses env dt s).stbBus.frequency =
      (computeBusFromGens env dt s.stbBus (getOnlineGensForBus s BusName.stbBus)).frequency := by
  simp only [computePortStbBuses]
  split_ifs
  · exact ⟨rfl, rfl, rfl, rfl⟩

theorem computePortStbBuses_tieClosed (env : Env) (dt : ℚ) (s : State)
    (hc : s.busTieClosed = true ∧
      (computeBusFromGens env dt s.portBus (getOnlineGensForBus s BusName.portBus)).live = true ∧
      (computeBusFromGens env dt s.stbBus (getOnlineGensForBus s BusName.stbBus)).live = true) :
    (computePortStbBuses env dt s).portBus.voltage =
      ((computeBusFromGens env dt s.portBus (getOnlineGensForBus s BusName.portBus)).voltage +
       (computeBusFromGens env dt s.stbBus (getOnlineGensForBus s BusName.stbBus)).voltage) / 2 ∧
    (computePortStbBuses env dt s).portBus.frequency =
      ((computeBusFromGens env dt s.portBus (getOnlineGensForBus s BusName.portBus)).frequency +
       (computeBusFromGens env dt s.stbBus (getOnlineGensForBus s BusName.stbBus)).frequency) / 2 ∧
    (computePortStbBuses env dt s).stbBus.voltage =
      ((computeBusFromGens env dt s.portBus (getOnlineGensForBus s BusName.portBus)).voltage +
       (computeBusFromGens env dt s.stbBus (getOnlineGensForBus s BusName.stbBus)).voltage) / 2 ∧
    (computePortStbBuses env dt s).stbBus.frequency =
      ((computeBusFromGens env dt s.portBus (getOnlineGensForBus s BusName.portBus)).frequency +
       (computeBusFromGens env dt s.stbBus (getOnlineGensForBus s BusName.stbBus)).frequency) / 2 := by
  simp only [computePortStbBuses]
  split_ifs
  · exact ⟨rfl, rfl, rfl, rfl⟩

set_option maxHeartbeats 1000000 in
/-- Claim C5 (amended): after each tick of a non-terminated session the
per-bus aggregates computed for the port and starboard buses are the
capacity-weighted average voltage and frequency of the generators
online on that bus at bus-aggregation time (after the generator physics
of the same tick), and one exponential-chase step toward 0 (time
constants 0.3 s voltage, 0.5 s frequency) from the pre-tick values when
none are online; when the bus-tie is open or either computed bus is
dead these aggregates are the buses' end-of-tick values, but when the
tie is closed and both computed buses are live, both buses are instead
overwritten with the arithmetic mean of the two sides. -/
theorem c5_bus_aggregation_amended (env : Env) (dt : ℚ) (s : State)
    (hgo : gameOverTruthy s.gameOverReason = false) :
    ((getOnlineGensForBus (tickUpToGens env dt s) BusName.portBus).length ≠ 0 →
      (computeBusFromGens env dt (tickUpToGens env dt s).portBus
          (getOnlineGensForBus (tickUpToGens env dt s) BusName.portBus)).voltage =
        capacityWeighted (fun g => g.voltage)
          (getOnlineGensForBus (tickUpToGens env dt s) BusName.portBus) ∧
      (computeBusFromGens env dt (tickUpToGens env dt s).portBus
          (getOnlineGensForBus (tickUpToGens env dt s) BusName.portBus)).frequency =
        capacityWeighted (fun g => g.frequency)
          (getOnlineGensForBus (tickUpToGens env dt s) BusName.portBus)) ∧
    ((getOnlineGensForBus (tickUpToGens env dt s) BusName.portBus).length = 0 →
      (computeBusFromGens env dt (tickUpToGens env dt s).portBus
          (getOnlineGensForBus (tickUpToGens env dt s) BusName.portBus)).voltage =
        chase env s.portBus.voltage 0 (3/10) dt ∧
      (computeBusFromGens env dt (tickUpToGens env dt s).portBus
          (getOnlineGensForBus (tickUpToGens env dt s) BusName.portBus)).frequency =
        chase env s.portBus.frequency 0 (1/2) dt) ∧
    ((getOnlineGensForBus (tickUpToGens env dt s) BusName.stbBus).length ≠ 0 →
      (computeBusFromGens env dt (tickUpToGens env dt s).stbBus
          (getOnlineGensForBus (tickUpToGens env dt s) BusName.stbBus)).voltage =
        capacityWeighted (fun g => g.voltage)
          (getOnlineGensForBus (tickUpToGens env dt s) BusName.stbBus) ∧
      (computeBusFromGens env dt (tickUpToGens env dt s).stbBus
          (getOnlineGensForBus (tickUpToGens env dt s) BusName.stbBus)).frequency =
        capacityWeighted (fun g => g.frequency)
          (getOnlineGensForBus (tickUpToGens env dt s) BusName.stbBus)) ∧
    ((getOnlineGensForBus (tickUpToGens env dt s) BusName.stbBus).length = 0 →
      (computeBusFromGens env dt (tickUpToGens env dt s).stbBus
          (getOnlineGensForBus (tickUpToGens env dt s) BusName.stbBus)).voltage =
        chase env s.stbBus.voltage 0 (3/10) dt ∧
      (computeBusFromGens env dt (tickUpToGens env dt s).stbBus
          (getOnlineGensForBus (tickUpToGens env dt s) BusName.stbBus)).frequency =
        chase env s.stbBus.frequency 0 (1/2) dt) ∧
    (¬(s.busTieClosed = true ∧
        (computeBusFromGens env dt (tickUpToGens env dt s).portBus
            (getOnlineGensForBus (tickUpToGens env dt s) BusName.portBus)).live = true ∧
        (computeBusFromGens env dt (tickUpToGens env dt s).stbBus
            (getOnlineGensForBus (tickUpToGens env dt s) BusName.stbBus)).live = true) →
      (tick env dt s).portBus.voltage =
        (computeBusFromGens env dt (tickUpToGens env dt s).portBus
          (getOnlineGensForBus (tickUpToGens env dt s) BusName.portBus)).voltage ∧
      (tick env dt s).portBus.frequency =
        (computeBusFromGens env dt (tickUpToGens env dt s).portBus
          (getOnlineGensForBus (tickUpToGens env dt s) BusName.portBus)).frequency ∧
      (tick env dt s).stbBus.voltage =
        (computeBusFromGens env dt (tickUpToGens env dt s).stbBus
          (getOnlineGensForBus (tickUpToGens env dt s) BusName.stbBus)).voltage ∧
      (tick env dt s).stbBus.frequency =
        (computeBusFromGens env dt (tickUpToGens env dt s).stbBus
          (getOnlineGensForBus (tickUpToGens env dt s) BusName.stbBus)).frequency) ∧
    ((s.busTieClosed = true ∧
        (computeBusFromGens env dt (tickUpToGens env dt s).portBus
            (getOnlineGensForBus (tickUpToGens env dt s) BusName.portBus)).live = true ∧
        (computeBusFromGens env dt (tickUpToGens env dt s).stbBus
            (getOnlineGensForBus (tickUpToGens env dt s) BusName.stbBus)).live = true) →
      (tick env dt s).portBus.voltage =
        ((computeBusFromGens env dt (tickUpToGens env dt s).portBus
            (getOnlineGensForBus (tickUpToGens env dt s) BusName.portBus)).voltage +
         (computeBusFromGens env dt (tickUpToGens env dt s).stbBus
            (getOnlineGensForBus (tickUpToGens env dt s) BusName.stbBus)).voltage) / 2 ∧
      (tick env dt s).portBus.frequency =
        ((computeBusFromGens env dt (tickUpToGens env dt s).portBus
            (getOnlineGensForBus (tickUpToGens env dt s) BusName.portBus)).frequency +
         (computeBusFromGens env dt (tickUpToGens env dt s).stbBus
            (getOnlineGensForBus (tickUpToGens env dt s) BusName.stbBus)).frequency) / 2 ∧
      (tick env dt s).stbBus.voltage =
        ((computeBusFromGens env dt (tickUpToGens env dt s).portBus
            (getOnlineGensForBus (tickUpToGens env dt s) BusName.portBus)).voltage +
         (computeBusFromGens env dt (tickUpToGens env dt s).stbBus
            (getOnlineGensForBus (tickUpToGens env dt s) BusName.stbBus)).voltage) / 2 ∧
      (tick env dt s).stbBus.frequency =
        ((computeBusFromGens env dt (tickUpToGens env dt s).portBus
            (getOnlineGensForBus (tickUpToGens env dt s) BusName.portBus)).frequency +
         (computeBusFromGens env dt (tickUpToGens env dt s).stbBus
            (getOnlineGensForBus (tickUpToGens env dt s) BusName.stbBus)).frequency) / 2) := by
  have htick : tick env dt s = tickPhases env dt s := by
    simp [tick, hgo]
  have hpre : PSFrame (tickUpToGens env dt s) s := PSFrame_tickUpToGens env dt s
  have hpost : PSFrame (tickPhases env dt s)
      (computePortStbBuses env dt (tickUpToGens env dt s)) := by
    simp only [tickPhases]
    exact PSFrame_trans (PSFrame_checkBlackout _ _)
      (PSFrame_trans (PSFrame_checkProtection _ _)
        (PSFrame_trans (PSFrame_distributeLoad _ _ _)
          (PSFrame_trans (PSFrame_computeSubBuses _ _ _)
            (PSFrame_trans (PSFrame_computeEmergencyBus _ _ _) (PSFrame_computeMainBus _ _ _)))))
  refine ⟨?_, ?_, ?_, ?_, ?_, ?_⟩
  · intro hne
    exact computeBusFromGens_nonempty env dt _ _ hne
  · intro hz
    constructor
    · rw [(computeBusFromGens_empty env dt _ _ hz).1, hpre.1]
    · rw [(computeBusFromGens_empty env dt _ _ hz).2, hpre.1]
  · intro hne
    exact computeBusFromGens_nonempty env dt _ _ hne
  · intro hz
    constructor
    · rw [(computeBusFromGens_empty env dt _ _ hz).1, hpre.2.1]
    · rw [(computeBusFromGens_empty env dt _ _ hz).2, hpre.2.1]
  · intro hnc
    have hnc2 : ¬((tickUpToGens env dt s).busTieClosed = true ∧
        (computeBusFromGens env dt (tickUpToGens env dt s).portBus
            (getOnlineGensForBus (tickUpToGens env dt s) BusName.portBus)).live = true ∧
        (computeBusFromGens env dt (tickUpToGens env dt s).stbBus
            (getOnlineGensForBus (tickUpToGens env dt s) BusName.stbBus)).live = true) := by
      rw [hpre.2.2]
      exact hnc
    have hq := computePortStbBuses_noEq env dt (tickUpToGens env dt s) hnc2
    exact ⟨by rw [htick, hpost.1, hq.1], by rw [htick, hpost.1, hq.2.1],
           by rw [htick, hpost.2.1, hq.2.2.1], by rw [htick, hpost.2.1, hq.2.2.2]⟩
  · intro hc
    have hc2 : (tickUpToGens env dt s).busTieClosed = true ∧
        (computeBusFromGens env dt (tickUpToGens env dt s).portBus
            (getOnlineGensForBus (tickUpToGens env dt s) BusName.portBus)).live = true ∧
        (computeBusFromGens env dt (tickUpToGens env dt s).stbBus
            (getOnlineGensForBus (tickUpToGens env dt s) BusName.stbBus)).live = true := by
      rw [hpre.2.2]
      exact hc
    have hq := computePortStbBuses_tieClosed env dt (tickUpToGens env dt s) hc2
    exact ⟨by rw [htick, hpost.1, hq.1], by rw [htick, hpost.1, hq.2.1],
           by rw [htick, hpost.2.1, hq.2.2.1], by rw [htick, hpost.2.1, hq.2.2.2]⟩

set_option maxRecDepth 10000 in
set_option maxHeartbeats 4000000 in
theorem c5_bus_aggregation_amended_witness :
    gameOverTruthy c5State.gameOverReason = false ∧
    ((getOnlineGensForBus (tickUpToGens envZero 1 c5State) BusName.portBus).length ≠ 0 ∧
      (computeBusFromGens envZero 1 (tickUpToGens envZero 1 c5State).portBus
          (getOnlineGensForBus (tickUpToGens envZero 1 c5State) BusName.portBus)).voltage =
        capacityWeighted (fun g => g.voltage)
          (getOnlineGensForBus (tickUpToGens envZero 1 c5State) BusName.portBus)) ∧
    ((c5State.busTieClosed = true ∧
        (computeBusFromGens envZero 1 (tickUpToGens envZero 1 c5State).portBus
            (getOnlineGensForBus (tickUpToGens envZero 1 c5State) BusName.portBus)).live = true ∧
        (computeBusFromGens envZero 1 (tickUpToGens envZero 1 c5State).stbBus
            (getOnlineGensForBus (tickUpToGens envZero 1 c5State) BusName.stbBus)).live = true) ∧
      (tick envZero 1 c5State).portBus.voltage =
        ((computeBusFromGens envZero 1 (tickUpToGens envZero 1 c5State).portBus
            (getOnlineGensForBus (tickUpToGens envZero 1 c5State) BusName.portBus)).voltage +
         (computeBusFromGens envZero 1 (tickUpToGens envZero 1 c5State).stbBus
            (getOnlineGensForBus (tickUpToGens envZero 1 c5State) BusName.stbBus)).voltage) / 2) := by
  have h := c5_bus_aggregation_amended envZero 1 c5State (by with_unfolding_all decide)
  have hne : (getOnlineGensForBus (tickUpToGens envZero 1 c5State) BusName.portBus).length ≠ 0 := by
    with_unfolding_all decide
  have hC : c5State.busTieClosed = true ∧
      (computeBusFromGens envZero 1 (tickUpToGens envZero 1 c5State).portBus
          (getOnlineGensForBus (tickUpToGens envZero 1 c5State) BusName.portBus)).live = true ∧
      (computeBusFromGens envZero 1 (tickUpToGens envZero 1 c5State).stbBus
          (getOnlineGensForBus (tickUpToGens envZero 1 c5State) BusName.stbBus)).live = true := by
    with_unfolding_all decide
  exact ⟨by with_unfolding_all decide, ⟨hne, (h.1 hne).1⟩, ⟨hC, (h.2.2.2.2.2 hC).1⟩⟩

end PMS
